import Mathlib

/-!
# ARP cache and forwarding plane of the `sr` router

A shallow embedding of `src/router/sr_arpcache.c` and `src/router/sr_router.c`.

Conventions of the embedding

* A byte is a `Nat`; a buffer is a `List Nat`.  A C string is the list of its
  bytes before the terminating NUL.
* `uint32_t` IPv4 values are `Nat`s; they are only compared and copied.
* `time_t` values are `Int` seconds; `difftime a b` is the exact difference
  `a - b`.  Every call of `time(NULL)` is an explicit argument of the
  function that makes it.
* The entry array `entries[SR_ARPCACHE_SZ]` is the list `entries`; its length
  plays the role of `SR_ARPCACHE_SZ` (declared in `sr_arpcache.h`), so a loop
  `for (i = 0; i < SR_ARPCACHE_SZ; i++)` is a recursion over that list.
* The request queue (a singly linked list through `next`) is the list
  `requests`, head first.  A pointer to a queued request is the position of
  that request in the queue.
* The mutex calls have no effect on the data and are left out.
-/

namespace Router

set_option linter.unusedVariables false

/-! ## Data model (`sr_arpcache.h`, as used by `sr_arpcache.c`) -/

/-- One slot of the cache, `struct sr_arpentry`: `mac[6]`, `ip`, `added`, `valid`. -/
structure sr_arpentry where
  mac : List Nat
  ip : Nat
  added : Int
  valid : Nat
deriving DecidableEq

/-- A pending packet, `struct sr_packet`: `buf`, `len`, `iface` (and `next`,
which is the tail of the list the packet is in). -/
structure sr_packet where
  buf : List Nat
  len : Nat
  iface : List Nat
deriving DecidableEq

/-- An ARP request, `struct sr_arpreq`: `ip`, `sent`, `times_sent`, `packets`
(and `next`, which is the tail of the queue). -/
structure sr_arpreq where
  ip : Nat
  sent : Int
  times_sent : Nat
  packets : List sr_packet
deriving DecidableEq

/-- The cache, `struct sr_arpcache`: the entry array and the request queue. -/
structure sr_arpcache where
  entries : List sr_arpentry
  requests : List sr_arpreq
deriving DecidableEq

/-- Modelled from the spec: the capacity of the entry array, `SR_ARPCACHE_SZ`
of the header `sr_arpcache.h` ("a fixed-capacity array (design constant, e.g.
100)").  The operations below never mention it: they run over the whole entry
list.  It only sizes the concrete caches of the examples. -/
def SR_ARPCACHE_SZ : Nat := 100

/-! ## `sr_arpcache_lookup` (lines 101-123) -/

/-- The loop of lines 107-111: `entry` is overwritten at every valid slot that
holds `ip`, and the loop does not stop at a match. -/
def lookup_loop (ip : Nat) : List sr_arpentry → Option sr_arpentry → Option sr_arpentry
  | [], entry => entry
  | e :: rest, entry =>
    if e.valid ≠ 0 ∧ e.ip = ip then lookup_loop ip rest (some e)
    else lookup_loop ip rest entry

/-- The function `sr_arpcache_lookup`: the cache after the call, and the copy
returned (`none` for `NULL`).  The copy is a `memcpy` of the slot. -/
def sr_arpcache_lookup (cache : sr_arpcache) (ip : Nat) : sr_arpcache × Option sr_arpentry :=
  (cache, lookup_loop ip cache.entries none)

/-! ## `sr_arpcache_queuereq` (lines 131-170) -/

/-- The loop of lines 140-144: the position of the first queued request whose
`ip` is `ip`, `none` when the loop ends with `req == NULL`. -/
def queuereq_find (ip : Nat) : List sr_arpreq → Option Nat
  | [] => none
  | req :: rest =>
    if req.ip = ip then some 0 else (queuereq_find ip rest).map (· + 1)

/-- The assignment `req->packets = new_pkt` with `new_pkt->next = req->packets`
of lines 163-164, on the request at position `k`. -/
def push_packet (pkt : sr_packet) : Nat → List sr_arpreq → List sr_arpreq
  | _, [] => []
  | 0, req :: rest => { req with packets := pkt :: req.packets } :: rest
  | k + 1, req :: rest => req :: push_packet pkt k rest

/-- The function `sr_arpcache_queuereq`.  `NAMELEN` is `sr_IFACE_NAMELEN` of the
header `sr_if.h`.  `packet` and `iface` are `none` for a `NULL` pointer.  The
result is the cache after the call and the position in its queue of the
request returned.  `strncpy` keeps at most `NAMELEN` bytes of the name, and
`memcpy` copies the first `packet_len` bytes of the frame. -/
def sr_arpcache_queuereq (NAMELEN : Nat) (cache : sr_arpcache) (ip : Nat)
    (packet : Option (List Nat)) (packet_len : Nat) (iface : Option (List Nat)) :
    sr_arpcache × Nat :=
  let found := queuereq_find ip cache.requests
  let requests1 : List sr_arpreq :=
    match found with
    | some _ => cache.requests
    | none => { ip := ip, sent := 0, times_sent := 0, packets := [] } :: cache.requests
  let req : Nat :=
    match found with
    | some k => k
    | none => 0
  let requests2 : List sr_arpreq :=
    match packet, iface with
    | some p, some name =>
      if packet_len ≠ 0 then
        push_packet { buf := p.take packet_len, len := packet_len, iface := name.take NAMELEN }
          req requests1
      else requests1
    | _, _ => requests1
  ({ cache with requests := requests2 }, req)

/-! ## `sr_arpcache_insert` (lines 176-215) -/

/-- The loop of lines 183-197: unlinks the first queued request whose `ip` is
`ip`.  The result is the queue after the loop and the value of `req` (the
unlinked request, `none` for `NULL`). -/
def insert_unlink (ip : Nat) : List sr_arpreq → List sr_arpreq × Option sr_arpreq
  | [] => ([], none)
  | req :: rest =>
    if req.ip = ip then (rest, some req)
    else ((req :: (insert_unlink ip rest).1), (insert_unlink ip rest).2)

/-- The loop of lines 200-203: the index of the first slot that is not valid,
or the number of slots when every slot is valid. -/
def first_invalid : List sr_arpentry → Nat
  | [] => 0
  | e :: rest => if e.valid = 0 then 0 else first_invalid rest + 1

/-- The function `sr_arpcache_insert`; `now` is the value of `time(NULL)` at
line 208.  The result is the cache after the call and the request returned. -/
def sr_arpcache_insert (cache : sr_arpcache) (mac : List Nat) (ip : Nat) (now : Int) :
    sr_arpcache × Option sr_arpreq :=
  let q := insert_unlink ip cache.requests
  let i := first_invalid cache.entries
  let entries :=
    if i ≠ cache.entries.length then
      cache.entries.set i { mac := mac.take 6, ip := ip, added := now, valid := 1 }
    else cache.entries
  ({ entries := entries, requests := q.1 }, q.2)

/-! ## `sr_arpreq_destroy` (lines 219-255) -/

/-- The loop of lines 224-238: unlinks the queue node that is `entry`, here the
node at position `k`. -/
def destroy_unlink : Nat → List sr_arpreq → List sr_arpreq
  | _, [] => []
  | 0, _ :: rest => rest
  | k + 1, req :: rest => req :: destroy_unlink k rest

/-- The function `sr_arpreq_destroy`.  `entry` is `some k` for a pointer to the
request at position `k` of the queue, and `none` for `NULL` or for a request
that is not on the queue (one that `sr_arpcache_insert` unlinked): for such a
pointer the loop finds no node and only the request's own memory is freed. -/
def sr_arpreq_destroy (cache : sr_arpcache) (entry : Option Nat) : sr_arpcache :=
  match entry with
  | none => cache
  | some k => { cache with requests := destroy_unlink k cache.requests }

/-! ## `sr_arpcache_init` (lines 273-287) -/

/-- The function `sr_arpcache_init`: `memset` clears every slot and the queue
is set to `NULL`. -/
def sr_arpcache_init (cache : sr_arpcache) : sr_arpcache :=
  { entries := cache.entries.map
      (fun _ => { mac := List.replicate 6 0, ip := 0, added := 0, valid := 0 })
    requests := [] }

/-! ## The router instance and its collaborators -/

/-- An interface, `struct sr_if` of `sr_if.h`: `name`, `addr[6]`, `ip`. -/
structure sr_if where
  name : List Nat
  addr : List Nat
  ip : Nat
deriving DecidableEq

/-- The router, `struct sr_instance`, as far as the two source files use it:
the interface list, whether `sr->nat` is non-`NULL`, and the cache.  `sent` is
the record of the link layer: the frames handed to `sr_send_packet`, oldest
first, each with the name of the interface it was sent on. -/
structure sr_instance where
  if_list : List sr_if
  nat : Bool
  cache : sr_arpcache
  sent : List (List Nat × List Nat)
deriving DecidableEq

/-- Modelled from the spec: `sr_get_interface` of `sr_if.c`, which is not among
the sources ("`interface_by_name(name) → Interface`"): the first interface of
the list with that name, `none` for `NULL`. -/
def sr_get_interface (sr : sr_instance) (name : List Nat) : Option sr_if :=
  sr.if_list.find? (fun i => decide (i.name = name))

/-- Modelled from the spec: `sr_send_packet` of `sr_vns_comm.c`, which is not
among the sources ("`send_frame(interface_name, bytes, len)` — non-blocking
link transmit"): the first `len` bytes of the buffer go out on `iface`. -/
def sr_send_packet (sr : sr_instance) (buf : List Nat) (len : Nat) (iface : List Nat) :
    sr_instance :=
  { sr with sent := sr.sent ++ [(iface, buf.take len)] }

/-! ## Bytes and header fields

Modelled from the spec: the header layouts of `sr_protocol.h`, which is not
among the sources, are the wire formats the spec names (Ethernet II, ARP per
RFC 826, IPv4 per RFC 791, ICMP per RFC 792).  The offsets below are those of
a frame that starts with the 14-byte Ethernet header. -/

/-- The bytes `buf[off .. off + n)`. -/
def peek (buf : List Nat) (off n : Nat) : List Nat := (buf.drop off).take n

/-- The buffer after `src` is written at offset `off` (`memcpy`, or the store
of a field). -/
def poke (buf : List Nat) (off : Nat) (src : List Nat) : List Nat :=
  buf.take off ++ src ++ buf.drop (off + src.length)

/-- The two bytes a `uint16_t` occupies in memory (little-endian host). -/
def u16_bytes (v : Nat) : List Nat := [v % 256, v / 256 % 256]

/-- The four bytes a `uint32_t` occupies in memory (little-endian host). -/
def u32_bytes (v : Nat) : List Nat :=
  [v % 256, v / 256 % 256, v / 65536 % 256, v / 16777216 % 256]

/-- The functions `htons` and `ntohs` on a little-endian host: the two bytes swapped. -/
def htons (v : Nat) : Nat := v % 256 * 256 + v / 256 % 256

/-- The sum of the 16-bit big-endian words of the data, an odd last byte
counted as the high byte of a word. -/
def sum16 : List Nat → Nat
  | [] => 0
  | [b] => b * 256
  | b0 :: b1 :: rest => b0 * 256 + b1 + sum16 rest

/-- The end-around carry: while the sum exceeds 16 bits, its high part is
added to its low part. -/
def fold_carry : Nat → Nat → Nat
  | 0, s => s
  | fuel + 1, s => if 0xffff < s then fold_carry fuel (s / 65536 + s % 65536) else s

/-- Modelled from the spec: `cksum` of `sr_utils.c`, which is not among the
sources ("Internet checksum follows RFC 1071 (16-bit one's-complement sum)"):
the complement of the one's-complement sum of the data, as the `uint16_t` in
network byte order that the callers store into a header. -/
def cksum (data : List Nat) : Nat :=
  htons (0xffff - fold_carry (sum16 data) (sum16 data))

/-! ## `sr_sendICMP` (`sr_router.c`, lines 241-302) -/

/-- The frame `sr_sendICMP` builds in `newPacket` from the offending frame
`packet`, the interface found for `iface`, and `type` and `code`. -/
def icmp_frame (packet : List Nat) (interface : sr_if) (type code : Nat) : List Nat :=
  let len : Nat := if type = 3 ∨ type = 11 then 14 + 20 + 36 else 14 + 20 + 4
  let p0 : List Nat := List.replicate len 0
  -- memcpy of the Ethernet header and of the IP header
  let p1 := poke p0 0 (peek packet 0 14)
  let p2 := poke p1 14 (peek packet 14 20)
  -- ether_dhost[i] = ether_shost[i]; ether_shost[i] = interface->addr[i]
  let p3 := poke p2 0 (peek p2 6 6)
  let p4 := poke p3 6 (interface.addr.take 6)
  -- ether_type = ntohs(ethertype_ip)
  let p5 := poke p4 12 (u16_bytes (htons 0x0800))
  -- ip_p = ip_protocol_icmp; ip_hl = 5; ip_len = htons(len - 14); ip_ttl = 65
  let p6 := poke p5 23 [1]
  let p7 := poke p6 14 [(peek p6 14 1).headD 0 / 16 % 16 * 16 + 5]
  let p8 := poke p7 16 (u16_bytes (htons (len - 14)))
  let p9 := poke p8 22 [65]
  -- temp_dst = ip_dst; ip_dst = ip_src; ip_src = temp_dst
  let temp_dst := peek p9 30 4
  let p10 := poke p9 30 (peek p9 26 4)
  let p11 := poke p10 26 temp_dst
  -- ip_ttl--; ip_sum = 0; ip_src = interface->ip; ip_sum = cksum(ipPacket, 20)
  let p12 := poke p11 22 [((peek p11 22 1).headD 0 + 255) % 256]
  let p13 := poke p12 24 [0, 0]
  let p14 := poke p13 26 (u32_bytes interface.ip)
  let p15 := poke p14 24 (u16_bytes (cksum (peek p14 14 20)))
  if type = 3 ∨ type = 11 then
    -- memcpy(icmpPacket->data, ipHeader, 28); type, code, unused, next_mtu, sum
    let q1 := poke p15 42 (peek packet 14 28)
    let q2 := poke q1 34 [type % 256]
    let q3 := poke q2 35 [code % 256]
    let q4 := poke q3 38 [0, 0]
    let q5 := poke q4 40 [0, 0]
    let q6 := poke q5 36 [0, 0]
    poke q6 36 (u16_bytes (cksum (peek q6 34 36)))
  else
    let q1 := poke p15 34 [type % 256]
    let q2 := poke q1 35 [code % 256]
    let q3 := poke q2 36 [0, 0]
    poke q3 36 (u16_bytes (cksum (peek q3 34 4)))

/-- The function `sr_sendICMP`.  `packet` is the buffer the pointer refers to.
The result is `none` where the C code has no defined result: when the copies
read past the end of the buffer (34 bytes are read, 42 for type 3 and 11), and
when `sr_get_interface` returns `NULL`, which line 263 dereferences. -/
def sr_sendICMP (sr : sr_instance) (packet : List Nat) (iface : List Nat) (type code : Nat) :
    Option sr_instance :=
  let len : Nat := if type = 3 ∨ type = 11 then 14 + 20 + 36 else 14 + 20 + 4
  if packet.length < (if type = 3 ∨ type = 11 then 42 else 34) then none
  else
    match sr_get_interface sr iface with
    | none => none
    | some interface => some (sr_send_packet sr (icmp_frame packet interface type code) len iface)

/-! ## `handle_arpreq` (`sr_arpcache.c`, lines 318-372) -/

/-- The loop of lines 322-324: one `sr_sendICMP(sr, packet->buf, packet->iface, 3, 1)`
for each pending packet, in list order. -/
def send_unreachable : sr_instance → List sr_packet → Option sr_instance
  | sr, [] => some sr
  | sr, packet :: rest =>
    match sr_sendICMP sr packet.buf packet.iface 3 1 with
    | none => none
    | some sr1 => send_unreachable sr1 rest

/-- The frame `handle_arpreq` builds in `out` (lines 328-350) for the target
address `ip` and the interface `if_walker`. -/
def arp_request_frame (ip : Nat) (if_walker : sr_if) : List Nat :=
  let o0 : List Nat := List.replicate (14 + 28) 0
  -- ar_hrd, ar_pro, ar_op, ar_hln, ar_pln
  let o1 := poke o0 14 (u16_bytes (htons 0x0001))
  let o2 := poke o1 16 (u16_bytes (htons 0x800))
  let o3 := poke o2 20 (u16_bytes (htons 0x0001))
  let o4 := poke o3 18 [0x0006]
  let o5 := poke o4 19 [0x0004]
  -- memset(ar_tha, 255, 6); ar_tip = req->ip
  let o6 := poke o5 32 (List.replicate 6 255)
  let o7 := poke o6 38 (u32_bytes ip)
  -- ether_type = htons(0x0806); memset(ether_dhost, 255, 6)
  let o8 := poke o7 12 (u16_bytes (htons 0x0806))
  let o9 := poke o8 0 (List.replicate 6 255)
  -- ar_sip = if_walker->ip; memcpy of if_walker->addr into ar_sha and ether_shost
  let o10 := poke o9 28 (u32_bytes if_walker.ip)
  let o11 := poke o10 22 (if_walker.addr.take 6)
  poke o11 6 (if_walker.addr.take 6)

/-- What a call of `handle_arpreq` leaves behind: the router, the request the
pointer `req` refers to (`none` once it is freed), and the queue position of
the node `req->next` points to (the position of `NULL` is the queue length). -/
structure handled where
  sr : sr_instance
  req : Option sr_arpreq
  next : Nat
deriving DecidableEq

/-- The function `handle_arpreq`.  `req` is the position in the queue of the
request handled, `curtime` the value of `time(NULL)` at line 319 and `instime`
the value of `time(NULL)` inside the `sr_arpcache_insert` call of line 351.

The result is `none` where the C code has no defined result: `req` is not a
queued request; `sr_sendICMP` has none; line 346 dereferences `req->packets`
when it is `NULL`; line 359 reads the uninitialised `packet` when `sr->nat` is
set (and goes on to `sr_handle_nat`, which is not among the sources).

The `sr_arpcache_insert` call of line 351 unlinks the first request whose `ip`
is the interface's: the request handled can move one position up, or be that
very request, in which case lines 368-369 write to a request that is no longer
queued. -/
def handle_arpreq (sr : sr_instance) (req : Nat) (curtime instime : Int) : Option handled :=
  match sr.cache.requests[req]? with
  | none => none
  | some r =>
    if 5 ≤ r.times_sent then
      match send_unreachable sr r.packets with
      | none => none
      | some sr1 =>
        some { sr := { sr1 with cache := sr_arpreq_destroy sr1.cache (some req) }
               req := none
               next := req }
    else if r.sent = 0 ∨ 1 ≤ curtime - r.sent then
      match r.packets with
      | [] => none
      | first :: _ =>
        let r1 : sr_arpreq := { r with sent := curtime, times_sent := r.times_sent + 1 }
        match sr_get_interface sr first.iface with
        | some if_walker =>
          let out := arp_request_frame r.ip if_walker
          let ins := sr_arpcache_insert sr.cache if_walker.addr if_walker.ip instime
          let sr1 := sr_send_packet { sr with cache := ins.1 } out (14 + 28) if_walker.name
          let pos : Option Nat :=
            match queuereq_find if_walker.ip sr.cache.requests with
            | none => some req
            | some j => if j < req then some (req - 1) else if j = req then none else some req
          match pos with
          | some q =>
            some { sr := { sr1 with cache := { sr1.cache with
                                               requests := sr1.cache.requests.set q r1 } }
                   req := some r1
                   next := q + 1 }
          | none => some { sr := sr1, req := some r1, next := req }
        | none =>
          if sr.nat then none
          else
            some { sr := { sr with cache := { sr.cache with
                                              requests := sr.cache.requests.set req r1 } }
                   req := some r1
                   next := req + 1 }
    else some { sr := sr, req := some r, next := req + 1 }

/-! ## `sr_arpcache_sweepreqs` (lines 88-95) and the timer (lines 296-315) -/

/-- The loop of `sr_arpcache_sweepreqs`.  `req` is the position of the current
node and `i` counts the iterations; `clk i` holds the two clock readings of the
`handle_arpreq` call of iteration `i`.  The loop reads `req->next` after the
call, also from a request the call has freed or unlinked, whose `next` field
still holds the node that followed it.  The first argument bounds the number
of iterations; the result is `none` if the bound is reached before the end of
the queue, or a `handle_arpreq` call has no result. -/
def sweep_loop (clk : Nat → Int × Int) : Nat → Nat → sr_instance → Nat → Option sr_instance
  | 0, _, sr, req => if req < sr.cache.requests.length then none else some sr
  | fuel + 1, i, sr, req =>
    if sr.cache.requests.length ≤ req then some sr
    else
      match handle_arpreq sr req (clk i).1 (clk i).2 with
      | none => none
      | some h => sweep_loop clk fuel (i + 1) h.sr h.next

/-- The function `sr_arpcache_sweepreqs`: the loop from the head of the queue,
with one iteration allowed for each request queued at the start. -/
def sr_arpcache_sweepreqs (sr : sr_instance) (clk : Nat → Int × Int) : Option sr_instance :=
  sweep_loop clk sr.cache.requests.length 0 sr 0

/-- The loop of lines 306-310 of `sr_arpcache_timeout`.  `TO` is
`SR_ARPCACHE_TO` of `sr_arpcache.h`. -/
def timeout_invalidate (TO : Int) (curtime : Int) : List sr_arpentry → List sr_arpentry
  | [] => []
  | e :: rest =>
    (if e.valid ≠ 0 ∧ TO < curtime - e.added then { e with valid := 0 } else e)
      :: timeout_invalidate TO curtime rest

/-- One pass of the body of the `while (1)` loop of `sr_arpcache_timeout`
(lines 303-311), after the `sleep`: `curtime` is the value of `time(NULL)` at
line 303. -/
def sr_arpcache_timeout_pass (TO : Int) (sr : sr_instance) (curtime : Int)
    (clk : Nat → Int × Int) : Option sr_instance :=
  sr_arpcache_sweepreqs
    { sr with cache := { sr.cache with
                         entries := timeout_invalidate TO curtime sr.cache.entries } } clk

/-! ## Sequences of cache calls, and the queue invariant -/

/-- The queue holds at most one request for each target address: the target
addresses of the queued requests are pairwise different. -/
def one_request_per_ip (queue : List sr_arpreq) : Prop :=
  (queue.map (fun r => r.ip)).Nodup

instance (queue : List sr_arpreq) : Decidable (one_request_per_ip queue) :=
  inferInstanceAs (Decidable ((queue.map (fun r : sr_arpreq => r.ip)).Nodup))

/-- A call of one of the three functions that change the request queue, with
its arguments. -/
inductive cache_call where
  | queuereq (NAMELEN : Nat) (ip : Nat) (packet : Option (List Nat)) (packet_len : Nat)
      (iface : Option (List Nat))
  | insert (mac : List Nat) (ip : Nat) (now : Int)
  | destroy (entry : Option Nat)

/-- The cache after one call. -/
def run_call (cache : sr_arpcache) : cache_call → sr_arpcache
  | .queuereq NAMELEN ip packet packet_len iface =>
    (sr_arpcache_queuereq NAMELEN cache ip packet packet_len iface).1
  | .insert mac ip now => (sr_arpcache_insert cache mac ip now).1
  | .destroy entry => sr_arpreq_destroy cache entry

/-- The cache after a sequence of calls, first call first. -/
def run_calls (cache : sr_arpcache) (calls : List cache_call) : sr_arpcache :=
  calls.foldl run_call cache

/-! ## Concrete inputs -/

/-- A slot that is not valid, as `sr_arpcache_init` leaves it. -/
def free_slot : sr_arpentry := { mac := [0, 0, 0, 0, 0, 0], ip := 0, added := 0, valid := 0 }

/-- A valid slot that binds address 7 to the MAC 01:01:01:01:01:01. -/
def old_slot : sr_arpentry := { mac := [1, 1, 1, 1, 1, 1], ip := 7, added := 0, valid := 1 }

/-- A cache of `SR_ARPCACHE_SZ` slots: slot 0 is free, slot 1 holds a binding
for address 7, the other slots are free; no request is queued. -/
def stale_cache : sr_arpcache :=
  { entries := free_slot :: old_slot :: List.replicate (SR_ARPCACHE_SZ - 2) free_slot
    requests := [] }

/-- A cache of `SR_ARPCACHE_SZ` slots, all valid, none for address 9. -/
def full_cache : sr_arpcache :=
  { entries := List.replicate SR_ARPCACHE_SZ old_slot, requests := [] }

/-- The interface name `eth1`. -/
def eth1 : List Nat := [101, 116, 104, 49]

/-- A pending packet: a 3-byte frame for `eth1`. -/
def old_packet : sr_packet := { buf := [9, 9, 9], len := 3, iface := eth1 }

/-- A cache of `SR_ARPCACHE_SZ` free slots with one request queued, for address
7, that holds one pending packet. -/
def one_request_cache : sr_arpcache :=
  { entries := List.replicate SR_ARPCACHE_SZ free_slot
    requests := [{ ip := 7, sent := 0, times_sent := 0, packets := [old_packet] }] }

/-- Every queued request holds a pending packet, and every pending packet is a
frame of at least 42 bytes (Ethernet header, IP header, 8 bytes of payload)
queued for an interface of the router.  On such a queue no call of
`handle_arpreq` reads past a buffer or through a `NULL` pointer. -/
abbrev requests_sendable (sr : sr_instance) : Prop :=
  ∀ r ∈ sr.cache.requests, r.packets ≠ [] ∧
    ∀ p ∈ r.packets, 42 ≤ p.buf.length ∧ (sr_get_interface sr p.iface).isSome = true

/-- The interface `eth1`, with MAC 02:00:00:00:00:01 and address 10.0.1.1. -/
def eth1_if : sr_if := { name := eth1, addr := [2, 0, 0, 0, 0, 1], ip := 16842762 }

/-- A 42-byte frame: Ethernet header, a 20-byte IP header from 10.0.1.5 to
10.0.2.9, and 8 bytes of payload. -/
def frame42 : List Nat :=
  [2, 0, 0, 0, 0, 1, 2, 0, 0, 0, 0, 5, 8, 0,
   69, 0, 0, 28, 0, 0, 0, 0, 64, 17, 0, 0, 10, 0, 1, 5, 10, 0, 2, 9,
   0, 53, 0, 53, 0, 8, 0, 0]

/-- A router with the one interface `eth1`, NAT off, a cache of `SR_ARPCACHE_SZ`
slots of which slot 0 holds a binding added at time 0, and one request, for
address 7, that has been sent `n` times, last at time `t`, and holds `frame42`
for `eth1`. -/
def router_with (n : Nat) (t : Int) : sr_instance :=
  { if_list := [eth1_if]
    nat := false
    cache :=
      { entries := old_slot :: List.replicate (SR_ARPCACHE_SZ - 1) free_slot
        requests := [{ ip := 7, sent := t, times_sent := n,
                       packets := [{ buf := frame42, len := 42, iface := eth1 }] }] }
    sent := [] }

/-! ## `sr_router.c`: collaborators -/

/-- A route, `struct sr_rt` of `sr_rt.h`: `dest`, `gw`, `mask`, `interface`. -/
structure sr_rt where
  dest : Nat
  gw : Nat
  mask : Nat
  interface : List Nat
deriving DecidableEq

/-- Modelled from the spec: `sr_get_interface_from_ip` of `sr_if.c`, which is
not among the sources ("`interface_by_local_ip(ip) → Option<Interface>`"): the
first interface of the list whose address is `ip`, `none` for `NULL`. -/
def sr_get_interface_from_ip (sr : sr_instance) (ip : Nat) : Option sr_if :=
  sr.if_list.find? (fun i => decide (i.ip = ip))

/-- The byte at offset `off` (0 past the end of the list; the functions below
check the buffer length before they read). -/
def get_u8 (buf : List Nat) (off : Nat) : Nat := buf.getD off 0

/-- The `uint16_t` a little-endian host reads at offset `off`. -/
def get_u16 (buf : List Nat) (off : Nat) : Nat := get_u8 buf off + 256 * get_u8 buf (off + 1)

/-- The `uint32_t` a little-endian host reads at offset `off`. -/
def get_u32 (buf : List Nat) (off : Nat) : Nat :=
  get_u8 buf off + 256 * get_u8 buf (off + 1) + 65536 * get_u8 buf (off + 2)
    + 16777216 * get_u8 buf (off + 3)

/-- The functions `htonl` and `ntohl` on a little-endian host: the four bytes
reversed. -/
def htonl (v : Nat) : Nat :=
  v % 256 * 16777216 + v / 256 % 256 * 65536 + v / 65536 % 256 * 256 + v / 16777216 % 256

/-- Modelled from the spec: `set_eth_addr` of `sr_utils.c`, which is not among
the sources ("set Ethernet src ← egress-interface MAC, dst ← cached MAC"): the
Ethernet source becomes the six bytes at `src` and the Ethernet destination
the six bytes that were at `dst` when the call was made. -/
def set_eth_addr (buf src dst : List Nat) : List Nat :=
  poke (poke buf 6 (src.take 6)) 0 (dst.take 6)

/-- The four statements that `sr_sendIP` (lines 225-228) and the loop of
`sr_handleARPpacket` (lines 202-206) both run on a frame before sending it:
`set_eth_addr`, the 8-bit decrement of `ip_ttl`, `ip_sum = 0`, and
`ip_sum = cksum(ipHeader, 20)`. -/
def forward_rewrite (buf src dst : List Nat) : List Nat :=
  let p1 := set_eth_addr buf src dst
  let p2 := poke p1 22 [(get_u8 p1 22 + 255) % 256]
  let p3 := poke p2 24 [0, 0]
  poke p3 24 (u16_bytes (cksum (peek p3 14 20)))

/-! ## `tcp_cksum` (lines 454-488) -/

/-- The function `tcp_cksum`: the buffer after the call and the value returned.
The pseudo-header `struct sr_tcp_pshdr` is modelled from the spec ("the 12-byte
virtual header (src IP, dst IP, zero, protocol, TCP length)").  The result is
`none` when the frame is shorter than the two headers or than `len`, or the
checksum field lies past the end of the buffer. -/
def tcp_cksum (packet : List Nat) (len : Nat) : Option (List Nat × Nat) :=
  if len < 34 ∨ packet.length < len ∨ packet.length < 52 then none
  else
    let tcp_length : Nat := (len - 34) % 65536
    let h0 : List Nat := List.replicate 12 0
    let h1 := poke h0 0 (peek packet 26 4)
    let h2 := poke h1 4 (peek packet 30 4)
    let h3 := poke h2 9 [get_u8 packet 23]
    let tcp_pshdr := poke h3 10 (u16_bytes (htons tcp_length))
    let checksum := get_u16 packet 50
    let p1 := poke packet 50 [0, 0]
    let total_tcp := tcp_pshdr ++ peek p1 34 tcp_length
    let new_cksum := cksum total_tcp
    let p2 := poke p1 50 (u16_bytes new_cksum)
    if checksum ≠ new_cksum then some (p2, 1) else some (p2, 0)

/-! ## `sr_sendIP` (lines 215-239) -/

/-- The function `sr_sendIP`.  `rt` is `none` for a `NULL` route.  `curtime` and
`instime` are the clock readings of the `handle_arpreq` call of line 236.  The
result is the router and the packet buffer after the call; it is `none` when
`rt` or the interface of the route is `NULL` (lines 216, 225, 233), when the
buffer does not hold the two headers, or when `handle_arpreq` has no result. -/
def sr_sendIP (NAMELEN : Nat) (sr : sr_instance) (packet : List Nat) (len : Nat)
    (rt : Option sr_rt) (interface : List Nat) (curtime instime : Int) :
    Option (sr_instance × List Nat) :=
  match rt with
  | none => none
  | some rt =>
    if packet.length < 34 then none
    else
      match sr_get_interface sr rt.interface with
      | none => none
      | some iface =>
        match (sr_arpcache_lookup sr.cache rt.gw).2 with
        | some entry =>
          let p4 := forward_rewrite packet iface.addr entry.mac
          some (sr_send_packet sr p4 len rt.interface, p4)
        | none =>
          let p1 := poke packet 6 (iface.addr.take 6)
          let q := sr_arpcache_queuereq NAMELEN sr.cache rt.gw (some p1) len (some rt.interface)
          match handle_arpreq { sr with cache := q.1 } q.2 curtime instime with
          | none => none
          | some h => some (h.sr, p1)

/-! ## `sr_handleIPpacket` (lines 110-168) -/

/-- The function `sr_handleIPpacket`.  `route` is `sr_find_routing_entry_int` of
`sr_rt.c`, which is not among the sources: the route found for a destination
address, `none` for `NULL`.  The result is the router and the packet buffer
after the call. -/
def sr_handleIPpacket (NAMELEN : Nat) (route : Nat → Option sr_rt) (sr : sr_instance)
    (packet : List Nat) (len : Nat) (interface : List Nat) (iface : Option sr_if)
    (curtime instime : Int) : Option (sr_instance × List Nat) :=
  if packet.length < 34 then none
  else
    let if_iface := sr_get_interface_from_ip sr (get_u32 packet 30)
    let incm_cksum := get_u16 packet 24
    let p0 := poke packet 24 [0, 0]
    let calc_cksum := cksum (peek p0 14 20)
    let p1 := poke p0 24 (u16_bytes incm_cksum)
    if calc_cksum ≠ incm_cksum then some (sr, p1)
    else if if_iface.isSome then
      if get_u8 p1 23 = 6 ∨ get_u8 p1 23 = 17 then
        (sr_sendICMP sr p1 interface 3 3).map (fun s => (s, p1))
      else if get_u8 p1 23 = 1 ∧ get_u8 p1 15 = 0 then
        if len < 34 ∨ p1.length < len ∨ p1.length < 38 then none
        else
          let incm_cksum2 := get_u16 p1 36
          let q0 := poke p1 36 [0, 0]
          let calc_cksum2 := cksum (peek q0 34 (len - 34))
          let q1 := poke q0 36 (u16_bytes incm_cksum2)
          let type := get_u8 q1 34
          let code := get_u8 q1 35
          if incm_cksum2 ≠ calc_cksum2 then some (sr, q1)
          else if type = 8 ∧ code = 0 then
            sr_sendIP NAMELEN sr q1 len (route (get_u32 q1 30)) interface curtime instime
          else some (sr, q1)
      else some (sr, p1)
    else if get_u8 p1 22 = 0 then
      (sr_sendICMP sr p1 interface 11 0).map (fun s => (s, p1))
    else
      match route (get_u32 p1 30) with
      | some rt =>
        if get_u8 p1 23 = 6 then
          match sr_sendICMP sr p1 interface 3 3 with
          | none => none
          | some s =>
            match tcp_cksum p1 len with
            | none => none
            | some t => some (s, t.1)
        else sr_sendIP NAMELEN sr p1 len (some rt) interface curtime instime
      | none => (sr_sendICMP sr p1 interface 3 0).map (fun s => (s, p1))

/-! ## `sr_handleARPpacket` (lines 170-213) -/

/-- The loop of lines 200-208: each pending packet of the request is rewritten
in its own buffer and sent on `req_iface`.  `sha` is the sender MAC of the ARP
reply.  The result is `none` when `req_iface` is `NULL`, which line 202
dereferences, or a buffer does not hold the two headers. -/
def drain_pending (req_iface : Option sr_if) (sha : List Nat) :
    sr_instance → List sr_packet → Option sr_instance
  | sr, [] => some sr
  | sr, req_packet :: rest =>
    match req_iface with
    | none => none
    | some ifc =>
      if req_packet.buf.length < 34 then none
      else
        let b4 := forward_rewrite req_packet.buf ifc.addr sha
        drain_pending req_iface sha (sr_send_packet sr b4 req_packet.len ifc.name) rest

/-- The function `sr_handleARPpacket`.  `iface` is the receiving interface as
`sr_handlepacket` found it (`none` for `NULL`), `now` the value of `time(NULL)`
inside `sr_arpcache_insert`.  The opcodes `arp_op_request` and `arp_op_reply`
are 1 and 2 (RFC 826).  The result is the router and the packet buffer after
the call; it is `none` when the buffer does not hold the ARP header or a
`NULL` interface is dereferenced.  The `sr_arpreq_destroy` call of line 209 is
given a request that `sr_arpcache_insert` has unlinked. -/
def sr_handleARPpacket (sr : sr_instance) (packet : List Nat) (len : Nat)
    (iface : Option sr_if) (interface : List Nat) (now : Int) :
    Option (sr_instance × List Nat) :=
  if packet.length < 42 then none
  else
    let req_iface := sr_get_interface_from_ip sr (htonl (get_u32 packet 38))
    if htons (get_u16 packet 20) = 1 then
      match req_iface with
      | some _ =>
        match iface with
        | none => none
        | some iface =>
          let p1 := poke packet 20 (u16_bytes (htons 2))
          let temp := peek p1 28 4
          let p2 := poke p1 28 (peek p1 38 4)
          let p3 := poke p2 38 temp
          let p4 := poke p3 32 (peek p3 22 6)
          let p5 := poke p4 22 (iface.addr.take 6)
          let p6 := set_eth_addr p5 iface.addr (peek p5 6 6)
          some (sr_send_packet sr p6 len iface.name, p6)
      | none => some (sr, packet)
    else if htons (get_u16 packet 20) = 2 then
      let ins := sr_arpcache_insert sr.cache (peek packet 22 6) (get_u32 packet 28) now
      match ins.2 with
      | some req =>
        match drain_pending req_iface (peek packet 22 6) { sr with cache := ins.1 }
            req.packets with
        | none => none
        | some sr1 => some ({ sr1 with cache := sr_arpreq_destroy sr1.cache none }, packet)
      | none => some ({ sr with cache := ins.1 }, packet)
    else some (sr, packet)

/-! ## `sr_natHandle` (lines 304-452) -/

/-- The interface name `eth2`. -/
def eth2 : List Nat := [101, 116, 104, 50]

/-- The kinds of NAT mapping, `sr_nat_mapping_type` of `sr_nat.h`. -/
inductive sr_nat_mapping_type where
  | nat_mapping_icmp
  | nat_mapping_tcp
deriving DecidableEq

/-- A NAT mapping, `struct sr_nat_mapping` of `sr_nat.h`, as far as
`sr_natHandle` reads it: `ip_int`, `ip_ext`, `aux_int`, `aux_ext`. -/
structure sr_nat_mapping where
  ip_int : Nat
  ip_ext : Nat
  aux_int : Nat
  aux_ext : Nat
deriving DecidableEq

/-- The functions of `sr_nat.c`, which is not among the sources, as parameters
over an arbitrary type `NAT` of NAT tables.  Each takes the table and returns
the table after the call with its result (`none` for a `NULL` mapping). -/
structure sr_nat_api (NAT : Type) where
  sr_nat_lookup_internal : NAT → Nat → Nat → sr_nat_mapping_type → NAT × Option sr_nat_mapping
  sr_nat_insert_mapping : NAT → Nat → Nat → sr_nat_mapping_type → NAT × Option sr_nat_mapping
  sr_nat_lookup_external : NAT → Nat → sr_nat_mapping_type → NAT × Option sr_nat_mapping
  sr_nat_insert_mapping_unsol : NAT → Nat → sr_nat_mapping_type → NAT × Option sr_nat_mapping
  sr_nat_handle_internal_conn : NAT → sr_nat_mapping → List Nat → Nat → NAT × Nat
  sr_nat_handle_external_conn : NAT → Option sr_nat_mapping → List Nat → Nat → NAT × Nat

/-- The branch of lines 329-391 of `sr_natHandle`: a frame received on `eth1`
whose IP checksum is good.  `ECHO` is `sizeof(sr_icmp_echo_hdr_t)` of
`sr_protocol.h`. -/
def natHandle_internal {NAT : Type} (api : sr_nat_api NAT) (NAMELEN ECHO : Nat)
    (route : Nat → Option sr_rt) (sr : sr_instance) (nat : NAT) (packet : List Nat) (len : Nat)
    (rec_iface : Option sr_if) (iface : List Nat) (curtime instime : Int) :
    Option (sr_instance × NAT × List Nat) :=
  let if_iface := sr_get_interface_from_ip sr (get_u32 packet 30)
  let ext_if := sr_get_interface sr eth2
  let rt := route (get_u32 packet 30)
  if if_iface.isSome ∨ rt.isNone then
    (sr_handleIPpacket NAMELEN route sr packet len iface rec_iface curtime instime).map
      (fun r => (r.1, nat, r.2))
  else if get_u8 packet 22 = 0 then
    (sr_sendICMP sr packet iface 11 0).map (fun s => (s, nat, packet))
  else if get_u8 packet 23 = 6 then
    if packet.length < 52 then none
    else
      let aux_int := htons (get_u16 packet 34)
      let found := api.sr_nat_lookup_internal nat (get_u32 packet 26) aux_int .nat_mapping_tcp
      let made :=
        match found.2 with
        | some m => (found.1, some m)
        | none => api.sr_nat_insert_mapping found.1 (get_u32 packet 26) aux_int .nat_mapping_tcp
      match made.2 with
      | none => none
      | some map =>
        let p2 := poke packet 26 (u32_bytes map.ip_ext)
        let p3 := poke p2 34 (u16_bytes map.aux_ext)
        match tcp_cksum p3 len with
        | none => none
        | some t =>
          let conn := api.sr_nat_handle_internal_conn made.1 map t.1 len
          if conn.2 = 1 then some (sr, conn.1, t.1) else some (sr, conn.1, t.1)
  else if get_u8 packet 23 = 1 then
    if len < 34 ∨ packet.length < len ∨ packet.length < 34 + ECHO ∨ packet.length < 42 then none
    else
      let incm_cksum2 := get_u16 packet 36
      let q0 := poke packet 36 [0, 0]
      let calc_cksum2 := cksum (peek q0 34 (len - 34))
      let q1 := poke q0 36 (u16_bytes incm_cksum2)
      if incm_cksum2 ≠ calc_cksum2 then some (sr, nat, q1)
      else if get_u8 q1 34 = 8 ∧ get_u8 q1 35 = 0 then
        let aux_int := htons (get_u16 q1 38)
        let found :=
          api.sr_nat_lookup_internal nat (htonl (get_u32 q1 26)) aux_int .nat_mapping_icmp
        let made :=
          match found.2 with
          | some m => (found.1, some m)
          | none => api.sr_nat_insert_mapping found.1 (get_u32 q1 26) aux_int .nat_mapping_icmp
        match made.2 with
        | none => none
        | some map =>
          let q2 := poke q1 26 (u32_bytes map.ip_ext)
          let rt2 := route (get_u32 q2 30)
          let q5 :=
            if get_u8 q2 23 = 1 then
              let q3 := poke q2 38 (u16_bytes (htons map.aux_ext))
              let q4 := poke q3 36 [0, 0]
              poke q4 36 (u16_bytes (cksum (peek q4 34 ECHO)))
            else q2
          match ext_if with
          | none => none
          | some ext =>
            let q6 := poke q5 26 (u32_bytes ext.ip)
            let q7 := poke q6 24 [0, 0]
            let q8 := poke q7 24 (u16_bytes (cksum (peek q7 14 20)))
            (sr_sendIP NAMELEN sr q8 len rt2 iface curtime instime).map
              (fun r => (r.1, made.1, r.2))
      else some (sr, nat, q1)
  else some (sr, nat, packet)

/-- The branch of lines 393-451 of `sr_natHandle`: a frame received on `eth2`
whose IP checksum is good. -/
def natHandle_external {NAT : Type} (api : sr_nat_api NAT) (NAMELEN ECHO : Nat)
    (route : Nat → Option sr_rt) (sr : sr_instance) (nat : NAT) (packet : List Nat) (len : Nat)
    (iface : List Nat) (curtime instime : Int) : Option (sr_instance × NAT × List Nat) :=
  if get_u8 packet 22 = 0 then
    (sr_sendICMP sr packet iface 11 0).map (fun s => (s, nat, packet))
  else if get_u8 packet 23 = 6 then
    if packet.length < 52 then none
    else
      let found := api.sr_nat_lookup_external nat (htons (get_u16 packet 36)) .nat_mapping_tcp
      match found.2 with
      | none =>
        let made :=
          api.sr_nat_insert_mapping_unsol found.1 (htons (get_u16 packet 36)) .nat_mapping_tcp
        let conn := api.sr_nat_handle_external_conn made.1 made.2 packet len
        if conn.2 = 1 then some (sr, conn.1, packet) else some (sr, conn.1, packet)
      | some map =>
        let p2 := poke packet 36 (u16_bytes map.aux_int)
        match tcp_cksum p2 len with
        | none => none
        | some t =>
          let conn := api.sr_nat_handle_external_conn found.1 (some map) t.1 len
          if conn.2 = 1 then some (sr, conn.1, t.1) else some (sr, conn.1, t.1)
  else if get_u8 packet 23 = 1 then
    if len < 34 ∨ packet.length < len ∨ packet.length < 34 + ECHO ∨ packet.length < 42 then none
    else
      let aux_ext := htons (get_u16 packet 38)
      let incm_cksum2 := get_u16 packet 36
      let q0 := poke packet 36 [0, 0]
      let calc_cksum2 := cksum (peek q0 34 (len - 34))
      let q1 := poke q0 36 (u16_bytes incm_cksum2)
      if incm_cksum2 ≠ calc_cksum2 then some (sr, nat, q1)
      else if get_u8 q1 34 = 0 ∧ get_u8 q1 35 = 0 then
        let found := api.sr_nat_lookup_external nat aux_ext .nat_mapping_icmp
        match found.2 with
        | some map =>
          let rt := route map.ip_int
          let q2 := poke q1 30 (u32_bytes map.ip_int)
          let q3 := poke q2 38 (u16_bytes (htons map.aux_int))
          let q4 := poke q3 36 [0, 0]
          let q5 := poke q4 36 (u16_bytes (cksum (peek q4 34 ECHO)))
          match rt with
          | some rt =>
            let q6 := poke q5 30 (u32_bytes map.ip_int)
            let q7 := poke q6 24 [0, 0]
            let q8 := poke q7 24 (u16_bytes (cksum (peek q7 14 20)))
            (sr_sendIP NAMELEN sr q8 len (some rt) iface curtime instime).map
              (fun r => (r.1, found.1, r.2))
          | none => some (sr, found.1, q5)
        | none => some (sr, found.1, q1)
      else some (sr, nat, q1)
  else some (sr, nat, packet)

/-- The function `sr_natHandle`.  `nat` is the NAT table `sr->nat` points to.
The result is the router, the NAT table and the packet buffer after the call;
it is `none` when the buffer does not hold the two headers, when `rec_iface`
is `NULL` (line 328 reads its name), or a branch has no result. -/
def sr_natHandle {NAT : Type} (api : sr_nat_api NAT) (NAMELEN ECHO : Nat)
    (route : Nat → Option sr_rt) (sr : sr_instance) (nat : NAT) (packet : List Nat) (len : Nat)
    (rec_iface : Option sr_if) (iface : List Nat) (curtime instime : Int) :
    Option (sr_instance × NAT × List Nat) :=
  if packet.length < 34 then none
  else
    let incm_cksum := get_u16 packet 24
    let p0 := poke packet 24 [0, 0]
    let calc_cksum := cksum (peek p0 14 20)
    let p1 := poke p0 24 (u16_bytes incm_cksum)
    if calc_cksum ≠ incm_cksum then some (sr, nat, p1)
    else
      match rec_iface with
      | none => none
      | some rec_if =>
        if rec_if.name = eth1 then
          natHandle_internal api NAMELEN ECHO route sr nat p1 len rec_iface iface curtime instime
        else if rec_if.name = eth2 then
          natHandle_external api NAMELEN ECHO route sr nat p1 len iface curtime instime
        else some (sr, nat, p1)

/-! ## Successive sweeps, and one request followed through them -/

/-- A router with the one interface `eth1`, NAT off, no request queued, and a
cache of `SR_ARPCACHE_SZ` slots of which slot 0 binds address 7 to the MAC
01:01:01:01:01:01. -/
def idle_router : sr_instance :=
  { if_list := [eth1_if]
    nat := false
    cache := { entries := old_slot :: List.replicate (SR_ARPCACHE_SZ - 1) free_slot
               requests := [] }
    sent := [] }

/-- A route through `eth1` whose gateway is address 7, which `idle_router` has
in its cache. -/
def route_hit : sr_rt := { dest := 0, gw := 7, mask := 0, interface := eth1 }

/-- A route through `eth1` whose gateway is address 9, which `idle_router` does
not have in its cache. -/
def route_miss : sr_rt := { dest := 0, gw := 9, mask := 0, interface := eth1 }

/-- A route through `eth1` whose gateway is zero. -/
def route_direct : sr_rt := { dest := 0, gw := 0, mask := 0, interface := eth1 }

/-- A route through `eth1` whose gateway is the address of `eth1` itself. -/
def route_own : sr_rt := { dest := 0, gw := 16842762, mask := 0, interface := eth1 }

/-- The frame `frame42` with IP destination 7.0.0.0, which as a `uint32_t` is the
address 7 that `idle_router` has in its cache. -/
def frame_to_7 : List Nat :=
  [2, 0, 0, 0, 0, 1, 2, 0, 0, 0, 0, 5, 8, 0,
   69, 0, 0, 28, 0, 0, 0, 0, 64, 17, 0, 0, 10, 0, 1, 5, 7, 0, 0, 0,
   0, 53, 0, 53, 0, 8, 0, 0]

/-! ## Concrete frames and a NAT table -/

/-- An ICMP echo request (type 8, code 0, identifier 0x1234, sequence 1) from
10.0.1.5 to 10.0.1.1, the address of `eth1`, with TOS 0, TTL 64, and IP and
ICMP checksums that verify. -/
def echo_request : List Nat :=
  [2, 0, 0, 0, 0, 1, 2, 0, 0, 0, 0, 5, 8, 0,
   69, 0, 0, 28, 0, 0, 0, 0, 64, 1, 100, 220, 10, 0, 1, 5, 10, 0, 1, 1,
   8, 0, 229, 202, 18, 52, 0, 1]

/-- The echo request `echo_request` with TTL 0 and the IP checksum of that
header. -/
def echo_ttl0 : List Nat :=
  [2, 0, 0, 0, 0, 1, 2, 0, 0, 0, 0, 5, 8, 0,
   69, 0, 0, 28, 0, 0, 0, 0, 0, 1, 164, 220, 10, 0, 1, 5, 10, 0, 1, 1,
   8, 0, 229, 202, 18, 52, 0, 1]

/-- A UDP datagram from 10.0.1.5 to 10.0.2.9 with TTL 1 and an IP checksum that
verifies. -/
def frame_ttl1 : List Nat :=
  [2, 0, 0, 0, 0, 1, 2, 0, 0, 0, 0, 5, 8, 0,
   69, 0, 0, 28, 0, 0, 0, 0, 1, 17, 162, 196, 10, 0, 1, 5, 10, 0, 2, 9,
   0, 53, 0, 53, 0, 8, 0, 0]

/-- The datagram `frame_ttl1` with TTL 0 and the IP checksum of that header. -/
def frame_ttl0 : List Nat :=
  [2, 0, 0, 0, 0, 1, 2, 0, 0, 0, 0, 5, 8, 0,
   69, 0, 0, 28, 0, 0, 0, 0, 0, 17, 163, 196, 10, 0, 1, 5, 10, 0, 2, 9,
   0, 53, 0, 53, 0, 8, 0, 0]

/-- A TCP segment (a SYN from port 8080 to port 80) from 10.0.1.5 to 10.0.2.9
with TTL 64 and an IP checksum that verifies; the TCP checksum field is zero. -/
def tcp_frame : List Nat :=
  [2, 0, 0, 0, 0, 1, 2, 0, 0, 0, 0, 5, 8, 0,
   69, 0, 0, 40, 0, 0, 0, 0, 64, 6, 99, 195, 10, 0, 1, 5, 10, 0, 2, 9,
   31, 144, 0, 80, 0, 0, 0, 1, 0, 0, 0, 0, 80, 2, 32, 0, 0, 0, 0, 0]

/-- An ICMP echo request (identifier 0x1234, sequence 1, the two payload bytes
1 and 2) from 10.0.1.5 to 8.8.8.8 with TTL 64 and IP and ICMP checksums that
verify. -/
def nat_echo : List Nat :=
  [2, 0, 0, 0, 0, 1, 2, 0, 0, 0, 0, 5, 8, 0,
   69, 0, 0, 30, 0, 0, 0, 0, 64, 1, 95, 203, 10, 0, 1, 5, 8, 8, 8, 8,
   8, 0, 228, 200, 18, 52, 0, 1, 1, 2]

/-- An ARP request from 10.0.1.5 (MAC 02:00:00:00:00:05) for 10.0.1.1, the
address of `eth1`. -/
def arp_request : List Nat :=
  [255, 255, 255, 255, 255, 255, 2, 0, 0, 0, 0, 5, 8, 6,
   0, 1, 8, 0, 6, 4, 0, 1, 2, 0, 0, 0, 0, 5, 10, 0, 1, 5,
   0, 0, 0, 0, 0, 0, 10, 0, 1, 1]

/-- The interface `eth2`, with MAC 02:00:00:00:00:02 and address 172.16.0.1. -/
def eth2_if : sr_if := { name := eth2, addr := [2, 0, 0, 0, 0, 2], ip := 16781484 }

/-- A router in NAT mode with the interfaces `eth1` and `eth2`, no request
queued, and a cache that binds address 7 to the MAC 01:01:01:01:01:01. -/
def nat_router : sr_instance :=
  { if_list := [eth1_if, eth2_if]
    nat := true
    cache := { entries := old_slot :: List.replicate (SR_ARPCACHE_SZ - 1) free_slot
               requests := [] }
    sent := [] }

/-- A route through `eth2` whose gateway is address 7. -/
def route_out : sr_rt := { dest := 0, gw := 7, mask := 0, interface := eth2 }

/-- A call made on the NAT table. -/
inductive nat_call where
  | lookup_internal (ip aux : Nat) (type : sr_nat_mapping_type)
  | insert_mapping (ip aux : Nat) (type : sr_nat_mapping_type)
  | lookup_external (aux : Nat) (type : sr_nat_mapping_type)
  | insert_mapping_unsol (aux : Nat) (type : sr_nat_mapping_type)
  | handle_conn
deriving DecidableEq

/-- The mappings a list of calls has made, oldest first: one for each
`insert_mapping`, with external identifiers from 1024 up. -/
def nat_mappings (ext_ip : Nat) :
    List nat_call → Nat → List (sr_nat_mapping_type × sr_nat_mapping)
  | [], _ => []
  | .insert_mapping ip aux type :: rest, n =>
    (type, { ip_int := ip, ip_ext := ext_ip, aux_int := aux, aux_ext := 1024 + n }) ::
      nat_mappings ext_ip rest (n + 1)
  | _ :: rest, n => nat_mappings ext_ip rest n

/-- Modelled from the spec: a NAT table of `sr_nat.c`, which is not among the
sources ("a bidirectional mapping table keyed by (internal-IP, internal-port,
protocol) and (external-port, protocol)"), kept as the list of the calls made
on it.  An insert makes a mapping for its key with the next external
identifier; a lookup returns the first mapping with the key; the connection
tracker accepts every segment (it returns 0). -/
def nat_table (ext_ip : Nat) : sr_nat_api (List nat_call) :=
  { sr_nat_lookup_internal := fun nat ip aux type =>
      (nat ++ [.lookup_internal ip aux type],
        ((nat_mappings ext_ip nat 0).find?
          (fun m => decide (m.1 = type ∧ m.2.ip_int = ip ∧ m.2.aux_int = aux))).map (fun m => m.2))
    sr_nat_insert_mapping := fun nat ip aux type =>
      (nat ++ [.insert_mapping ip aux type],
        ((nat_mappings ext_ip (nat ++ [.insert_mapping ip aux type]) 0).getLast?).map
          (fun m => m.2))
    sr_nat_lookup_external := fun nat aux type =>
      (nat ++ [.lookup_external aux type],
        ((nat_mappings ext_ip nat 0).find?
          (fun m => decide (m.1 = type ∧ m.2.aux_ext = aux))).map (fun m => m.2))
    sr_nat_insert_mapping_unsol := fun nat aux type =>
      (nat ++ [.insert_mapping_unsol aux type], none)
    sr_nat_handle_internal_conn := fun nat _ _ _ => (nat ++ [.handle_conn], 0)
    sr_nat_handle_external_conn := fun nat _ _ _ => (nat ++ [.handle_conn], 0) }

/-- The datagram `frame_ttl1` with TTL 64 and the IP checksum of that header. -/
def udp_frame : List Nat :=
  [2, 0, 0, 0, 0, 1, 2, 0, 0, 0, 0, 5, 8, 0,
   69, 0, 0, 28, 0, 0, 0, 0, 64, 17, 99, 196, 10, 0, 1, 5, 10, 0, 2, 9,
   0, 53, 0, 53, 0, 8, 0, 0]

/-- A router with the one interface `eth1`, NAT off, an empty cache, and one
request, for address 9, that has been sent 5 times, last at time 99, and holds
`frame42` for `eth1`. -/
def tired_router : sr_instance :=
  { if_list := [eth1_if]
    nat := false
    cache :=
      { entries := List.replicate SR_ARPCACHE_SZ free_slot
        requests := [{ ip := 9, sent := 99, times_sent := 5,
                       packets := [{ buf := frame42, len := 42, iface := eth1 }] }] }
    sent := [] }

/-- A router with the one interface `eth1`, NAT off, an empty cache, and one
request, for address 7, sent once at time 99, that holds `frame42` for `eth1`. -/
def waiting_router : sr_instance :=
  { if_list := [eth1_if]
    nat := false
    cache :=
      { entries := List.replicate SR_ARPCACHE_SZ free_slot
        requests := [{ ip := 7, sent := 99, times_sent := 1,
                       packets := [{ buf := frame42, len := 42, iface := eth1 }] }] }
    sent := [] }

/-- An ARP reply from address 7 (MAC 02:00:00:00:00:07) to 10.0.1.1, the address
of `eth1`, sent to the MAC of `eth1`. -/
def arp_reply : List Nat :=
  [2, 0, 0, 0, 0, 1, 2, 0, 0, 0, 0, 7, 8, 6,
   0, 1, 8, 0, 6, 4, 0, 2, 2, 0, 0, 0, 0, 7, 7, 0, 0, 0,
   2, 0, 0, 0, 0, 1, 10, 0, 1, 1]

theorem lookup_loop_some (ip : Nat) (es : List sr_arpentry) (acc : Option sr_arpentry)
    (c : sr_arpentry) (h : lookup_loop ip es acc = some c) :
    acc = some c ∨ (c ∈ es ∧ c.valid ≠ 0 ∧ c.ip = ip) := by
  induction es generalizing acc with
  | nil => left; simpa [lookup_loop] using h
  | cons e rest ih =>
    unfold lookup_loop at h
    split at h
    · rename_i hv
      rcases ih _ h with h1 | h1
      · right
        have : e = c := by simpa using h1
        subst this
        exact ⟨List.mem_cons_self _ _, hv.1, hv.2⟩
      · right; exact ⟨List.mem_cons_of_mem _ h1.1, h1.2⟩
    · rcases ih _ h with h1 | h1
      · left; exact h1
      · right; exact ⟨List.mem_cons_of_mem _ h1.1, h1.2⟩

theorem lookup_loop_isSome (ip : Nat) (es : List sr_arpentry) (acc : Option sr_arpentry) :
    (lookup_loop ip es acc).isSome = true ↔
      acc.isSome = true ∨ ∃ e ∈ es, e.valid ≠ 0 ∧ e.ip = ip := by
  induction es generalizing acc with
  | nil => simp [lookup_loop]
  | cons e rest ih =>
    unfold lookup_loop
    split
    · rename_i hv
      rw [ih]
      constructor
      · intro _; right; exact ⟨e, List.mem_cons_self _ _, hv.1, hv.2⟩
      · intro _; left; rfl
    · rename_i hv
      rw [ih]
      constructor
      · rintro (h | ⟨x, hx, hx2⟩)
        · left; exact h
        · right; exact ⟨x, List.mem_cons_of_mem _ hx, hx2⟩
      · rintro (h | ⟨x, hx, hx2⟩)
        · left; exact h
        · rcases List.mem_cons.mp hx with rfl | hx
          · exact absurd hx2 hv
          · right; exact ⟨x, hx, hx2⟩

/-- C1: `sr_arpcache_lookup` returns an entry exactly when some slot of the
entry array is valid and holds `ip`; an entry it returns is a copy of such a
slot (it is one of the slots, that slot is valid and its `ip` is `ip`, so its
MAC is that slot's MAC); the cache after the call is the cache before it. -/
theorem sr_arpcache_lookup_spec (cache : sr_arpcache) (ip : Nat) :
    (((sr_arpcache_lookup cache ip).2.isSome = true ↔
        ∃ e ∈ cache.entries, e.valid ≠ 0 ∧ e.ip = ip) ∧
      (∀ c, (sr_arpcache_lookup cache ip).2 = some c →
        c ∈ cache.entries ∧ c.valid ≠ 0 ∧ c.ip = ip)) ∧
    (sr_arpcache_lookup cache ip).1 = cache := by
  refine ⟨⟨?_, ?_⟩, rfl⟩
  · simp only [sr_arpcache_lookup]
    rw [lookup_loop_isSome]
    simp
  · intro c hc
    simp only [sr_arpcache_lookup] at hc
    rcases lookup_loop_some ip _ _ c hc with h | h
    · exact absurd h (by simp)
    · exact h

/-! ## Insert, then lookup -/

theorem lookup_loop_append (ip : Nat) (l1 l2 : List sr_arpentry) (acc : Option sr_arpentry) :
    lookup_loop ip (l1 ++ l2) acc = lookup_loop ip l2 (lookup_loop ip l1 acc) := by
  induction l1 generalizing acc with
  | nil => rfl
  | cons e rest ih =>
    simp only [List.cons_append, lookup_loop]
    split <;> exact ih _

theorem lookup_loop_no_match (ip : Nat) (es : List sr_arpentry) (acc : Option sr_arpentry)
    (h : ∀ e ∈ es, ¬ (e.valid ≠ 0 ∧ e.ip = ip)) : lookup_loop ip es acc = acc := by
  induction es generalizing acc with
  | nil => rfl
  | cons e rest ih =>
    unfold lookup_loop
    rw [if_neg (h e (List.mem_cons_self _ _))]
    exact ih _ (fun x hx => h x (List.mem_cons_of_mem _ hx))

theorem first_invalid_le (es : List sr_arpentry) : first_invalid es ≤ es.length := by
  induction es with
  | nil => simp [first_invalid]
  | cons e rest ih =>
    unfold first_invalid
    split
    · exact Nat.zero_le _
    · simp only [List.length_cons]; omega

theorem first_invalid_full (es : List sr_arpentry) (h : ∀ e ∈ es, e.valid ≠ 0) :
    first_invalid es = es.length := by
  induction es with
  | nil => rfl
  | cons e rest ih =>
    unfold first_invalid
    rw [if_neg (h e (List.mem_cons_self _ _)), ih (fun x hx => h x (List.mem_cons_of_mem _ hx))]
    rfl

/-- A full cache keeps its entries through `sr_arpcache_insert`: the guard of
line 205 skips the store. -/
theorem sr_arpcache_insert_full (cache : sr_arpcache) (mac : List Nat) (ip : Nat) (now : Int)
    (h : ∀ e ∈ cache.entries, e.valid ≠ 0) :
    (sr_arpcache_insert cache mac ip now).1.entries = cache.entries := by
  simp [sr_arpcache_insert, first_invalid_full _ h]

/-- C2, as stated, fails: in `stale_cache` the free slot 0 precedes the valid
slot 1 that binds address 7 to 01:01:01:01:01:01.  Inserting the binding of 7 to
02:02:02:02:02:02 fills slot 0, and the lookup, which keeps the last match,
still returns the old MAC. -/
theorem insert_lookup_stale :
    ¬ ∃ e, (sr_arpcache_lookup (sr_arpcache_insert stale_cache [2, 2, 2, 2, 2, 2] 7 50).1 7).2
        = some e ∧ e.mac = [2, 2, 2, 2, 2, 2] := by
  have h : (sr_arpcache_lookup (sr_arpcache_insert stale_cache [2, 2, 2, 2, 2, 2] 7 50).1 7).2
      = some old_slot := by decide
  rintro ⟨e, he, hm⟩
  rw [h] at he
  have : old_slot = e := by simpa using he
  subst this
  exact absurd hm (by decide)

/-- C2, amended: when the cache has a slot that is not valid, and no valid slot
after the first such slot holds `ip`, then after `sr_arpcache_insert(cache, mac,
ip)` the lookup of `ip` returns an entry, and its MAC is the six bytes of `mac`. -/
theorem insert_lookup_fresh (cache : sr_arpcache) (mac : List Nat) (ip : Nat) (now : Int)
    (hfree : first_invalid cache.entries < cache.entries.length)
    (hlater : ∀ e ∈ cache.entries.drop (first_invalid cache.entries + 1),
      ¬ (e.valid ≠ 0 ∧ e.ip = ip)) :
    ∃ e, (sr_arpcache_lookup (sr_arpcache_insert cache mac ip now).1 ip).2 = some e ∧
      e.mac = mac.take 6 := by
  refine ⟨{ mac := mac.take 6, ip := ip, added := now, valid := 1 }, ?_, rfl⟩
  simp only [sr_arpcache_lookup, sr_arpcache_insert]
  rw [if_pos (Nat.ne_of_lt hfree), List.set_eq_take_append_cons_drop, if_pos hfree,
    lookup_loop_append]
  unfold lookup_loop
  rw [if_pos ⟨by simp, rfl⟩]
  exact lookup_loop_no_match _ _ _ hlater

/-- The amended C2 at a concrete cache: `one_request_cache` has only free slots. -/
theorem insert_lookup_fresh_witness :
    ∃ e, (sr_arpcache_lookup
        (sr_arpcache_insert one_request_cache [2, 2, 2, 2, 2, 2] 7 50).1 7).2 = some e ∧
      e.mac = [2, 2, 2, 2, 2, 2] :=
  insert_lookup_fresh one_request_cache [2, 2, 2, 2, 2, 2] 7 50 (by decide) (by decide)

/-! ## Insert and the request queue -/

theorem insert_unlink_split (ip : Nat) (l1 l2 : List sr_arpreq) (r : sr_arpreq)
    (h1 : ∀ q ∈ l1, q.ip ≠ ip) (hr : r.ip = ip) :
    insert_unlink ip (l1 ++ r :: l2) = (l1 ++ l2, some r) := by
  induction l1 with
  | nil => simp [insert_unlink, hr]
  | cons q rest ih =>
    have hq : q.ip ≠ ip := h1 q (List.mem_cons_self _ _)
    have := ih (fun x hx => h1 x (List.mem_cons_of_mem _ hx))
    simp [insert_unlink, hq, this]

theorem insert_unlink_none (ip : Nat) (l : List sr_arpreq) (h : ∀ q ∈ l, q.ip ≠ ip) :
    insert_unlink ip l = (l, none) := by
  induction l with
  | nil => rfl
  | cons q rest ih =>
    have hq : q.ip ≠ ip := h q (List.mem_cons_self _ _)
    have := ih (fun x hx => h x (List.mem_cons_of_mem _ hx))
    simp [insert_unlink, hq, this]

/-- Every queue splits at its first request for `ip`, if it has one. -/
theorem first_request_split (ip : Nat) (l : List sr_arpreq) :
    (∀ q ∈ l, q.ip ≠ ip) ∨
      ∃ l1 r l2, l = l1 ++ r :: l2 ∧ r.ip = ip ∧ ∀ q ∈ l1, q.ip ≠ ip := by
  induction l with
  | nil => left; simp
  | cons q rest ih =>
    by_cases hq : q.ip = ip
    · right; exact ⟨[], q, rest, rfl, hq, by simp⟩
    · rcases ih with h | ⟨l1, r, l2, h, hr, h1⟩
      · left
        intro x hx
        rcases List.mem_cons.mp hx with rfl | hx
        · exact hq
        · exact h x hx
      · right
        refine ⟨q :: l1, r, l2, by simp [h], hr, ?_⟩
        intro x hx
        rcases List.mem_cons.mp hx with rfl | hx
        · exact hq
        · exact h1 x hx

/-- In a queue with one request per address, the request for `ip` splits the
queue into two parts that hold no request for `ip`. -/
theorem unique_request_split (ip : Nat) (l : List sr_arpreq) (r : sr_arpreq)
    (huniq : one_request_per_ip l) (hmem : r ∈ l) (hr : r.ip = ip) :
    ∃ l1 l2, l = l1 ++ r :: l2 ∧ (∀ q ∈ l1, q.ip ≠ ip) ∧ (∀ q ∈ l2, q.ip ≠ ip) := by
  obtain ⟨l1, l2, rfl⟩ := List.append_of_mem hmem
  refine ⟨l1, l2, rfl, ?_, ?_⟩
  · intro q hq hqip
    unfold one_request_per_ip at huniq
    rw [List.map_append, List.map_cons] at huniq
    have hdis := (List.nodup_append.mp huniq).2.2
    exact hdis (List.mem_map.mpr ⟨q, hq, rfl⟩) (by rw [hqip, ← hr]; exact List.mem_cons_self _ _)
  · intro q hq hqip
    unfold one_request_per_ip at huniq
    rw [List.map_append, List.map_cons] at huniq
    have hnd := (List.nodup_append.mp huniq).2.1
    have := (List.nodup_cons.mp hnd).1
    exact this (by rw [hr, ← hqip]; exact List.mem_map.mpr ⟨q, hq, rfl⟩)

/-- C3: on a queue with at most one request per target address,
`sr_arpcache_insert(cache, mac, ip)` returns the queued request for `ip` (the
request itself, so with its pending packets) and the queue afterwards is the
queue before with exactly that request taken out, the others in their order;
when no queued request is for `ip` it returns `NULL` and the queue is as it was. -/
theorem sr_arpcache_insert_queue (cache : sr_arpcache) (mac : List Nat) (ip : Nat) (now : Int)
    (huniq : one_request_per_ip cache.requests) :
    (∀ r ∈ cache.requests, r.ip = ip →
      (sr_arpcache_insert cache mac ip now).2 = some r ∧
      ∃ l1 l2, cache.requests = l1 ++ r :: l2 ∧
        (sr_arpcache_insert cache mac ip now).1.requests = l1 ++ l2 ∧
        ∀ q ∈ (sr_arpcache_insert cache mac ip now).1.requests, q.ip ≠ ip) ∧
    ((∀ r ∈ cache.requests, r.ip ≠ ip) →
      (sr_arpcache_insert cache mac ip now).2 = none ∧
      (sr_arpcache_insert cache mac ip now).1.requests = cache.requests) := by
  constructor
  · intro r hmem hr
    obtain ⟨l1, l2, hsplit, h1, h2⟩ := unique_request_split ip _ r huniq hmem hr
    have hu : insert_unlink ip cache.requests = (l1 ++ l2, some r) := by
      rw [hsplit]; exact insert_unlink_split ip l1 l2 r h1 hr
    refine ⟨by simp [sr_arpcache_insert, hu], l1, l2, hsplit,
      by simp [sr_arpcache_insert, hu], ?_⟩
    intro q hq
    have hq2 : q ∈ l1 ++ l2 := by simpa [sr_arpcache_insert, hu] using hq
    rcases List.mem_append.mp hq2 with h | h
    · exact h1 q h
    · exact h2 q h
  · intro h
    simp [sr_arpcache_insert, insert_unlink_none ip _ h]

/-- C3 at a concrete cache: the one request of `one_request_cache` is for
address 7. -/
theorem sr_arpcache_insert_queue_witness :
    (sr_arpcache_insert one_request_cache [2, 2, 2, 2, 2, 2] 7 50).2 =
        some { ip := 7, sent := 0, times_sent := 0, packets := [old_packet] } ∧
      (sr_arpcache_insert one_request_cache [2, 2, 2, 2, 2, 2] 7 50).1.requests = [] :=
  have h := (sr_arpcache_insert_queue one_request_cache [2, 2, 2, 2, 2, 2] 7 50
    (by decide)).1 { ip := 7, sent := 0, times_sent := 0, packets := [old_packet] }
    (by decide) rfl
  ⟨h.1, by decide⟩

/-! ## Insert into a full cache -/

set_option maxRecDepth 20000 in
/-- C4: the code at a full cache.  Every slot of `full_cache` is valid; after
`sr_arpcache_insert` of a binding for address 9 no slot has changed and the
lookup of 9 finds nothing: no slot was evicted and the binding was not stored. -/
theorem sr_arpcache_insert_full_cache :
    (∀ e ∈ full_cache.entries, e.valid ≠ 0) ∧
    (sr_arpcache_insert full_cache [2, 2, 2, 2, 2, 2] 9 50).1.entries = full_cache.entries ∧
    (sr_arpcache_lookup (sr_arpcache_insert full_cache [2, 2, 2, 2, 2, 2] 9 50).1 9).2 = none := by
  refine ⟨by decide, by decide, by decide⟩

/-! ## Queueing a packet -/

theorem queuereq_find_split (ip : Nat) (l1 l2 : List sr_arpreq) (r : sr_arpreq)
    (h1 : ∀ q ∈ l1, q.ip ≠ ip) (hr : r.ip = ip) :
    queuereq_find ip (l1 ++ r :: l2) = some l1.length := by
  induction l1 with
  | nil => simp [queuereq_find, hr]
  | cons q rest ih =>
    have hq : q.ip ≠ ip := h1 q (List.mem_cons_self _ _)
    have := ih (fun x hx => h1 x (List.mem_cons_of_mem _ hx))
    simp [queuereq_find, hq, this]

theorem queuereq_find_none (ip : Nat) (l : List sr_arpreq) (h : ∀ q ∈ l, q.ip ≠ ip) :
    queuereq_find ip l = none := by
  induction l with
  | nil => rfl
  | cons q rest ih =>
    have hq : q.ip ≠ ip := h q (List.mem_cons_self _ _)
    have := ih (fun x hx => h x (List.mem_cons_of_mem _ hx))
    simp [queuereq_find, hq, this]

theorem push_packet_split (pkt : sr_packet) (l1 l2 : List sr_arpreq) (r : sr_arpreq) :
    push_packet pkt l1.length (l1 ++ r :: l2) =
      l1 ++ { r with packets := pkt :: r.packets } :: l2 := by
  induction l1 with
  | nil => rfl
  | cons q rest ih => simp [push_packet, ih]

/-- C5, as stated, fails: the request for address 7 in `one_request_cache` holds
`old_packet`; after a 3-byte frame is queued for 7 its pending packets are not
`old_packet` followed by the new packet. -/
theorem queuereq_not_appended :
    ¬ ((sr_arpcache_queuereq 32 one_request_cache 7 (some [1, 2, 3]) 3 (some eth1)).1.requests
        = [{ ip := 7, sent := 0, times_sent := 0,
             packets := [old_packet] ++ [{ buf := [1, 2, 3], len := 3, iface := eth1 }] }]) := by
  decide

/-- C5, amended: for a non-empty frame and an interface name shorter than
`sr_IFACE_NAMELEN`, `sr_arpcache_queuereq` leaves the entry array as it was and
returns the request for `ip`.  When no request for `ip` is queued, that is a new
request (attempt count 0, last-sent 0) put at the head of the queue, holding the
one new packet.  Otherwise it is the first queued request for `ip`, and its
pending packets are the new packet followed by the previously pending packets
in their order; the other requests, and the order of the queue, are unchanged.
The new packet holds the frame bytes, the frame length and the interface name. -/
theorem sr_arpcache_queuereq_spec (NAMELEN : Nat) (cache : sr_arpcache) (ip : Nat)
    (frame iface : List Nat) (hframe : frame ≠ []) (hname : iface.length < NAMELEN) :
    (sr_arpcache_queuereq NAMELEN cache ip (some frame) frame.length (some iface)).1.entries
        = cache.entries ∧
    ((∀ q ∈ cache.requests, q.ip ≠ ip) →
      (sr_arpcache_queuereq NAMELEN cache ip (some frame) frame.length (some iface)).2 = 0 ∧
      (sr_arpcache_queuereq NAMELEN cache ip (some frame) frame.length (some iface)).1.requests
        = { ip := ip, sent := 0, times_sent := 0,
            packets := [{ buf := frame, len := frame.length, iface := iface }] }
          :: cache.requests) ∧
    (∀ l1 r l2, cache.requests = l1 ++ r :: l2 → r.ip = ip → (∀ q ∈ l1, q.ip ≠ ip) →
      (sr_arpcache_queuereq NAMELEN cache ip (some frame) frame.length (some iface)).2
        = l1.length ∧
      (sr_arpcache_queuereq NAMELEN cache ip (some frame) frame.length (some iface)).1.requests
        = l1 ++ { r with packets :=
                    { buf := frame, len := frame.length, iface := iface } :: r.packets } :: l2) := by
  have hlen : frame.length ≠ 0 := by
    intro h; exact hframe (List.length_eq_zero.mp h)
  have hn : iface.take NAMELEN = iface := List.take_of_length_le (Nat.le_of_lt hname)
  refine ⟨rfl, ?_, ?_⟩
  · intro h
    simp [sr_arpcache_queuereq, queuereq_find_none ip _ h, hlen, hn, push_packet]
  · intro l1 r l2 hsplit hr h1
    have hf := queuereq_find_split ip l1 l2 r h1 hr
    rw [← hsplit] at hf
    simp only [sr_arpcache_queuereq, hf, hn, List.take_length, if_pos hlen, ne_eq,
      not_false_eq_true, true_and]
    rw [hsplit, push_packet_split]

/-- The amended C5 at a concrete cache: a 3-byte frame queued for address 7,
which `one_request_cache` already has a request for. -/
theorem sr_arpcache_queuereq_spec_witness :
    (sr_arpcache_queuereq 32 one_request_cache 7 (some [1, 2, 3]) 3 (some eth1)).2 = 0 ∧
    (sr_arpcache_queuereq 32 one_request_cache 7 (some [1, 2, 3]) 3 (some eth1)).1.requests
        = [{ ip := 7, sent := 0, times_sent := 0,
             packets := [{ buf := [1, 2, 3], len := 3, iface := eth1 }, old_packet] }] :=
  (sr_arpcache_queuereq_spec 32 one_request_cache 7 [1, 2, 3] eth1 (by decide) (by decide)).2.2
    [] { ip := 7, sent := 0, times_sent := 0, packets := [old_packet] } [] rfl rfl (by simp)

/-! ## At most one request per target address -/

theorem push_packet_ips (pkt : sr_packet) (k : Nat) (l : List sr_arpreq) :
    (push_packet pkt k l).map (fun r => r.ip) = l.map (fun r => r.ip) := by
  induction l generalizing k with
  | nil => cases k <;> rfl
  | cons q rest ih =>
    cases k with
    | zero => rfl
    | succ k => simp [push_packet, ih]

theorem insert_unlink_sublist (ip : Nat) (l : List sr_arpreq) :
    (insert_unlink ip l).1.Sublist l := by
  induction l with
  | nil => exact List.Sublist.refl _
  | cons q rest ih =>
    unfold insert_unlink
    split
    · exact List.sublist_cons_self _ _
    · exact ih.cons₂ _

theorem destroy_unlink_sublist (k : Nat) (l : List sr_arpreq) :
    (destroy_unlink k l).Sublist l := by
  induction l generalizing k with
  | nil => cases k <;> exact List.Sublist.refl _
  | cons q rest ih =>
    cases k with
    | zero => exact List.sublist_cons_self _ _
    | succ k => exact (ih k).cons₂ _

theorem queuereq_find_none_iff (ip : Nat) (l : List sr_arpreq)
    (h : queuereq_find ip l = none) : ∀ q ∈ l, q.ip ≠ ip := by
  rcases first_request_split ip l with h1 | ⟨l1, r, l2, hs, hr, h1⟩
  · exact h1
  · rw [hs, queuereq_find_split ip l1 l2 r h1 hr] at h
    simp at h

theorem one_request_per_ip_sublist (l1 l2 : List sr_arpreq) (hs : l1.Sublist l2)
    (h : one_request_per_ip l2) : one_request_per_ip l1 :=
  List.Nodup.sublist (hs.map _) h

/-- Each call keeps the queue invariant. -/
theorem run_call_unique (cache : sr_arpcache) (call : cache_call)
    (h : one_request_per_ip cache.requests) :
    one_request_per_ip (run_call cache call).requests := by
  cases call with
  | queuereq NAMELEN ip packet packet_len iface =>
    have key : ∀ l : List sr_arpreq, one_request_per_ip
        (match queuereq_find ip cache.requests with
          | some _ => cache.requests
          | none => { ip := ip, sent := 0, times_sent := 0, packets := [] } :: cache.requests) := by
      intro _
      cases hf : queuereq_find ip cache.requests with
      | some k => exact h
      | none =>
        have hno := queuereq_find_none_iff ip _ hf
        show ((_ :: cache.requests).map (fun r => r.ip)).Nodup
        rw [List.map_cons, List.nodup_cons]
        refine ⟨?_, h⟩
        intro hmem
        obtain ⟨q, hq, hqip⟩ := List.mem_map.mp hmem
        exact hno q hq hqip
    have key := key []
    simp only [run_call, sr_arpcache_queuereq]
    cases packet with
    | none => exact key
    | some p =>
      cases iface with
      | none => exact key
      | some name =>
        simp only
        split
        · unfold one_request_per_ip
          rw [push_packet_ips]
          exact key
        · exact key
  | insert mac ip now =>
    exact one_request_per_ip_sublist _ _ (insert_unlink_sublist ip _) h
  | destroy entry =>
    cases entry with
    | none => exact h
    | some k => exact one_request_per_ip_sublist _ _ (destroy_unlink_sublist k _) h

/-- The queue invariant read as a count: no address is the target of two
queued requests. -/
theorem one_request_per_ip_count (queue : List sr_arpreq) (h : one_request_per_ip queue)
    (ip : Nat) : (queue.filter (fun r => decide (r.ip = ip))).length ≤ 1 := by
  induction queue with
  | nil => simp
  | cons q rest ih =>
    unfold one_request_per_ip at h
    rw [List.map_cons, List.nodup_cons] at h
    have ih := ih h.2
    by_cases hq : q.ip = ip
    · have hnone : rest.filter (fun r => decide (r.ip = ip)) = [] := by
        rw [List.filter_eq_nil_iff]
        intro x hx hxip
        have hxip : x.ip = ip := by simpa using hxip
        exact h.1 (List.mem_map.mpr ⟨x, hx, by rw [hxip, hq]⟩)
      simp [List.filter_cons, hq, hnone]
    · simpa [List.filter_cons, hq] using ih

/-- C6: from the empty queue that `sr_arpcache_init` sets up, after every finite
sequence of `sr_arpcache_queuereq`, `sr_arpcache_insert` and `sr_arpreq_destroy`
calls, whatever their arguments, no address is the target of two queued
requests. -/
theorem request_queue_unique (cache : sr_arpcache) (calls : List cache_call) (ip : Nat) :
    ((run_calls (sr_arpcache_init cache) calls).requests.filter
      (fun r => decide (r.ip = ip))).length ≤ 1 := by
  apply one_request_per_ip_count
  have gen : ∀ (calls : List cache_call) (c : sr_arpcache), one_request_per_ip c.requests →
      one_request_per_ip (run_calls c calls).requests := by
    intro calls
    induction calls with
    | nil => intro c hc; exact hc
    | cons call rest ih =>
      intro c hc
      exact ih (run_call c call) (run_call_unique c call hc)
  exact gen calls _ (by simp [sr_arpcache_init, one_request_per_ip])

/-! ## Buffers and frames -/

theorem getElem?_peek (buf : List Nat) (off n i : Nat) :
    (peek buf off n)[i]? = if i < n then buf[off + i]? else none := by
  simp [peek, List.getElem?_take, List.getElem?_drop]

theorem getElem?_poke (buf : List Nat) (off : Nat) (src : List Nat) (i : Nat)
    (h : off ≤ buf.length) :
    (poke buf off src)[i]? =
      if i < off then buf[i]? else if i < off + src.length then src[i - off]? else buf[i]? := by
  have h1 : (buf.take off).length = off := by simp; omega
  unfold poke
  by_cases h2 : i < off
  · rw [if_pos h2, List.append_assoc, List.getElem?_append_left (by omega)]
    simp [List.getElem?_take, h2]
  · rw [if_neg h2, List.append_assoc, List.getElem?_append_right (by omega), h1]
    by_cases h3 : i < off + src.length
    · rw [if_pos h3, List.getElem?_append_left (by omega)]
    · rw [if_neg h3, List.getElem?_append_right (by omega), List.getElem?_drop]
      congr 1; omega

theorem length_peek (buf : List Nat) (off n : Nat) (h : off + n ≤ buf.length) :
    (peek buf off n).length = n := by
  simp [peek]; omega

theorem length_poke (buf : List Nat) (off : Nat) (src : List Nat)
    (h : off + src.length ≤ buf.length) : (poke buf off src).length = buf.length := by
  simp [poke]; omega

theorem peek_poke_same (buf : List Nat) (off : Nat) (src : List Nat) (n : Nat)
    (h : off ≤ buf.length) (hn : n = src.length) : peek (poke buf off src) off n = src := by
  subst hn
  apply List.ext_getElem?
  intro i
  rw [getElem?_peek, getElem?_poke _ _ _ _ h]
  by_cases hi : i < src.length
  · rw [if_pos hi, if_neg (by omega), if_pos (by omega)]
    congr 1; omega
  · rw [if_neg hi, List.getElem?_eq_none (by omega)]

theorem peek_poke_disjoint (buf : List Nat) (off : Nat) (src : List Nat) (off2 n : Nat)
    (h : off ≤ buf.length) (hd : off2 + n ≤ off ∨ off + src.length ≤ off2) :
    peek (poke buf off src) off2 n = peek buf off2 n := by
  apply List.ext_getElem?
  intro i
  rw [getElem?_peek, getElem?_peek, getElem?_poke _ _ _ _ h]
  by_cases hi : i < n
  · rw [if_pos hi, if_pos hi]
    rcases hd with hd | hd
    · rw [if_pos (by omega)]
    · rw [if_neg (by omega), if_neg (by omega)]
  · rw [if_neg hi, if_neg hi]

theorem length_u16_bytes (v : Nat) : (u16_bytes v).length = 2 := rfl

theorem length_u32_bytes (v : Nat) : (u32_bytes v).length = 4 := rfl

theorem length_mac_take (addr : List Nat) : (addr.take 6).length ≤ 6 := by
  simp [List.length_take]

theorem prefix42 (packet : List Nat) (hlen : 42 ≤ packet.length) :
    ∃ b0 b1 b2 b3 b4 b5 b6 b7 b8 b9 b10 b11 b12 b13 b14 b15 b16 b17 b18 b19 b20 b21 b22 b23 b24 b25 b26 b27 b28 b29 b30 b31 b32 b33 b34 b35 b36 b37 b38 b39 b40 b41 rest, packet = b0 :: b1 :: b2 :: b3 :: b4 :: b5 :: b6 :: b7 :: b8 :: b9 :: b10 :: b11 :: b12 :: b13 :: b14 :: b15 :: b16 :: b17 :: b18 :: b19 :: b20 :: b21 :: b22 :: b23 :: b24 :: b25 :: b26 :: b27 :: b28 :: b29 :: b30 :: b31 :: b32 :: b33 :: b34 :: b35 :: b36 :: b37 :: b38 :: b39 :: b40 :: b41 :: rest := by
  have h1 : (packet.take 42).length = 42 := by simp; omega
  have h2 : packet = packet.take 42 ++ packet.drop 42 := by simp
  generalize packet.take 42 = pre at h1 h2
  match pre, h1 with
  | b0 :: b1 :: b2 :: b3 :: b4 :: b5 :: b6 :: b7 :: b8 :: b9 :: b10 :: b11 :: b12 :: b13 :: b14 :: b15 :: b16 :: b17 :: b18 :: b19 :: b20 :: b21 :: b22 :: b23 :: b24 :: b25 :: b26 :: b27 :: b28 :: b29 :: b30 :: b31 :: b32 :: b33 :: b34 :: b35 :: b36 :: b37 :: b38 :: b39 :: b40 :: b41 :: [], _ => exact ⟨_, _, _, _, _, _, _, _, _, _, _, _, _, _, _, _, _, _, _, _, _, _, _, _, _, _, _, _, _, _, _, _, _, _, _, _, _, _, _, _, _, _, _, h2⟩

theorem length12 (x : List Nat) (h : x.length = 12) :
    ∃ x0 x1 x2 x3 x4 x5 x6 x7 x8 x9 x10 x11, x = [x0, x1, x2, x3, x4, x5, x6, x7, x8, x9, x10, x11] := by
  match x, h with
  | [x0, x1, x2, x3, x4, x5, x6, x7, x8, x9, x10, x11], _ => exact ⟨_, _, _, _, _, _, _, _, _, _, _, _, rfl⟩

theorem poke_mac_shape (buf addr : List Nat) (h : 12 ≤ buf.length) :
    ∃ x, x.length = 12 ∧ poke buf 6 (addr.take 6) = x ++ buf.drop 12 := by
  have hL := length_mac_take addr
  have hlen : (poke buf 6 (addr.take 6)).length = buf.length := length_poke _ _ _ (by omega)
  refine ⟨(poke buf 6 (addr.take 6)).take 12, by simp; omega, ?_⟩
  have hd : (poke buf 6 (addr.take 6)).drop 12 = buf.drop 12 := by
    apply List.ext_getElem?
    intro i
    rw [List.getElem?_drop, List.getElem?_drop, getElem?_poke _ _ _ _ (by omega),
      if_neg (by omega), if_neg (by omega)]
  rw [← hd, List.take_append_drop]

theorem icmp_frame_t3 (packet : List Nat) (ifc : sr_if) (code : Nat) (hlen : 42 ≤ packet.length) :
    (icmp_frame packet ifc 3 code).length = 70 ∧
    peek (icmp_frame packet ifc 3 code) 12 2 = [8, 0] ∧
    peek (icmp_frame packet ifc 3 code) 23 1 = [1] ∧
    peek (icmp_frame packet ifc 3 code) 34 2 = [3, code % 256] ∧
    peek (icmp_frame packet ifc 3 code) 30 4 = peek packet 26 4 := by
  obtain ⟨b0, b1, b2, b3, b4, b5, b6, b7, b8, b9, b10, b11, b12, b13, b14, b15, b16, b17, b18, b19, b20, b21, b22, b23, b24, b25, b26, b27, b28, b29, b30, b31, b32, b33, b34, b35, b36, b37, b38, b39, b40, b41, rest, rfl⟩ := prefix42 packet hlen
  obtain ⟨x, hx, hp4⟩ := poke_mac_shape
    (poke (poke (poke (List.replicate (14 + 20 + 36) 0) 0 (peek (b0 :: b1 :: b2 :: b3 :: b4 :: b5 :: b6 :: b7 :: b8 :: b9 :: b10 :: b11 :: b12 :: b13 :: b14 :: b15 :: b16 :: b17 :: b18 :: b19 :: b20 :: b21 :: b22 :: b23 :: b24 :: b25 :: b26 :: b27 :: b28 :: b29 :: b30 :: b31 :: b32 :: b33 :: b34 :: b35 :: b36 :: b37 :: b38 :: b39 :: b40 :: b41 :: rest) 0 14)) 14
        (peek (b0 :: b1 :: b2 :: b3 :: b4 :: b5 :: b6 :: b7 :: b8 :: b9 :: b10 :: b11 :: b12 :: b13 :: b14 :: b15 :: b16 :: b17 :: b18 :: b19 :: b20 :: b21 :: b22 :: b23 :: b24 :: b25 :: b26 :: b27 :: b28 :: b29 :: b30 :: b31 :: b32 :: b33 :: b34 :: b35 :: b36 :: b37 :: b38 :: b39 :: b40 :: b41 :: rest) 14 20)) 0
      (peek (poke (poke (List.replicate (14 + 20 + 36) 0) 0 (peek (b0 :: b1 :: b2 :: b3 :: b4 :: b5 :: b6 :: b7 :: b8 :: b9 :: b10 :: b11 :: b12 :: b13 :: b14 :: b15 :: b16 :: b17 :: b18 :: b19 :: b20 :: b21 :: b22 :: b23 :: b24 :: b25 :: b26 :: b27 :: b28 :: b29 :: b30 :: b31 :: b32 :: b33 :: b34 :: b35 :: b36 :: b37 :: b38 :: b39 :: b40 :: b41 :: rest) 0 14)) 14
        (peek (b0 :: b1 :: b2 :: b3 :: b4 :: b5 :: b6 :: b7 :: b8 :: b9 :: b10 :: b11 :: b12 :: b13 :: b14 :: b15 :: b16 :: b17 :: b18 :: b19 :: b20 :: b21 :: b22 :: b23 :: b24 :: b25 :: b26 :: b27 :: b28 :: b29 :: b30 :: b31 :: b32 :: b33 :: b34 :: b35 :: b36 :: b37 :: b38 :: b39 :: b40 :: b41 :: rest) 14 20)) 6 6)) ifc.addr (by simp [poke, peek])
  obtain ⟨x0, x1, x2, x3, x4, x5, x6, x7, x8, x9, x10, x11, rfl⟩ := length12 x hx
  simp only [icmp_frame, true_or, if_true, hp4]
  simp [poke, peek, u16_bytes, u32_bytes, htons, List.replicate]

/-- The frame of `handle_arpreq` before the two copies of the interface MAC. -/
theorem arp_request_frame_shape (ip : Nat) (ifw : sr_if) :
    arp_request_frame ip ifw =
      poke (poke ([255, 255, 255, 255, 255, 255, 0, 0, 0, 0, 0, 0, 8, 6,
          0, 1, 8, 0, 6, 4, 0, 1, 0, 0, 0, 0, 0, 0] ++ u32_bytes ifw.ip ++
          [255, 255, 255, 255, 255, 255] ++ u32_bytes ip) 22 (ifw.addr.take 6))
        6 (ifw.addr.take 6) := by
  rfl

theorem arp_request_frame_kind (ip : Nat) (ifw : sr_if) :
    (arp_request_frame ip ifw).length = 42 ∧
    peek (arp_request_frame ip ifw) 12 2 = [8, 6] ∧
    peek (arp_request_frame ip ifw) 20 2 = [0, 1] := by
  have hL := length_mac_take ifw.addr
  rw [arp_request_frame_shape]
  have h1 : ∀ l : List Nat, l.length = 42 → (poke l 22 (ifw.addr.take 6)).length = 42 := by
    intro l hl; rw [length_poke _ _ _ (by omega), hl]
  refine ⟨?_, ?_, ?_⟩
  · rw [length_poke _ _ _ (by rw [h1 _ (by simp [u32_bytes])]; omega), h1 _ (by simp [u32_bytes])]
  · rw [peek_poke_disjoint _ _ _ _ _ (by rw [h1 _ (by simp [u32_bytes])]; omega) (Or.inr (by omega)),
      peek_poke_disjoint _ _ _ _ _ (by simp [u32_bytes]) (Or.inl (by omega))]
    simp [peek, u32_bytes]
  · rw [peek_poke_disjoint _ _ _ _ _ (by rw [h1 _ (by simp [u32_bytes])]; omega) (Or.inr (by omega)),
      peek_poke_disjoint _ _ _ _ _ (by simp [u32_bytes]) (Or.inl (by omega))]
    simp [peek, u32_bytes]

theorem arp_request_frame_eq (ip : Nat) (ifw : sr_if) (h : ifw.addr.length = 6) :
    arp_request_frame ip ifw =
      [255, 255, 255, 255, 255, 255] ++ ifw.addr ++ [8, 6] ++ [0, 1, 8, 0, 6, 4, 0, 1] ++
        ifw.addr ++ u32_bytes ifw.ip ++ [255, 255, 255, 255, 255, 255] ++ u32_bytes ip := by
  obtain ⟨a0, a1, a2, a3, a4, a5, ha⟩ : ∃ a0 a1 a2 a3 a4 a5,
      ifw.addr = [a0, a1, a2, a3, a4, a5] := by
    match hh : ifw.addr, h with
    | [a0, a1, a2, a3, a4, a5], _ => exact ⟨_, _, _, _, _, _, rfl⟩
  rw [arp_request_frame_shape]
  simp [ha, poke, u32_bytes]

/-! ## `sr_sendICMP` and the loop over the pending packets -/

theorem sr_get_interface_congr (sr1 sr2 : sr_instance) (h : sr1.if_list = sr2.if_list)
    (name : List Nat) : sr_get_interface sr1 name = sr_get_interface sr2 name := by
  simp [sr_get_interface, h]

theorem sr_sendICMP_effect (sr sr1 : sr_instance) (packet iface : List Nat) (type code : Nat)
    (h : sr_sendICMP sr packet iface type code = some sr1) :
    sr1.cache = sr.cache ∧ sr1.if_list = sr.if_list ∧ sr1.nat = sr.nat := by
  unfold sr_sendICMP at h
  simp only [] at h
  by_cases hl : packet.length < (if type = 3 ∨ type = 11 then 42 else 34)
  · rw [if_pos hl] at h
    exact absurd h (by simp)
  · rw [if_neg hl] at h
    cases hi : sr_get_interface sr iface with
    | none => rw [hi] at h; exact absurd h (by simp)
    | some ifc =>
      rw [hi] at h
      have h := Option.some.inj h
      subst h
      exact ⟨rfl, rfl, rfl⟩

theorem send_unreachable_effect (packets : List sr_packet) (sr sr1 : sr_instance)
    (h : send_unreachable sr packets = some sr1) :
    sr1.cache = sr.cache ∧ sr1.if_list = sr.if_list ∧ sr1.nat = sr.nat := by
  induction packets generalizing sr with
  | nil =>
    have h := Option.some.inj h
    subst h
    exact ⟨rfl, rfl, rfl⟩
  | cons p rest ih =>
    unfold send_unreachable at h
    split at h
    · exact absurd h (by simp)
    · rename_i sr2 h2
      have e1 := sr_sendICMP_effect _ _ _ _ _ _ h2
      have e2 := ih _ h
      exact ⟨e2.1.trans e1.1, e2.2.1.trans e1.2.1, e2.2.2.trans e1.2.2⟩

theorem sr_sendICMP_unreachable (sr : sr_instance) (p : sr_packet) (ifc : sr_if)
    (hlen : 42 ≤ p.buf.length) (hif : sr_get_interface sr p.iface = some ifc) :
    sr_sendICMP sr p.buf p.iface 3 1 =
      some { sr with sent := sr.sent ++ [(p.iface, icmp_frame p.buf ifc 3 1)] } := by
  have h70 := (icmp_frame_t3 p.buf ifc 1 hlen).1
  have ht : (icmp_frame p.buf ifc 3 1).take 70 = icmp_frame p.buf ifc 3 1 :=
    List.take_of_length_le (by omega)
  simp [sr_sendICMP, hif, sr_send_packet, ht, Nat.not_lt.mpr hlen]

/-- The loop of lines 322-324 on packets of at least 42 bytes whose interfaces
exist: it sends one frame for each packet, in the order of the list, on the
packet's interface, and each frame is an ICMP message of type 3, code 1, to the
source address of the packet. -/
theorem send_unreachable_spec (packets : List sr_packet) (sr : sr_instance)
    (hpk : ∀ p ∈ packets, 42 ≤ p.buf.length ∧ (sr_get_interface sr p.iface).isSome = true) :
    ∃ sr1 frames, send_unreachable sr packets = some sr1 ∧
      sr1.cache = sr.cache ∧ sr1.if_list = sr.if_list ∧ sr1.nat = sr.nat ∧
      sr1.sent = sr.sent ++ frames ∧ frames.length = packets.length ∧
      ∀ (i : Nat) (p : sr_packet), packets[i]? = some p → ∃ frame, frames[i]? = some (p.iface, frame) ∧
        frame.length = 70 ∧ peek frame 12 2 = [8, 0] ∧ peek frame 23 1 = [1] ∧
        peek frame 34 2 = [3, 1] ∧ peek frame 30 4 = peek p.buf 26 4 := by
  induction packets generalizing sr with
  | nil => exact ⟨sr, [], rfl, rfl, rfl, rfl, by simp, rfl, by simp⟩
  | cons p rest ih =>
    have hp := hpk p (List.mem_cons_self _ _)
    obtain ⟨ifc, hifc⟩ := Option.isSome_iff_exists.mp hp.2
    have hsend := sr_sendICMP_unreachable sr p ifc hp.1 hifc
    have hrest : ∀ q ∈ rest, 42 ≤ q.buf.length ∧
        (sr_get_interface { sr with sent := sr.sent ++ [(p.iface, icmp_frame p.buf ifc 3 1)] }
          q.iface).isSome = true := by
      intro q hq
      exact hpk q (List.mem_cons_of_mem _ hq)
    obtain ⟨sr1, frames, h1, h2, h3, h4, h5, h6, h7⟩ := ih _ hrest
    refine ⟨sr1, (p.iface, icmp_frame p.buf ifc 3 1) :: frames, ?_, h2, h3, h4, ?_, ?_, ?_⟩
    · unfold send_unreachable
      rw [hsend]
      exact h1
    · rw [h5]; simp
    · simp [h6]
    · intro i q hq
      cases i with
      | zero =>
        have : p = q := by simpa using hq
        subst this
        have hf := icmp_frame_t3 p.buf ifc 1 hp.1
        exact ⟨icmp_frame p.buf ifc 3 1, by simp, hf.1, hf.2.1, hf.2.2.1, hf.2.2.2.1,
          hf.2.2.2.2⟩
      | succ i =>
        have hq : rest[i]? = some q := by simpa using hq
        obtain ⟨frame, hfr, hfacts⟩ := h7 i q hq
        exact ⟨frame, by simpa using hfr, hfacts⟩

/-! ## The queue under `handle_arpreq` -/

theorem getElem?_split (l : List sr_arpreq) (k : Nat) (r : sr_arpreq) (h : l[k]? = some r) :
    ∃ l1 l2, l = l1 ++ r :: l2 ∧ l1.length = k := by
  induction l generalizing k with
  | nil => simp at h
  | cons q rest ih =>
    cases k with
    | zero =>
      have : q = r := by simpa using h
      subst this
      exact ⟨[], rest, rfl, rfl⟩
    | succ k =>
      have h : rest[k]? = some r := by simpa using h
      obtain ⟨l1, l2, h1, h2⟩ := ih k h
      exact ⟨q :: l1, l2, by simp [h1], by simp [h2]⟩

theorem destroy_unlink_split (l1 l2 : List sr_arpreq) (r : sr_arpreq) :
    destroy_unlink l1.length (l1 ++ r :: l2) = l1 ++ l2 := by
  induction l1 with
  | nil => rfl
  | cons q rest ih => simp [destroy_unlink, ih]

theorem destroy_unlink_length (k : Nat) (l : List sr_arpreq) (h : k < l.length) :
    (destroy_unlink k l).length + 1 = l.length := by
  induction l generalizing k with
  | nil => simp at h
  | cons q rest ih =>
    cases k with
    | zero => simp [destroy_unlink]
    | succ k =>
      have := ih k (by simpa using h)
      simp [destroy_unlink, this]

theorem insert_unlink_find_none (ip : Nat) (l : List sr_arpreq)
    (h : queuereq_find ip l = none) : (insert_unlink ip l).1 = l := by
  rw [insert_unlink_none ip l (queuereq_find_none_iff ip l h)]

theorem insert_unlink_find_some (ip : Nat) (l : List sr_arpreq) (j : Nat)
    (h : queuereq_find ip l = some j) :
    (insert_unlink ip l).1.length + 1 = l.length ∧ j < l.length := by
  rcases first_request_split ip l with h1 | ⟨l1, r, l2, hs, hr, h1⟩
  · rw [queuereq_find_none ip l h1] at h
    simp at h
  · rw [hs, queuereq_find_split ip l1 l2 r h1 hr] at h
    have hj : l1.length = j := by simpa using h
    rw [hs, insert_unlink_split ip l1 l2 r h1 hr]
    simp
    omega

theorem insert_entries_mem (cache : sr_arpcache) (mac : List Nat) (ip : Nat) (now : Int)
    (e : sr_arpentry) (h : e ∈ (sr_arpcache_insert cache mac ip now).1.entries) :
    e ∈ cache.entries ∨ e = { mac := mac.take 6, ip := ip, added := now, valid := 1 } := by
  simp only [sr_arpcache_insert] at h
  split at h
  · rcases List.mem_or_eq_of_mem_set h with h | h
    · left; exact h
    · right; exact h
  · left; exact h

theorem mem_set_packets (l : List sr_arpreq) (k : Nat) (r r1 : sr_arpreq)
    (hr : r ∈ l) (hp : r1.packets = r.packets) :
    ∀ q ∈ l.set k r1, ∃ q0 ∈ l, q.packets = q0.packets := by
  intro q hq
  rcases List.mem_or_eq_of_mem_set hq with h | h
  · exact ⟨q, h, rfl⟩
  · exact ⟨r, hr, by rw [h, hp]⟩

/-- What a call of `handle_arpreq` can change: it keeps the interface list and
the NAT switch; an entry of the cache afterwards was there before or was added
at `instime`; a queued request afterwards has the pending packets of a request
queued before; and the part of the queue from `next` on is shorter than the
part from `req` on was. -/
theorem handle_arpreq_effect (sr : sr_instance) (req : Nat) (curtime instime : Int)
    (h : handled) (hh : handle_arpreq sr req curtime instime = some h) :
    h.sr.if_list = sr.if_list ∧ h.sr.nat = sr.nat ∧
    (∀ e ∈ h.sr.cache.entries, e ∈ sr.cache.entries ∨ e.added = instime) ∧
    (∀ q ∈ h.sr.cache.requests, ∃ q0 ∈ sr.cache.requests, q.packets = q0.packets) ∧
    h.sr.cache.requests.length + (req + 1) ≤ sr.cache.requests.length + h.next := by
  unfold handle_arpreq at hh
  cases hreq : sr.cache.requests[req]? with
  | none => simp [hreq] at hh
  | some r =>
    have hlt : req < sr.cache.requests.length := (List.getElem?_eq_some_iff.mp hreq).1
    have hmem : r ∈ sr.cache.requests := List.getElem?_mem hreq
    simp only [hreq] at hh
    by_cases h5 : 5 ≤ r.times_sent
    · rw [if_pos h5] at hh
      cases hs : send_unreachable sr r.packets with
      | none => simp [hs] at hh
      | some sr1 =>
        simp only [hs] at hh
        have hh := Option.some.inj hh
        subst hh
        obtain ⟨e1, e2, e3⟩ := send_unreachable_effect _ _ _ hs
        refine ⟨e2, e3, ?_, ?_, ?_⟩
        · intro e he
          left
          simpa [sr_arpreq_destroy, e1] using he
        · intro q hq
          have hq : q ∈ destroy_unlink req sr.cache.requests := by
            simpa [sr_arpreq_destroy, e1] using hq
          exact ⟨q, (destroy_unlink_sublist _ _).subset hq, rfl⟩
        · have := destroy_unlink_length req _ hlt
          simp only [sr_arpreq_destroy, e1]
          omega
    · rw [if_neg h5] at hh
      by_cases hc : r.sent = 0 ∨ 1 ≤ curtime - r.sent
      · rw [if_pos hc] at hh
        cases hp : r.packets with
        | nil => simp [hp] at hh
        | cons first rest =>
          simp only [hp] at hh
          cases hi : sr_get_interface sr first.iface with
          | none =>
            simp only [hi] at hh
            by_cases hn : sr.nat = true
            · simp [hn] at hh
            · have hn1 : sr.nat = false := by simpa using hn
              simp only [hn1] at hh
              have hh := Option.some.inj hh
              subst hh
              refine ⟨rfl, by simp [hn1], fun e he => Or.inl he, ?_, by simp⟩
              exact mem_set_packets _ _ r _ hmem hp.symm
          | some ifw =>
            simp only [hi] at hh
            have hsub := insert_unlink_sublist ifw.ip sr.cache.requests
            have hent : ∀ e ∈ (sr_arpcache_insert sr.cache ifw.addr ifw.ip instime).1.entries,
                e ∈ sr.cache.entries ∨ e.added = instime := by
              intro e he
              rcases insert_entries_mem _ _ _ _ _ he with h1 | h1
              · left; exact h1
              · right; rw [h1]
            cases hq : queuereq_find ifw.ip sr.cache.requests with
            | none =>
              simp only [hq] at hh
              have hh := Option.some.inj hh
              subst hh
              have hsame := insert_unlink_find_none _ _ hq
              refine ⟨rfl, rfl, hent, ?_, ?_⟩
              · simp only [sr_send_packet, sr_arpcache_insert, hsame]
                exact mem_set_packets _ _ r _ hmem hp.symm
              · simp [sr_send_packet, sr_arpcache_insert, hsame]
            | some j =>
              simp only [hq] at hh
              obtain ⟨hl1, hl2⟩ := insert_unlink_find_some _ _ _ hq
              have hpk : ∀ (k : Nat) (r1 : sr_arpreq), r1.packets = r.packets →
                  ∀ q ∈ ((insert_unlink ifw.ip sr.cache.requests).1).set k r1,
                    ∃ q0 ∈ sr.cache.requests, q.packets = q0.packets := by
                intro k r1 hr1 q hq1
                rcases List.mem_or_eq_of_mem_set hq1 with h1 | h1
                · exact ⟨q, hsub.subset h1, rfl⟩
                · exact ⟨r, hmem, by rw [h1, hr1]⟩
              by_cases hj1 : j < req
              · simp only [hj1, if_true] at hh
                have hh := Option.some.inj hh
                subst hh
                refine ⟨rfl, rfl, hent, hpk _ _ hp.symm, ?_⟩
                simp only [sr_send_packet, sr_arpcache_insert, List.length_set]
                omega
              · by_cases hj2 : j = req
                · subst hj2
                  simp only [lt_irrefl, if_false, if_true] at hh
                  have hh := Option.some.inj hh
                  subst hh
                  refine ⟨rfl, rfl, hent, ?_, ?_⟩
                  · intro q hq1
                    exact ⟨q, hsub.subset hq1, rfl⟩
                  · simp only [sr_send_packet, sr_arpcache_insert]
                    omega
                · simp only [hj1, hj2, if_false] at hh
                  have hh := Option.some.inj hh
                  subst hh
                  refine ⟨rfl, rfl, hent, hpk _ _ hp.symm, ?_⟩
                  simp only [sr_send_packet, sr_arpcache_insert, List.length_set]
                  omega
      · rw [if_neg hc] at hh
        have hh := Option.some.inj hh
        subst hh
        exact ⟨rfl, rfl, fun e he => Or.inl he, fun q hq => ⟨q, hq, rfl⟩, by simp⟩

/-! ## The timer pass -/

theorem handle_arpreq_defined (sr : sr_instance) (req : Nat) (curtime instime : Int)
    (hlt : req < sr.cache.requests.length) (hs : requests_sendable sr) :
    ∃ h, handle_arpreq sr req curtime instime = some h := by
  have hreq : sr.cache.requests[req]? = some (sr.cache.requests[req]) :=
    List.getElem?_eq_getElem hlt
  generalize sr.cache.requests[req] = r at hreq
  have hr := hs r (List.getElem?_mem hreq)
  unfold handle_arpreq
  simp only [hreq]
  by_cases h5 : 5 ≤ r.times_sent
  · rw [if_pos h5]
    obtain ⟨sr1, frames, h1, _⟩ := send_unreachable_spec r.packets sr hr.2
    rw [h1]
    exact ⟨_, rfl⟩
  · rw [if_neg h5]
    by_cases hc : r.sent = 0 ∨ 1 ≤ curtime - r.sent
    · rw [if_pos hc]
      cases hp : r.packets with
      | nil => exact absurd hp hr.1
      | cons first rest =>
        have hf := (hr.2 first (by rw [hp]; exact List.mem_cons_self _ _)).2
        obtain ⟨ifw, hifw⟩ := Option.isSome_iff_exists.mp hf
        simp only [hifw]
        split <;> exact ⟨_, rfl⟩
    · rw [if_neg hc]
      exact ⟨_, rfl⟩

theorem handle_arpreq_sendable (sr : sr_instance) (req : Nat) (curtime instime : Int)
    (h : handled) (hh : handle_arpreq sr req curtime instime = some h)
    (hs : requests_sendable sr) : requests_sendable h.sr := by
  obtain ⟨e1, _, _, e4, _⟩ := handle_arpreq_effect sr req curtime instime h hh
  intro q hq
  obtain ⟨q0, hq0, hpk⟩ := e4 q hq
  have := hs q0 hq0
  rw [hpk]
  refine ⟨this.1, ?_⟩
  intro p hp
  rw [sr_get_interface_congr h.sr sr e1]
  exact this.2 p hp

theorem sweep_loop_entries (clk : Nat → Int × Int) (fuel : Nat) :
    ∀ (i : Nat) (sr : sr_instance) (req : Nat) (sr1 : sr_instance),
      sweep_loop clk fuel i sr req = some sr1 →
      ∀ e ∈ sr1.cache.entries, e ∈ sr.cache.entries ∨ ∃ j, e.added = (clk j).2 := by
  induction fuel with
  | zero =>
    intro i sr req sr1 h e he
    unfold sweep_loop at h
    split at h
    · exact absurd h (by simp)
    · have h := Option.some.inj h
      subst h
      exact Or.inl he
  | succ fuel ih =>
    intro i sr req sr1 h e he
    unfold sweep_loop at h
    split at h
    · have h := Option.some.inj h
      subst h
      exact Or.inl he
    · cases hh : handle_arpreq sr req (clk i).1 (clk i).2 with
      | none => simp [hh] at h
      | some hd =>
        simp only [hh] at h
        rcases ih _ _ _ _ h e he with h1 | h1
        · rcases (handle_arpreq_effect _ _ _ _ _ hh).2.2.1 e h1 with h2 | h2
          · exact Or.inl h2
          · exact Or.inr ⟨i, h2⟩
        · exact Or.inr h1

theorem sweep_loop_defined (clk : Nat → Int × Int) (fuel : Nat) :
    ∀ (i : Nat) (sr : sr_instance) (req : Nat), requests_sendable sr →
      sr.cache.requests.length ≤ req + fuel →
      ∃ sr1, sweep_loop clk fuel i sr req = some sr1 := by
  induction fuel with
  | zero =>
    intro i sr req _ hl
    unfold sweep_loop
    rw [if_neg (by omega)]
    exact ⟨_, rfl⟩
  | succ fuel ih =>
    intro i sr req hs hl
    unfold sweep_loop
    by_cases hend : sr.cache.requests.length ≤ req
    · rw [if_pos hend]
      exact ⟨_, rfl⟩
    · rw [if_neg hend]
      obtain ⟨hd, hh⟩ := handle_arpreq_defined sr req (clk i).1 (clk i).2 (by omega) hs
      simp only [hh]
      have hm := (handle_arpreq_effect _ _ _ _ _ hh).2.2.2.2
      exact ih _ _ _ (handle_arpreq_sendable _ _ _ _ _ hh hs) (by omega)

theorem timeout_invalidate_fresh (TO curtime : Int) (es : List sr_arpentry) :
    ∀ e ∈ timeout_invalidate TO curtime es, ¬ (e.valid ≠ 0 ∧ TO < curtime - e.added) := by
  induction es with
  | nil => simp [timeout_invalidate]
  | cons x rest ih =>
    intro e he
    unfold timeout_invalidate at he
    rcases List.mem_cons.mp he with h | h
    · by_cases hx : x.valid ≠ 0 ∧ TO < curtime - x.added
      · rw [if_pos hx] at h
        rw [h]
        simp
      · rw [if_neg hx] at h
        rw [h]
        exact hx
    · exact ih e h

/-- C7: one pass of the loop body of `sr_arpcache_timeout` whose clock reads
`curtime`.  With `SR_ARPCACHE_TO` not negative and a clock that does not run
backwards during the pass, no entry of the cache after the pass is valid with
`curtime - added > SR_ARPCACHE_TO`, whatever the cache was before.  The pass
has a result whenever the queued requests hold well-formed pending packets. -/
theorem sr_arpcache_timeout_pass_fresh (TO : Int) (sr : sr_instance) (curtime : Int)
    (clk : Nat → Int × Int) (hTO : 0 ≤ TO) (hclk : ∀ i, curtime ≤ (clk i).2) :
    (∀ sr1, sr_arpcache_timeout_pass TO sr curtime clk = some sr1 →
      ∀ e ∈ sr1.cache.entries, ¬ (e.valid ≠ 0 ∧ TO < curtime - e.added)) ∧
    (requests_sendable sr → ∃ sr1, sr_arpcache_timeout_pass TO sr curtime clk = some sr1) := by
  constructor
  · intro sr1 h e he
    unfold sr_arpcache_timeout_pass sr_arpcache_sweepreqs at h
    rcases sweep_loop_entries clk _ _ _ _ _ h e he with h1 | ⟨j, hj⟩
    · exact timeout_invalidate_fresh TO curtime _ e h1
    · intro hbad
      have := hclk j
      rw [hj] at hbad
      omega
  · intro hs
    unfold sr_arpcache_timeout_pass sr_arpcache_sweepreqs
    exact sweep_loop_defined clk _ _ _ _ hs (by simp)

set_option maxRecDepth 20000 in
/-- C7 at a concrete router: slot 0 of `router_with 0 0` holds a binding added at
time 0; the pass at time 100 with a timeout of 15 has a result, and no entry of
it is valid and older than 15. -/
theorem sr_arpcache_timeout_pass_fresh_witness :
    (∀ sr1, sr_arpcache_timeout_pass 15 (router_with 0 0) 100 (fun _ => (100, 100)) = some sr1 →
      ∀ e ∈ sr1.cache.entries, ¬ (e.valid ≠ 0 ∧ (15 : Int) < 100 - e.added)) ∧
    ∃ sr1, sr_arpcache_timeout_pass 15 (router_with 0 0) 100 (fun _ => (100, 100)) = some sr1 :=
  have h := sr_arpcache_timeout_pass_fresh 15 (router_with 0 0) 100 (fun _ => (100, 100))
    (by decide) (fun _ => le_refl _)
  ⟨h.1, h.2 (by decide)⟩

/-! ## `handle_arpreq`: the retry branch -/

/-- The branch of lines 327-371 when the interface of the first pending packet
exists: the call sends one frame, the ARP request, on that interface, stores
the interface's own binding through `sr_arpcache_insert`, and leaves the
request with `sent = curtime` and one more attempt. -/
theorem handle_arpreq_emit (sr : sr_instance) (req : Nat) (r : sr_arpreq) (first : sr_packet)
    (rest : List sr_packet) (ifw : sr_if) (curtime instime : Int)
    (hreq : sr.cache.requests[req]? = some r) (hlt : r.times_sent < 5)
    (hc : r.sent = 0 ∨ 1 ≤ curtime - r.sent)
    (hpk : r.packets = first :: rest) (hif : sr_get_interface sr first.iface = some ifw) :
    ∃ h, handle_arpreq sr req curtime instime = some h ∧
      h.sr.sent = sr.sent ++ [(ifw.name, arp_request_frame r.ip ifw)] ∧
      h.req = some { r with sent := curtime, times_sent := r.times_sent + 1 } ∧
      h.sr.if_list = sr.if_list ∧ h.sr.nat = sr.nat ∧
      h.sr.cache.entries = (sr_arpcache_insert sr.cache ifw.addr ifw.ip instime).1.entries ∧
      (queuereq_find ifw.ip sr.cache.requests = none →
        h.next = req + 1 ∧
        h.sr.cache.requests =
          sr.cache.requests.set req { r with sent := curtime, times_sent := r.times_sent + 1 }) := by
  have ht : (arp_request_frame r.ip ifw).take (14 + 28) = arp_request_frame r.ip ifw :=
    List.take_of_length_le (by rw [(arp_request_frame_kind r.ip ifw).1])
  unfold handle_arpreq
  simp only [hreq]
  rw [if_neg (by omega), if_pos hc]
  simp only [hpk, hif]
  cases hq : queuereq_find ifw.ip sr.cache.requests with
  | none =>
    have hsame := insert_unlink_find_none _ _ hq
    refine ⟨_, rfl, ?_, rfl, rfl, rfl, rfl, ?_⟩
    · simp only [sr_send_packet, ht]
    · intro _
      refine ⟨rfl, ?_⟩
      simp only [sr_send_packet, sr_arpcache_insert, hsame]
  | some j =>
    by_cases hj1 : j < req
    · simp only [hj1, if_true]
      refine ⟨_, rfl, ?_, rfl, rfl, rfl, rfl, ?_⟩
      · simp only [sr_send_packet, ht]
      · intro h; exact absurd h (by simp)
    · by_cases hj2 : j = req
      · subst hj2
        simp only [lt_irrefl, if_false, if_true]
        refine ⟨_, rfl, ?_, rfl, rfl, rfl, rfl, ?_⟩
        · simp only [sr_send_packet, ht]
        · intro h; exact absurd h (by simp)
      · simp only [hj1, hj2, if_false]
        refine ⟨_, rfl, ?_, rfl, rfl, rfl, rfl, ?_⟩
        · simp only [sr_send_packet, ht]
        · intro h; exact absurd h (by simp)

/-- C8: a request with fewer than 5 attempts whose first pending packet names an
existing interface.  If last-sent is 0 or at least one second before `curtime`,
`handle_arpreq` sends exactly one frame, an ARP request (EtherType 0x0806,
opcode 1), and leaves the request with last-sent `curtime` and one more
attempt; otherwise it sends nothing and changes nothing.  For a request that
`sr_arpcache_queuereq` has just created (attempt 0, last-sent 0) the call
always sends. -/
theorem handle_arpreq_retry (sr : sr_instance) (req : Nat) (r : sr_arpreq) (first : sr_packet)
    (rest : List sr_packet) (ifw : sr_if) (curtime instime : Int)
    (hreq : sr.cache.requests[req]? = some r) (hlt : r.times_sent < 5)
    (hpk : r.packets = first :: rest) (hif : sr_get_interface sr first.iface = some ifw) :
    (r.sent = 0 ∨ 1 ≤ curtime - r.sent →
      ∃ h, handle_arpreq sr req curtime instime = some h ∧
        h.sr.sent = sr.sent ++ [(ifw.name, arp_request_frame r.ip ifw)] ∧
        peek (arp_request_frame r.ip ifw) 12 2 = [8, 6] ∧
        peek (arp_request_frame r.ip ifw) 20 2 = [0, 1] ∧
        h.req = some { r with sent := curtime, times_sent := r.times_sent + 1 } ∧
        (queuereq_find ifw.ip sr.cache.requests = none →
          h.sr.cache.requests =
            sr.cache.requests.set req
              { r with sent := curtime, times_sent := r.times_sent + 1 })) ∧
    (¬ (r.sent = 0 ∨ 1 ≤ curtime - r.sent) →
      handle_arpreq sr req curtime instime = some { sr := sr, req := some r, next := req + 1 }) ∧
    (∀ (NAMELEN ip : Nat) (frame name : List Nat) (ifw1 : sr_if),
      (∀ q ∈ sr.cache.requests, q.ip ≠ ip) → frame ≠ [] →
      sr_get_interface sr (name.take NAMELEN) = some ifw1 →
      ∃ h, handle_arpreq
          { sr with cache :=
              (sr_arpcache_queuereq NAMELEN sr.cache ip (some frame) frame.length (some name)).1 }
          (sr_arpcache_queuereq NAMELEN sr.cache ip (some frame) frame.length (some name)).2
          curtime instime = some h ∧
        h.sr.sent = sr.sent ++ [(ifw1.name, arp_request_frame ip ifw1)] ∧
        h.req = some { ip := ip, sent := curtime, times_sent := 1,
                       packets := [{ buf := frame, len := frame.length,
                                     iface := name.take NAMELEN }] }) := by
  refine ⟨?_, ?_, ?_⟩
  · intro hc
    obtain ⟨h, h1, h2, h3, _, _, _, h7⟩ :=
      handle_arpreq_emit sr req r first rest ifw curtime instime hreq hlt hc hpk hif
    have hk := arp_request_frame_kind r.ip ifw
    exact ⟨h, h1, h2, hk.2.1, hk.2.2, h3, fun hn => (h7 hn).2⟩
  · intro hc
    unfold handle_arpreq
    simp only [hreq]
    rw [if_neg (by omega), if_neg hc]
  · intro NAMELEN ip frame name ifw1 hno hframe hif1
    have hlen : frame.length ≠ 0 := by
      intro h; exact hframe (List.length_eq_zero.mp h)
    have hq : sr_arpcache_queuereq NAMELEN sr.cache ip (some frame) frame.length (some name) =
        ({ sr.cache with requests :=
            { ip := ip, sent := 0, times_sent := 0,
              packets := [{ buf := frame, len := frame.length, iface := name.take NAMELEN }] }
              :: sr.cache.requests }, 0) := by
      simp [sr_arpcache_queuereq, queuereq_find_none ip _ hno, hlen, push_packet]
    rw [hq]
    obtain ⟨h, h1, h2, h3, _⟩ := handle_arpreq_emit
      { sr with cache := { sr.cache with requests :=
          { ip := ip, sent := 0, times_sent := 0,
            packets := [{ buf := frame, len := frame.length, iface := name.take NAMELEN }] }
            :: sr.cache.requests } } 0
      { ip := ip, sent := 0, times_sent := 0,
        packets := [{ buf := frame, len := frame.length, iface := name.take NAMELEN }] }
      { buf := frame, len := frame.length, iface := name.take NAMELEN }
      [] ifw1 curtime instime (by simp) (by show 0 < 5; omega)
      (Or.inl rfl) rfl hif1
    exact ⟨h, h1, h2, h3⟩

set_option maxRecDepth 20000 in
/-- C8 at a concrete router: the request of `router_with 0 0` has never been
sent, and the call at time 100 sends one ARP request on `eth1`. -/
theorem handle_arpreq_retry_witness :
    ∃ h, handle_arpreq (router_with 0 0) 0 100 100 = some h ∧
      h.sr.sent = [(eth1, arp_request_frame 7 eth1_if)] ∧
      h.req = some { ip := 7, sent := 100, times_sent := 1,
                     packets := [{ buf := frame42, len := 42, iface := eth1 }] } :=
  have h := (handle_arpreq_retry (router_with 0 0) 0
    { ip := 7, sent := 0, times_sent := 0,
      packets := [{ buf := frame42, len := 42, iface := eth1 }] }
    { buf := frame42, len := 42, iface := eth1 } [] eth1_if 100 100
    rfl (by decide) rfl (by decide)).1 (Or.inl rfl)
  match h with
  | ⟨hd, h1, h2, _, _, h5, _⟩ => ⟨hd, h1, h2, h5⟩

/-! ## `handle_arpreq`: the frame of the ARP request -/

set_option maxRecDepth 20000 in
/-- C9, as stated, fails: the ARP request that `handle_arpreq` sends for the
request of `router_with 0 0` does not have an all-zero target MAC (bytes 32 to
37 of the frame). -/
theorem arp_request_target_mac_not_zero :
    ¬ ((handle_arpreq (router_with 0 0) 0 100 100).map
        (fun h => h.sr.sent.map (fun f => peek f.2 32 6)) = some [[0, 0, 0, 0, 0, 0]]) := by
  decide

/-- C9, amended: the frame `handle_arpreq` sends for a request with target
address `ip` through the interface `I` (whose MAC has 6 bytes) is, byte for
byte: Ethernet destination FF:FF:FF:FF:FF:FF, Ethernet source `I`'s MAC,
EtherType 0x0806; hardware type 1, protocol type 0x0800, lengths 6 and 4,
opcode 1 (request); sender MAC `I`'s MAC, sender IP `I`'s IP, target MAC
FF:FF:FF:FF:FF:FF, target IP `ip`. -/
theorem handle_arpreq_frame (sr : sr_instance) (req : Nat) (r : sr_arpreq) (first : sr_packet)
    (rest : List sr_packet) (ifw : sr_if) (curtime instime : Int)
    (hreq : sr.cache.requests[req]? = some r) (hlt : r.times_sent < 5)
    (hc : r.sent = 0 ∨ 1 ≤ curtime - r.sent)
    (hpk : r.packets = first :: rest) (hif : sr_get_interface sr first.iface = some ifw)
    (hmac : ifw.addr.length = 6) :
    ∃ h, handle_arpreq sr req curtime instime = some h ∧
      h.sr.sent = sr.sent ++ [(ifw.name,
        [255, 255, 255, 255, 255, 255] ++ ifw.addr ++ [8, 6] ++
        [0, 1, 8, 0, 6, 4, 0, 1] ++
        ifw.addr ++ u32_bytes ifw.ip ++ [255, 255, 255, 255, 255, 255] ++ u32_bytes r.ip)] := by
  obtain ⟨h, h1, h2, _⟩ :=
    handle_arpreq_emit sr req r first rest ifw curtime instime hreq hlt hc hpk hif
  rw [arp_request_frame_eq r.ip ifw hmac] at h2
  exact ⟨h, h1, h2⟩

set_option maxRecDepth 20000 in
/-- The amended C9 at a concrete router: the frame sent for the request of
`router_with 0 0`, for address 7, through `eth1`. -/
theorem handle_arpreq_frame_witness :
    ∃ h, handle_arpreq (router_with 0 0) 0 100 100 = some h ∧
      h.sr.sent = [(eth1,
        [255, 255, 255, 255, 255, 255, 2, 0, 0, 0, 0, 1, 8, 6,
         0, 1, 8, 0, 6, 4, 0, 1,
         2, 0, 0, 0, 0, 1, 10, 0, 1, 1, 255, 255, 255, 255, 255, 255, 7, 0, 0, 0])] :=
  handle_arpreq_frame (router_with 0 0) 0
    { ip := 7, sent := 0, times_sent := 0,
      packets := [{ buf := frame42, len := 42, iface := eth1 }] }
    { buf := frame42, len := 42, iface := eth1 } [] eth1_if 100 100
    rfl (by decide) (Or.inl rfl) rfl (by decide) rfl

/-! ## `handle_arpreq`: giving up after five attempts -/

/-- C10: a request with at least 5 attempts whose pending packets are frames of
at least 42 bytes queued for interfaces of the router.  `handle_arpreq` sends
exactly one frame for each pending packet, in list order, on that packet's
stored interface; each frame is an IPv4 frame (EtherType 0x0800, so none is an
ARP request) of 70 bytes carrying ICMP (protocol 1) of type 3 and code 1, with
IP destination equal to the packet's IP source.  Afterwards the request is
freed and no longer queued: the queue is the queue before without it, and with
one request per address no queued request has its target.  The cache entries
are unchanged. -/
theorem handle_arpreq_give_up (sr : sr_instance) (req : Nat) (r : sr_arpreq)
    (curtime instime : Int)
    (hreq : sr.cache.requests[req]? = some r) (h5 : 5 ≤ r.times_sent)
    (hpk : ∀ p ∈ r.packets,
      42 ≤ p.buf.length ∧ (sr_get_interface sr p.iface).isSome = true) :
    ∃ h frames, handle_arpreq sr req curtime instime = some h ∧
      h.sr.sent = sr.sent ++ frames ∧ frames.length = r.packets.length ∧
      (∀ (i : Nat) (p : sr_packet), r.packets[i]? = some p →
        ∃ frame, frames[i]? = some (p.iface, frame) ∧
          frame.length = 70 ∧ peek frame 12 2 = [8, 0] ∧ peek frame 23 1 = [1] ∧
          peek frame 34 2 = [3, 1] ∧ peek frame 30 4 = peek p.buf 26 4) ∧
      h.req = none ∧
      (∃ l1 l2, sr.cache.requests = l1 ++ r :: l2 ∧ l1.length = req ∧
        h.sr.cache.requests = l1 ++ l2) ∧
      (one_request_per_ip sr.cache.requests → ∀ q ∈ h.sr.cache.requests, q.ip ≠ r.ip) ∧
      h.sr.cache.entries = sr.cache.entries := by
  obtain ⟨sr1, frames, h1, h2, _, _, h5a, h6, h7⟩ := send_unreachable_spec r.packets sr hpk
  obtain ⟨l1, l2, hsplit, hl1⟩ := getElem?_split _ _ _ hreq
  have hq : destroy_unlink req sr.cache.requests = l1 ++ l2 := by
    rw [hsplit, ← hl1]
    exact destroy_unlink_split l1 l2 r
  refine ⟨{ sr := { sr1 with cache := sr_arpreq_destroy sr1.cache (some req) }
            req := none, next := req }, frames, ?_, h5a, h6, h7, rfl,
    ⟨l1, l2, hsplit, hl1, ?_⟩, ?_, ?_⟩
  · unfold handle_arpreq
    simp only [hreq]
    rw [if_pos h5, h1]
  · simp only [sr_arpreq_destroy, h2, hq]
  · intro huniq q hmem
    have hmem : q ∈ l1 ++ l2 := by simpa [sr_arpreq_destroy, h2, hq] using hmem
    unfold one_request_per_ip at huniq
    rw [hsplit, List.map_append, List.map_cons] at huniq
    have hn := List.nodup_append.mp huniq
    rcases List.mem_append.mp hmem with hm | hm
    · intro hip
      exact hn.2.2 (List.mem_map.mpr ⟨q, hm, rfl⟩) (by rw [hip]; exact List.mem_cons_self _ _)
    · intro hip
      exact (List.nodup_cons.mp hn.2.1).1 (by rw [← hip]; exact List.mem_map.mpr ⟨q, hm, rfl⟩)
  · simp only [sr_arpreq_destroy, h2]

set_option maxRecDepth 20000 in
/-- C10 at a concrete router: the request of `router_with 5 0` has been sent 5
times and holds `frame42` for `eth1`; the call sends one frame and empties the
queue. -/
theorem handle_arpreq_give_up_witness :
    ∃ h frames, handle_arpreq (router_with 5 0) 0 100 100 = some h ∧
      h.sr.sent = frames ∧ frames.length = 1 ∧
      (∃ frame, frames[0]? = some (eth1, frame) ∧ peek frame 34 2 = [3, 1] ∧
        peek frame 30 4 = [10, 0, 1, 5]) ∧
      h.sr.cache.requests = [] :=
  have h := handle_arpreq_give_up (router_with 5 0) 0
    { ip := 7, sent := 0, times_sent := 5,
      packets := [{ buf := frame42, len := 42, iface := eth1 }] } 100 100
    rfl (by decide) (by decide)
  match h with
  | ⟨hd, frames, h1, h2, h3, h4, _, ⟨l1, l2, h6, h7, h8⟩, _, _⟩ =>
    ⟨hd, frames, h1, by simpa [router_with] using h2, h3,
      (match h4 0 { buf := frame42, len := 42, iface := eth1 } rfl with
        | ⟨frame, e1, _, _, _, e5, e6⟩ => ⟨frame, e1, e5, e6⟩),
      by
        have hl1 : l1 = [] := List.length_eq_zero.mp h7
        subst hl1
        have : l2 = [] := by
          have h6 : (router_with 5 0).cache.requests = [] ++ _ :: l2 := h6
          simp [router_with] at h6
          exact h6
        rw [h8, this]; rfl⟩

/-! ## Forwarding a frame -/

theorem prefix34 (packet : List Nat) (hlen : 34 ≤ packet.length) :
    ∃ b0 b1 b2 b3 b4 b5 b6 b7 b8 b9 b10 b11 b12 b13 b14 b15 b16 b17 b18 b19 b20 b21 b22 b23 b24 b25 b26 b27 b28 b29 b30 b31 b32 b33 rest, packet = b0 :: b1 :: b2 :: b3 :: b4 :: b5 :: b6 :: b7 :: b8 :: b9 :: b10 :: b11 :: b12 :: b13 :: b14 :: b15 :: b16 :: b17 :: b18 :: b19 :: b20 :: b21 :: b22 :: b23 :: b24 :: b25 :: b26 :: b27 :: b28 :: b29 :: b30 :: b31 :: b32 :: b33 :: rest := by
  have h1 : (packet.take 34).length = 34 := by simp; omega
  have h2 : packet = packet.take 34 ++ packet.drop 34 := by simp
  generalize packet.take 34 = pre at h1 h2
  match pre, h1 with
  | b0 :: b1 :: b2 :: b3 :: b4 :: b5 :: b6 :: b7 :: b8 :: b9 :: b10 :: b11 :: b12 :: b13 :: b14 :: b15 :: b16 :: b17 :: b18 :: b19 :: b20 :: b21 :: b22 :: b23 :: b24 :: b25 :: b26 :: b27 :: b28 :: b29 :: b30 :: b31 :: b32 :: b33 :: [], _ => exact ⟨_, _, _, _, _, _, _, _, _, _, _, _, _, _, _, _, _, _, _, _, _, _, _, _, _, _, _, _, _, _, _, _, _, _, _, h2⟩

theorem mac6 (addr : List Nat) (h : addr.length = 6) :
    ∃ a0 a1 a2 a3 a4 a5, addr = [a0, a1, a2, a3, a4, a5] := by
  match addr, h with
  | [a0, a1, a2, a3, a4, a5], _ => exact ⟨_, _, _, _, _, _, rfl⟩

theorem sr_get_interface_name (sr : sr_instance) (name : List Nat) (ifc : sr_if)
    (h : sr_get_interface sr name = some ifc) : ifc.name = name := by
  unfold sr_get_interface at h
  have := List.find?_some h
  simpa using this

theorem queuereq_find_some (ip : Nat) (l : List sr_arpreq) (k : Nat)
    (h : queuereq_find ip l = some k) : ∃ r, l[k]? = some r ∧ r.ip = ip := by
  induction l generalizing k with
  | nil => simp [queuereq_find] at h
  | cons q rest ih =>
    unfold queuereq_find at h
    by_cases hq : q.ip = ip
    · rw [if_pos hq] at h
      have : k = 0 := by simpa using h.symm
      subst this
      exact ⟨q, by simp, hq⟩
    · rw [if_neg hq] at h
      cases hf : queuereq_find ip rest with
      | none => simp [hf] at h
      | some j =>
        rw [hf] at h
        have : k = j + 1 := by simpa using h.symm
        subst this
        obtain ⟨r, hr, hip⟩ := ih j hf
        exact ⟨r, by simpa using hr, hip⟩

theorem push_packet_at (pkt : sr_packet) (l : List sr_arpreq) (k : Nat) (r : sr_arpreq)
    (h : l[k]? = some r) :
    (push_packet pkt k l)[k]? = some { r with packets := pkt :: r.packets } := by
  induction l generalizing k with
  | nil => simp at h
  | cons q rest ih =>
    cases k with
    | zero =>
      have : q = r := by simpa using h
      subst this
      simp [push_packet]
    | succ k =>
      have h : rest[k]? = some r := by simpa using h
      simpa [push_packet] using ih k h

theorem queuereq_returns_request (NAMELEN : Nat) (cache : sr_arpcache) (ip : Nat)
    (packet : Option (List Nat)) (len : Nat) (iface : Option (List Nat)) :
    ∃ r, (sr_arpcache_queuereq NAMELEN cache ip packet len iface).1.requests[
        (sr_arpcache_queuereq NAMELEN cache ip packet len iface).2]? = some r ∧ r.ip = ip := by
  have hB : ∃ r,
      (match queuereq_find ip cache.requests with
        | some _ => cache.requests
        | none => { ip := ip, sent := 0, times_sent := 0, packets := [] } :: cache.requests)[
        (match queuereq_find ip cache.requests with
          | some k => k
          | none => 0)]? = some r ∧ r.ip = ip := by
    cases hf : queuereq_find ip cache.requests with
    | none => exact ⟨{ ip := ip, sent := 0, times_sent := 0, packets := [] }, by simp, rfl⟩
    | some k => exact queuereq_find_some ip _ k hf
  obtain ⟨r, hr, hip⟩ := hB
  simp only [sr_arpcache_queuereq]
  cases packet with
  | none => exact ⟨r, hr, hip⟩
  | some p =>
    cases iface with
    | none => exact ⟨r, hr, hip⟩
    | some name =>
      simp only
      split
      · exact ⟨_, push_packet_at _ _ _ r hr, hip⟩
      · exact ⟨r, hr, hip⟩

set_option maxRecDepth 20000 in
/-- C14, as stated, fails: `route_direct` has gateway zero and `frame_to_7` has IP
destination 7, which `idle_router` has in its cache.  `sr_sendIP` does not send
the frame to the cached MAC: it queues a request for address 0 and sends an
ARP request (EtherType 0x0806) instead. -/
theorem sr_sendIP_zero_gateway :
    get_u32 frame_to_7 30 = 7 ∧
    (sr_arpcache_lookup idle_router.cache 7).2 = some old_slot ∧
    (sr_sendIP 32 idle_router frame_to_7 42 (some route_direct) eth1 100 100).map
      (fun r => (r.1.cache.requests.map (fun q => q.ip), r.1.sent.map (fun f => peek f.2 12 2)))
      = some ([0], [[8, 6]]) := by
  refine ⟨by decide, by decide, by decide⟩

/-- The two branches of `sr_sendIP`, on a cache hit and on a miss. -/
theorem sr_sendIP_cases (NAMELEN : Nat) (sr : sr_instance) (packet : List Nat)
    (len : Nat) (rt : sr_rt) (interface : List Nat) (curtime instime : Int) (iface : sr_if)
    (hlen : 34 ≤ packet.length) (hif : sr_get_interface sr rt.interface = some iface) :
    (∀ entry, (sr_arpcache_lookup sr.cache rt.gw).2 = some entry →
      sr_sendIP NAMELEN sr packet len (some rt) interface curtime instime =
        some (sr_send_packet sr (forward_rewrite packet iface.addr entry.mac) len rt.interface,
          forward_rewrite packet iface.addr entry.mac)) ∧
    ((sr_arpcache_lookup sr.cache rt.gw).2 = none →
      sr_sendIP NAMELEN sr packet len (some rt) interface curtime instime =
        (handle_arpreq
          { sr with cache := (sr_arpcache_queuereq NAMELEN sr.cache rt.gw
              (some (poke packet 6 (iface.addr.take 6))) len (some rt.interface)).1 }
          (sr_arpcache_queuereq NAMELEN sr.cache rt.gw
              (some (poke packet 6 (iface.addr.take 6))) len (some rt.interface)).2
          curtime instime).map (fun h => (h.sr, poke packet 6 (iface.addr.take 6))) ∧
      ∃ r, (sr_arpcache_queuereq NAMELEN sr.cache rt.gw
              (some (poke packet 6 (iface.addr.take 6))) len (some rt.interface)).1.requests[
            (sr_arpcache_queuereq NAMELEN sr.cache rt.gw
              (some (poke packet 6 (iface.addr.take 6))) len (some rt.interface)).2]? = some r ∧
        r.ip = rt.gw) := by
  constructor
  · intro entry he
    unfold sr_sendIP
    simp only [hif, he, if_neg (Nat.not_lt.mpr hlen)]
  · intro he
    refine ⟨?_, queuereq_returns_request _ _ _ _ _ _⟩
    unfold sr_sendIP
    simp only [hif, he, if_neg (Nat.not_lt.mpr hlen)]
    cases handle_arpreq _ _ curtime instime <;> rfl

/-- C14, amended: the address `sr_sendIP` resolves through the ARP cache is the
gateway of the route, whatever the gateway and the IP destination are.  When
the cache has an entry for the gateway, the frame is rewritten with that
entry's MAC and sent; when it has none, the frame is queued behind a request
whose target is the gateway and `handle_arpreq` is called on that request. -/
theorem sr_sendIP_resolves_gateway (NAMELEN : Nat) (sr : sr_instance) (packet : List Nat)
    (len : Nat) (rt : sr_rt) (interface : List Nat) (curtime instime : Int) (iface : sr_if)
    (hlen : 34 ≤ packet.length) (hif : sr_get_interface sr rt.interface = some iface) :
    (∀ entry, (sr_arpcache_lookup sr.cache rt.gw).2 = some entry →
      sr_sendIP NAMELEN sr packet len (some rt) interface curtime instime =
        some (sr_send_packet sr (forward_rewrite packet iface.addr entry.mac) len rt.interface,
          forward_rewrite packet iface.addr entry.mac)) ∧
    ((sr_arpcache_lookup sr.cache rt.gw).2 = none →
      sr_sendIP NAMELEN sr packet len (some rt) interface curtime instime =
        (handle_arpreq
          { sr with cache := (sr_arpcache_queuereq NAMELEN sr.cache rt.gw
              (some (poke packet 6 (iface.addr.take 6))) len (some rt.interface)).1 }
          (sr_arpcache_queuereq NAMELEN sr.cache rt.gw
              (some (poke packet 6 (iface.addr.take 6))) len (some rt.interface)).2
          curtime instime).map (fun h => (h.sr, poke packet 6 (iface.addr.take 6))) ∧
      ∃ r, (sr_arpcache_queuereq NAMELEN sr.cache rt.gw
              (some (poke packet 6 (iface.addr.take 6))) len (some rt.interface)).1.requests[
            (sr_arpcache_queuereq NAMELEN sr.cache rt.gw
              (some (poke packet 6 (iface.addr.take 6))) len (some rt.interface)).2]? = some r ∧
        r.ip = rt.gw) :=
  sr_sendIP_cases NAMELEN sr packet len rt interface curtime instime iface hlen hif

set_option maxRecDepth 20000 in
/-- The amended C14 at a concrete router: `route_hit` has gateway 7, which
`idle_router` has in its cache, and the frame goes out on `eth1`. -/
theorem sr_sendIP_resolves_gateway_witness :
    sr_sendIP 32 idle_router frame42 42 (some route_hit) eth1 100 100 =
      some (sr_send_packet idle_router (forward_rewrite frame42 eth1_if.addr old_slot.mac) 42 eth1,
        forward_rewrite frame42 eth1_if.addr old_slot.mac) :=
  (sr_sendIP_resolves_gateway 32 idle_router frame42 42 route_hit eth1 100 100 eth1_if
    (by decide) (by decide)).1 old_slot (by decide)

/-- `handle_arpreq` on the request at the head of the queue, when its target is
not the address of the interface it is sent through: the request stays at the
head, and the rest of the queue loses at most the first request for the
interface address. -/
theorem handle_arpreq_emit_head (sr : sr_instance) (r : sr_arpreq) (Q : List sr_arpreq)
    (first : sr_packet) (rest : List sr_packet) (ifw : sr_if) (curtime instime : Int)
    (hq : sr.cache.requests = r :: Q) (hlt : r.times_sent < 5)
    (hc : r.sent = 0 ∨ 1 ≤ curtime - r.sent)
    (hpk : r.packets = first :: rest) (hif : sr_get_interface sr first.iface = some ifw)
    (hne : r.ip ≠ ifw.ip) :
    ∃ h, handle_arpreq sr 0 curtime instime = some h ∧
      h.sr.sent = sr.sent ++ [(ifw.name, arp_request_frame r.ip ifw)] ∧
      h.sr.if_list = sr.if_list ∧ h.sr.nat = sr.nat ∧
      h.sr.cache.entries = (sr_arpcache_insert sr.cache ifw.addr ifw.ip instime).1.entries ∧
      h.sr.cache.requests =
        { r with sent := curtime, times_sent := r.times_sent + 1 } ::
          (insert_unlink ifw.ip Q).1 := by
  have ht : (arp_request_frame r.ip ifw).take (14 + 28) = arp_request_frame r.ip ifw :=
    List.take_of_length_le (by rw [(arp_request_frame_kind r.ip ifw).1])
  have hreq : sr.cache.requests[0]? = some r := by rw [hq]; simp
  have hins : (sr_arpcache_insert sr.cache ifw.addr ifw.ip instime).1.requests =
      r :: (insert_unlink ifw.ip Q).1 := by
    simp [sr_arpcache_insert, hq, insert_unlink, hne]
  have hfind : queuereq_find ifw.ip sr.cache.requests =
      (queuereq_find ifw.ip Q).map (· + 1) := by
    rw [hq]; simp [queuereq_find, hne]
  unfold handle_arpreq
  simp only [hreq]
  rw [if_neg (by omega), if_pos hc]
  simp only [hpk, hif, hfind]
  cases hj : queuereq_find ifw.ip Q with
  | none =>
    refine ⟨_, rfl, ?_, rfl, rfl, rfl, ?_⟩
    · simp only [sr_send_packet, ht]
    · simp only [sr_send_packet, hins, List.set_cons_zero]
  | some j =>
    simp only [Option.map_some', Nat.not_lt_zero, if_false, Nat.succ_ne_zero]
    refine ⟨_, rfl, ?_, rfl, rfl, rfl, ?_⟩
    · simp only [sr_send_packet, ht]
    · simp only [sr_send_packet, hins, List.set_cons_zero]

theorem arp_request_frame_target (ip : Nat) (ifw : sr_if) :
    peek (arp_request_frame ip ifw) 38 4 = u32_bytes ip := by
  have hL := length_mac_take ifw.addr
  rw [arp_request_frame_shape]
  have h1 : ∀ l : List Nat, l.length = 42 → (poke l 22 (ifw.addr.take 6)).length = 42 := by
    intro l hl; rw [length_poke _ _ _ (by omega), hl]
  rw [peek_poke_disjoint _ _ _ _ _ (by rw [h1 _ (by simp [u32_bytes])]; omega) (Or.inr (by omega)),
    peek_poke_disjoint _ _ _ _ _ (by simp [u32_bytes]) (Or.inr (by omega))]
  simp [peek, u32_bytes]

set_option maxRecDepth 20000 in
/-- C16, as stated, fails in two ways.  The packet that `sr_sendIP` queues on a
miss is not a copy of the input frame: `frame42` has Ethernet source
02:00:00:00:00:05, and the buffer queued by `idle_router` for `route_miss` has
the MAC of `eth1` there.  And when the next hop is the address of the route's
interface itself (`route_own`), no request is left in the queue: the
`sr_arpcache_insert` call of `handle_arpreq` (line 351) unlinks it after the
one ARP request has been sent. -/
theorem sr_sendIP_queues_rewritten_frame :
    peek frame42 6 6 = [2, 0, 0, 0, 0, 5] ∧
    (sr_sendIP 32 idle_router frame42 42 (some route_miss) eth1 100 100).map
      (fun r => r.1.cache.requests.map (fun q => q.packets.map (fun p => peek p.buf 6 6)))
      = some [[[2, 0, 0, 0, 0, 1]]] ∧
    ((sr_arpcache_lookup idle_router.cache route_own.gw).2 = none ∧
      idle_router.cache.requests = [] ∧
      (sr_sendIP 32 idle_router frame42 42 (some route_own) eth1 100 100).map
        (fun r => (r.1.sent.map (fun f => (f.1, peek f.2 12 2 ++ peek f.2 38 4)),
          r.1.cache.requests.length))
        = some ([(eth1, [8, 6, 10, 0, 1, 1])], 0)) := by
  refine ⟨by decide, by decide, by decide, by decide, by decide⟩

/-- C16, amended: the cache has no valid entry for the gateway, no request for it
is queued, and the gateway is not the address of the route's interface itself.
`sr_sendIP` sends exactly one frame, the ARP request (EtherType 0x0806) for the
gateway, on the interface of the route, and not the input frame.  It leaves at
the head of the queue a request for the gateway with attempt count 1 and
last-sent `curtime`, whose one pending packet holds the first `len` bytes of
the input frame with the Ethernet source overwritten by the MAC of the route's
interface, the length `len`, and the interface name of the route. -/
theorem sr_sendIP_miss (NAMELEN : Nat) (sr : sr_instance) (packet : List Nat) (len : Nat)
    (rt : sr_rt) (interface : List Nat) (curtime instime : Int) (iface : sr_if)
    (hlen : 34 ≤ packet.length) (hlen2 : len ≠ 0)
    (hif : sr_get_interface sr rt.interface = some iface)
    (hname : rt.interface.length < NAMELEN)
    (hmiss : (sr_arpcache_lookup sr.cache rt.gw).2 = none)
    (hnoreq : ∀ q ∈ sr.cache.requests, q.ip ≠ rt.gw)
    (hown : rt.gw ≠ iface.ip) :
    ∃ s, sr_sendIP NAMELEN sr packet len (some rt) interface curtime instime =
        some (s, poke packet 6 (iface.addr.take 6)) ∧
      s.sent = sr.sent ++ [(rt.interface, arp_request_frame rt.gw iface)] ∧
      peek (arp_request_frame rt.gw iface) 12 2 = [8, 6] ∧
      peek (arp_request_frame rt.gw iface) 20 2 = [0, 1] ∧
      peek (arp_request_frame rt.gw iface) 38 4 = u32_bytes rt.gw ∧
      s.cache.requests =
        { ip := rt.gw, sent := curtime, times_sent := 1,
          packets := [{ buf := (poke packet 6 (iface.addr.take 6)).take len, len := len,
                        iface := rt.interface }] } ::
          (insert_unlink iface.ip sr.cache.requests).1 := by
  have hn : rt.interface.take NAMELEN = rt.interface :=
    List.take_of_length_le (Nat.le_of_lt hname)
  have hq : sr_arpcache_queuereq NAMELEN sr.cache rt.gw
      (some (poke packet 6 (iface.addr.take 6))) len (some rt.interface) =
      ({ sr.cache with requests :=
          { ip := rt.gw, sent := 0, times_sent := 0,
            packets := [{ buf := (poke packet 6 (iface.addr.take 6)).take len, len := len,
                          iface := rt.interface }] } :: sr.cache.requests }, 0) := by
    simp [sr_arpcache_queuereq, queuereq_find_none rt.gw _ hnoreq, hlen2, hn, push_packet]
  have hsend := (sr_sendIP_cases NAMELEN sr packet len rt interface curtime instime
    iface hlen hif).2 hmiss
  rw [hq] at hsend
  obtain ⟨h, h1, h2, _, _, _, h6⟩ := handle_arpreq_emit_head
    { sr with cache := { sr.cache with requests :=
        { ip := rt.gw, sent := 0, times_sent := 0,
          packets := [{ buf := (poke packet 6 (iface.addr.take 6)).take len, len := len,
                        iface := rt.interface }] } :: sr.cache.requests } }
    { ip := rt.gw, sent := 0, times_sent := 0,
      packets := [{ buf := (poke packet 6 (iface.addr.take 6)).take len, len := len,
                    iface := rt.interface }] }
    sr.cache.requests
    { buf := (poke packet 6 (iface.addr.take 6)).take len, len := len, iface := rt.interface }
    [] iface curtime instime rfl (by show 0 < 5; omega) (Or.inl rfl) rfl hif hown
  have hk := arp_request_frame_kind rt.gw iface
  refine ⟨h.sr, ?_, ?_, hk.2.1, hk.2.2, arp_request_frame_target rt.gw iface, h6⟩
  · rw [hsend.1, h1]; rfl
  · rw [h2, sr_get_interface_name sr _ _ hif]

set_option maxRecDepth 20000 in
/-- The amended C16 at a concrete router: `idle_router` has no entry and no
request for the gateway 9 of `route_miss`. -/
theorem sr_sendIP_miss_witness :
    ∃ s, sr_sendIP 32 idle_router frame42 42 (some route_miss) eth1 100 100 =
        some (s, poke frame42 6 [2, 0, 0, 0, 0, 1]) ∧
      s.sent = [(eth1, arp_request_frame 9 eth1_if)] ∧
      s.cache.requests =
        [{ ip := 9, sent := 100, times_sent := 1,
           packets := [{ buf := (poke frame42 6 [2, 0, 0, 0, 0, 1]).take 42, len := 42,
                         iface := eth1 }] }] :=
  match sr_sendIP_miss 32 idle_router frame42 42 route_miss eth1 100 100 eth1_if
    (by decide) (by decide) (by decide) (by decide) (by decide) (by decide) (by decide) with
  | ⟨s, h1, h2, _, _, _, h6⟩ => ⟨s, h1, h2, h6⟩

/-! ## The header of a queued packet in an ICMP message -/

theorem get_u8_eq (buf : List Nat) (off : Nat) (h : off < buf.length) :
    buf[off]? = some (get_u8 buf off) := by
  simp [get_u8, List.getD, List.getElem?_eq_getElem h]

/-- Storing back the 16-bit value read at an offset restores the buffer. -/
theorem poke_restore (buf : List Nat) (off : Nat) (h : off + 2 ≤ buf.length)
    (hb : ∀ b ∈ buf, b < 256) :
    poke (poke buf off [0, 0]) off (u16_bytes (get_u16 buf off)) = buf := by
  have hl : (poke buf off [0, 0]).length = buf.length := length_poke _ _ _ (by simpa using h)
  have h0 := get_u8_eq buf off (by omega)
  have h1 := get_u8_eq buf (off + 1) (by omega)
  have b0 : get_u8 buf off < 256 := hb _ (List.getElem?_mem h0)
  have b1 : get_u8 buf (off + 1) < 256 := hb _ (List.getElem?_mem h1)
  apply List.ext_getElem?
  intro i
  rw [getElem?_poke _ _ _ _ (by omega)]
  by_cases hi : i < off
  · rw [if_pos hi, getElem?_poke _ _ _ _ (by omega), if_pos hi]
  · rw [if_neg hi]
    by_cases hi2 : i < off + (u16_bytes (get_u16 buf off)).length
    · rw [if_pos hi2]
      rw [length_u16_bytes] at hi2
      have hc : i = off ∨ i = off + 1 := by omega
      rcases hc with rfl | rfl
      · simp only [Nat.sub_self, u16_bytes, get_u16, h0]
        simp
        omega
      · rw [h1]
        simp only [Nat.add_sub_cancel_left, u16_bytes, get_u16]
        simp
        omega
    · rw [if_neg hi2, getElem?_poke _ _ _ _ (by omega), if_neg hi]
      rw [length_u16_bytes] at hi2
      rw [if_neg (by simpa using hi2)]

/-- C17: an IPv4 frame whose header checksum field differs from the Internet
checksum of its 20-byte header computed with that field zeroed is dropped by
`sr_handleIPpacket`, and by `sr_natHandle` for every NAT table and every
implementation of the NAT functions: the call returns with the router (the
frames sent, the ARP cache and the request queue), the NAT table and the frame
bytes as they were. -/
theorem bad_checksum_dropped {NAT : Type} (api : sr_nat_api NAT) (NAMELEN ECHO : Nat)
    (route : Nat → Option sr_rt) (sr : sr_instance) (nat : NAT) (packet : List Nat) (len : Nat)
    (interface : List Nat) (iface : Option sr_if) (curtime instime : Int)
    (hlen : 34 ≤ packet.length) (hbytes : ∀ b ∈ packet, b < 256)
    (hbad : get_u16 packet 24 ≠ cksum (peek (poke packet 24 [0, 0]) 14 20)) :
    sr_handleIPpacket NAMELEN route sr packet len interface iface curtime instime
      = some (sr, packet) ∧
    sr_natHandle api NAMELEN ECHO route sr nat packet len iface interface curtime instime
      = some (sr, nat, packet) := by
  have hr := poke_restore packet 24 (by omega) hbytes
  have hl : ¬ packet.length < 34 := by omega
  constructor
  · simp only [sr_handleIPpacket, if_neg hl, hr]
    rw [if_pos (Ne.symm hbad)]
  · simp only [sr_natHandle, if_neg hl, hr]
    rw [if_pos (Ne.symm hbad)]

theorem bad_checksum_dropped_witness :
    (34 ≤ frame42.length ∧ (∀ b ∈ frame42, b < 256) ∧
      get_u16 frame42 24 ≠ cksum (peek (poke frame42 24 [0, 0]) 14 20)) ∧
    sr_handleIPpacket 32 (fun _ => some route_out) nat_router frame42 42 eth1 (some eth1_if)
        100 100 = some (nat_router, frame42) ∧
    sr_natHandle (nat_table 16781484) 32 8 (fun _ => some route_out) nat_router [] frame42 42
        (some eth1_if) eth1 100 100 = some (nat_router, [], frame42) :=
  ⟨⟨by decide, by decide, by decide⟩,
    bad_checksum_dropped (nat_table 16781484) 32 8 (fun _ => some route_out) nat_router []
      frame42 42 eth1 (some eth1_if) 100 100 (by decide) (by decide) (by decide)⟩

/-! ## `sr_handleIPpacket` on a frame for another host -/

/-- The function `sr_handleIPpacket` on a frame whose IP checksum verifies and
whose destination is not an address of the router: the branches of lines
146-167. -/
theorem sr_handleIPpacket_transit (NAMELEN : Nat) (route : Nat → Option sr_rt)
    (sr : sr_instance) (packet : List Nat) (len : Nat) (interface : List Nat)
    (iface : Option sr_if) (curtime instime : Int)
    (hlen : 34 ≤ packet.length) (hbytes : ∀ b ∈ packet, b < 256)
    (hok : cksum (peek (poke packet 24 [0, 0]) 14 20) = get_u16 packet 24)
    (hremote : sr_get_interface_from_ip sr (get_u32 packet 30) = none) :
    sr_handleIPpacket NAMELEN route sr packet len interface iface curtime instime =
      if get_u8 packet 22 = 0 then
        (sr_sendICMP sr packet interface 11 0).map (fun s => (s, packet))
      else
        match route (get_u32 packet 30) with
        | some rt =>
          if get_u8 packet 23 = 6 then
            match sr_sendICMP sr packet interface 3 3 with
            | none => none
            | some s =>
              match tcp_cksum packet len with
              | none => none
              | some t => some (s, t.1)
          else sr_sendIP NAMELEN sr packet len (some rt) interface curtime instime
        | none => (sr_sendICMP sr packet interface 3 0).map (fun s => (s, packet)) := by
  have hr := poke_restore packet 24 (by omega) hbytes
  have hl : ¬ packet.length < 34 := by omega
  simp only [sr_handleIPpacket, if_neg hl, hr, hok, hremote]
  by_cases h22 : get_u8 packet 22 = 0
  · simp [h22]
  · cases hrt : route (get_u32 packet 30) with
    | none => simp [h22]
    | some rt =>
      by_cases h23 : get_u8 packet 23 = 6
      · cases h1 : sr_sendICMP sr packet interface 3 3 with
        | none => simp [h22, h23, h1]
        | some s =>
          cases h2 : tcp_cksum packet len with
          | none => simp [h22, h23, h1, h2]
          | some t => simp [h22, h23, h1, h2]
      · simp [h22, h23]

theorem icmp_frame_error (packet : List Nat) (ifc : sr_if) (type code : Nat)
    (ht : type = 3 ∨ type = 11) (hlen : 42 ≤ packet.length) :
    (icmp_frame packet ifc type code).length = 70 ∧
    peek (icmp_frame packet ifc type code) 12 2 = [8, 0] ∧
    peek (icmp_frame packet ifc type code) 23 1 = [1] ∧
    peek (icmp_frame packet ifc type code) 34 2 = [type % 256, code % 256] ∧
    peek (icmp_frame packet ifc type code) 30 4 = peek packet 26 4 ∧
    peek (icmp_frame packet ifc type code) 42 28 = peek packet 14 28 := by
  obtain ⟨b0, b1, b2, b3, b4, b5, b6, b7, b8, b9, b10, b11, b12, b13, b14, b15, b16, b17,
    b18, b19, b20, b21, b22, b23, b24, b25, b26, b27, b28, b29, b30, b31, b32, b33, b34, b35,
    b36, b37, b38, b39, b40, b41, rest, rfl⟩ := prefix42 packet hlen
  obtain ⟨x, hx, hp4⟩ := poke_mac_shape
    (poke (poke (poke (List.replicate (14 + 20 + 36) 0) 0 (peek (b0 :: b1 :: b2 :: b3 :: b4 :: b5 :: b6 :: b7 :: b8 :: b9 :: b10 :: b11 :: b12 :: b13 :: b14 :: b15 :: b16 :: b17 :: b18 :: b19 :: b20 :: b21 :: b22 :: b23 :: b24 :: b25 :: b26 :: b27 :: b28 :: b29 :: b30 :: b31 :: b32 :: b33 :: b34 :: b35 :: b36 :: b37 :: b38 :: b39 :: b40 :: b41 :: rest) 0 14)) 14
        (peek (b0 :: b1 :: b2 :: b3 :: b4 :: b5 :: b6 :: b7 :: b8 :: b9 :: b10 :: b11 :: b12 :: b13 :: b14 :: b15 :: b16 :: b17 :: b18 :: b19 :: b20 :: b21 :: b22 :: b23 :: b24 :: b25 :: b26 :: b27 :: b28 :: b29 :: b30 :: b31 :: b32 :: b33 :: b34 :: b35 :: b36 :: b37 :: b38 :: b39 :: b40 :: b41 :: rest) 14 20)) 0
      (peek (poke (poke (List.replicate (14 + 20 + 36) 0) 0 (peek (b0 :: b1 :: b2 :: b3 :: b4 :: b5 :: b6 :: b7 :: b8 :: b9 :: b10 :: b11 :: b12 :: b13 :: b14 :: b15 :: b16 :: b17 :: b18 :: b19 :: b20 :: b21 :: b22 :: b23 :: b24 :: b25 :: b26 :: b27 :: b28 :: b29 :: b30 :: b31 :: b32 :: b33 :: b34 :: b35 :: b36 :: b37 :: b38 :: b39 :: b40 :: b41 :: rest) 0 14)) 14
        (peek (b0 :: b1 :: b2 :: b3 :: b4 :: b5 :: b6 :: b7 :: b8 :: b9 :: b10 :: b11 :: b12 :: b13 :: b14 :: b15 :: b16 :: b17 :: b18 :: b19 :: b20 :: b21 :: b22 :: b23 :: b24 :: b25 :: b26 :: b27 :: b28 :: b29 :: b30 :: b31 :: b32 :: b33 :: b34 :: b35 :: b36 :: b37 :: b38 :: b39 :: b40 :: b41 :: rest) 14 20)) 6 6)) ifc.addr (by simp [poke, peek])
  obtain ⟨x0, x1, x2, x3, x4, x5, x6, x7, x8, x9, x10, x11, rfl⟩ := length12 x hx
  simp only [icmp_frame, ht, if_true, hp4]
  simp [poke, peek, u16_bytes, u32_bytes, htons, List.replicate]

theorem sr_sendICMP_error (sr : sr_instance) (packet iface : List Nat) (type code : Nat)
    (ifc : sr_if) (ht : type = 3 ∨ type = 11) (hlen : 42 ≤ packet.length)
    (hif : sr_get_interface sr iface = some ifc) :
    sr_sendICMP sr packet iface type code =
      some { sr with sent := sr.sent ++ [(iface, icmp_frame packet ifc type code)] } := by
  have h70 := (icmp_frame_error packet ifc type code ht hlen).1
  have hk : (icmp_frame packet ifc type code).take 70 = icmp_frame packet ifc type code :=
    List.take_of_length_le (by omega)
  simp [sr_sendICMP, hif, sr_send_packet, hk, Nat.not_lt.mpr hlen, ht]

/-! ## TTL on the transit path -/

set_option maxRecDepth 20000 in
/-- C19, as stated, fails: `frame_ttl1` has a valid IP checksum, TTL 1 and a
destination that is no address of `idle_router`.  `sr_handleIPpacket` sends one
frame, the datagram itself (protocol 17) with TTL 0, on the interface of the
route: the packet is forwarded and no ICMP message is sent. -/
theorem ttl_one_forwarded :
    get_u8 frame_ttl1 22 = 1 ∧
    cksum (peek (poke frame_ttl1 24 [0, 0]) 14 20) = get_u16 frame_ttl1 24 ∧
    sr_get_interface_from_ip idle_router (get_u32 frame_ttl1 30) = none ∧
    (sr_handleIPpacket 32 (fun _ => some route_hit) idle_router frame_ttl1 42 eth1
        (some eth1_if) 100 100).map
      (fun r => r.1.sent.map (fun f => (f.1, peek f.2 22 2))) = some [(eth1, [0, 17])] := by
  refine ⟨by decide, by decide, by decide, by decide⟩

/-- C19, amended: a frame with a valid IP checksum and TTL 0 whose destination
is no address of the router.  `sr_handleIPpacket` sends exactly one frame, on
the receiving interface: an IPv4 frame of 70 bytes carrying ICMP type 11
code 0, addressed to the source of the frame.  The packet is not forwarded:
nothing else is sent, and the cache and the request queue are as they were. -/
theorem ttl_zero_time_exceeded (NAMELEN : Nat) (route : Nat → Option sr_rt)
    (sr : sr_instance) (packet : List Nat) (len : Nat) (interface : List Nat)
    (iface : Option sr_if) (curtime instime : Int) (ifc : sr_if)
    (hlen : 42 ≤ packet.length) (hbytes : ∀ b ∈ packet, b < 256)
    (hok : cksum (peek (poke packet 24 [0, 0]) 14 20) = get_u16 packet 24)
    (hremote : sr_get_interface_from_ip sr (get_u32 packet 30) = none)
    (httl : get_u8 packet 22 = 0)
    (hif : sr_get_interface sr interface = some ifc) :
    ∃ frame,
      sr_handleIPpacket NAMELEN route sr packet len interface iface curtime instime =
        some ({ sr with sent := sr.sent ++ [(interface, frame)] }, packet) ∧
      frame.length = 70 ∧ peek frame 12 2 = [8, 0] ∧ peek frame 23 1 = [1] ∧
      peek frame 34 2 = [11, 0] ∧ peek frame 30 4 = peek packet 26 4 := by
  have hf := icmp_frame_error packet ifc 11 0 (Or.inr rfl) hlen
  refine ⟨icmp_frame packet ifc 11 0, ?_, hf.1, hf.2.1, hf.2.2.1, hf.2.2.2.1, hf.2.2.2.2.1⟩
  rw [sr_handleIPpacket_transit NAMELEN route sr packet len interface iface curtime instime
    (by omega) hbytes hok hremote, if_pos httl,
    sr_sendICMP_error sr packet interface 11 0 ifc (Or.inr rfl) hlen hif]
  rfl

set_option maxRecDepth 20000 in
/-- The amended C19 at a concrete router: `frame_ttl0` received by `idle_router`
on `eth1`. -/
theorem ttl_zero_time_exceeded_witness :
    ∃ frame,
      sr_handleIPpacket 32 (fun _ => some route_hit) idle_router frame_ttl0 42 eth1
          (some eth1_if) 100 100 =
        some ({ idle_router with sent := idle_router.sent ++ [(eth1, frame)] }, frame_ttl0) ∧
      frame.length = 70 ∧ peek frame 12 2 = [8, 0] ∧ peek frame 23 1 = [1] ∧
      peek frame 34 2 = [11, 0] ∧ peek frame 30 4 = peek frame_ttl0 26 4 :=
  ttl_zero_time_exceeded 32 (fun _ => some route_hit) idle_router frame_ttl0 42 eth1
    (some eth1_if) 100 100 eth1_if (by decide) (by decide) (by decide) (by decide) (by decide)
    (by decide)

/-! ## TCP and the other protocols on the transit path -/

set_option maxRecDepth 20000 in
/-- C20, as stated, fails in its last part: `udp_frame` is a UDP datagram with a
valid IP checksum, TTL 64 and a destination that is no address of
`tired_router`, and the route found has gateway 9, for which a request sent 5
times is queued.  `sr_handleIPpacket` hands the datagram to `sr_sendIP`, whose
`handle_arpreq` call gives the request up: two ICMP messages of type 3 code 1
are sent, one for the datagram and one for the packet queued before, and the
request is removed. -/
theorem udp_gives_host_unreachable :
    get_u8 udp_frame 23 = 17 ∧ get_u8 udp_frame 22 = 64 ∧
    cksum (peek (poke udp_frame 24 [0, 0]) 14 20) = get_u16 udp_frame 24 ∧
    sr_get_interface_from_ip tired_router (get_u32 udp_frame 30) = none ∧
    (sr_handleIPpacket 32 (fun _ => some route_miss) tired_router udp_frame 42 eth1
        (some eth1_if) 100 100).map
      (fun r => (r.1.sent.map (fun f => (f.1, peek f.2 23 1 ++ peek f.2 34 2)),
        r.1.cache.requests.length)) =
      some ([(eth1, [1, 3, 1]), (eth1, [1, 3, 1])], 0) := by
  refine ⟨by decide, by decide, by decide, by decide, by decide⟩

/-- C20, amended: a frame with a valid IP checksum, a destination that is no
address of the router, a TTL that is not zero, and a route `rt` for the
destination.  When the protocol is TCP (6), `sr_handleIPpacket` sends exactly
one frame, on the receiving interface, an IPv4 frame carrying ICMP type 3
code 3 addressed to the source, runs `tcp_cksum` on the buffer, and makes no
`sr_sendIP` call: the cache and the queue are as they were.  For every other
protocol the call is exactly the call `sr_sendIP(sr, packet, len, rt, interface)`:
`sr_handleIPpacket` sends no ICMP message of its own. -/
theorem transit_tcp_or_forward (NAMELEN : Nat) (route : Nat → Option sr_rt)
    (sr : sr_instance) (packet : List Nat) (len : Nat) (interface : List Nat)
    (iface : Option sr_if) (curtime instime : Int) (rt : sr_rt)
    (hlen : 34 ≤ packet.length) (hbytes : ∀ b ∈ packet, b < 256)
    (hok : cksum (peek (poke packet 24 [0, 0]) 14 20) = get_u16 packet 24)
    (hremote : sr_get_interface_from_ip sr (get_u32 packet 30) = none)
    (httl : get_u8 packet 22 ≠ 0)
    (hroute : route (get_u32 packet 30) = some rt) :
    (get_u8 packet 23 = 6 → ∀ ifc : sr_if, sr_get_interface sr interface = some ifc →
      52 ≤ packet.length → 34 ≤ len → len ≤ packet.length →
      ∃ frame t, tcp_cksum packet len = some t ∧
        sr_handleIPpacket NAMELEN route sr packet len interface iface curtime instime =
          some ({ sr with sent := sr.sent ++ [(interface, frame)] }, t.1) ∧
        frame.length = 70 ∧ peek frame 12 2 = [8, 0] ∧ peek frame 23 1 = [1] ∧
        peek frame 34 2 = [3, 3] ∧ peek frame 30 4 = peek packet 26 4) ∧
    (get_u8 packet 23 ≠ 6 →
      sr_handleIPpacket NAMELEN route sr packet len interface iface curtime instime =
        sr_sendIP NAMELEN sr packet len (some rt) interface curtime instime) := by
  have hT := sr_handleIPpacket_transit NAMELEN route sr packet len interface iface curtime
    instime hlen hbytes hok hremote
  rw [if_neg httl, hroute] at hT
  constructor
  · intro h6 ifc hif h52 h34 hle
    have hf := icmp_frame_error packet ifc 3 3 (Or.inl rfl) (by omega)
    have hg : ¬ (len < 34 ∨ packet.length < len ∨ packet.length < 52) := by omega
    obtain ⟨t, ht⟩ : ∃ t, tcp_cksum packet len = some t := by
      unfold tcp_cksum
      rw [if_neg hg]
      simp only []
      split
      · exact ⟨_, rfl⟩
      · exact ⟨_, rfl⟩
    refine ⟨icmp_frame packet ifc 3 3, t, ht, ?_, hf.1, hf.2.1, hf.2.2.1, hf.2.2.2.1,
      hf.2.2.2.2.1⟩
    rw [hT]
    simp only [if_pos h6, sr_sendICMP_error sr packet interface 3 3 ifc (Or.inl rfl)
      (by omega : 42 ≤ packet.length) hif, ht]
  · intro h6
    rw [hT]
    simp only [if_neg h6]

set_option maxRecDepth 20000 in
/-- The amended C20 at a concrete router: `tcp_frame` and `udp_frame` received by
`idle_router` on `eth1`. -/
theorem transit_tcp_or_forward_witness :
    (∃ frame t, tcp_cksum tcp_frame 54 = some t ∧
      sr_handleIPpacket 32 (fun _ => some route_hit) idle_router tcp_frame 54 eth1
          (some eth1_if) 100 100 =
        some ({ idle_router with sent := idle_router.sent ++ [(eth1, frame)] }, t.1) ∧
      frame.length = 70 ∧ peek frame 12 2 = [8, 0] ∧ peek frame 23 1 = [1] ∧
      peek frame 34 2 = [3, 3] ∧ peek frame 30 4 = peek tcp_frame 26 4) ∧
    sr_handleIPpacket 32 (fun _ => some route_hit) idle_router udp_frame 42 eth1
        (some eth1_if) 100 100 =
      sr_sendIP 32 idle_router udp_frame 42 (some route_hit) eth1 100 100 :=
  ⟨(transit_tcp_or_forward 32 (fun _ => some route_hit) idle_router tcp_frame 54 eth1
      (some eth1_if) 100 100 route_hit (by decide) (by decide) (by decide) (by decide)
      (by decide) rfl).1 (by decide) eth1_if (by decide) (by decide) (by decide) (by decide),
    (transit_tcp_or_forward 32 (fun _ => some route_hit) idle_router udp_frame 42 eth1
      (some eth1_if) 100 100 route_hit (by decide) (by decide) (by decide) (by decide)
      (by decide) rfl).2 (by decide)⟩

/-! ## An echo request addressed to the router -/

set_option maxRecDepth 20000 in
/-- C18: `echo_request` is an ICMP echo request (type 8, code 0, TOS 0, TTL 64,
valid IP and ICMP checksums) addressed to `eth1` of `idle_router`.
`sr_handleIPpacket` builds no reply: it hands the request itself to
`sr_sendIP` along the route found for the router's own address, and the one
frame sent is the request, still of type 8, with the requester as IP source,
the router as IP destination, and TTL 63. -/
theorem echo_request_not_answered :
    (sr_get_interface_from_ip idle_router (get_u32 echo_request 30) = some eth1_if ∧
      cksum (peek (poke echo_request 24 [0, 0]) 14 20) = get_u16 echo_request 24 ∧
      cksum (peek (poke echo_request 36 [0, 0]) 34 (42 - 34)) = get_u16 echo_request 36 ∧
      peek echo_request 34 2 = [8, 0] ∧ get_u8 echo_request 15 = 0) ∧
    (sr_handleIPpacket 32 (fun _ => some route_hit) idle_router echo_request 42 eth1
        (some eth1_if) 100 100).map
      (fun r => r.1.sent.map
        (fun f => (f.1, peek f.2 34 1 ++ peek f.2 26 4 ++ peek f.2 30 4 ++ peek f.2 22 1))) =
      some [(eth1, [8, 10, 0, 1, 5, 10, 0, 1, 1, 63])] := by
  refine ⟨⟨by decide, by decide, by decide, by decide, by decide⟩, by decide⟩

/-! ## The TTL of an echo request -/

theorem forward_rewrite_ttl (buf src dst : List Nat) (hlen : 34 ≤ buf.length)
    (hs : src.length = 6) (hd : dst.length = 6) :
    get_u8 (forward_rewrite buf src dst) 22 = (get_u8 buf 22 + 255) % 256 := by
  obtain ⟨b0, b1, b2, b3, b4, b5, b6, b7, b8, b9, b10, b11, b12, b13, b14, b15, b16, b17,
    b18, b19, b20, b21, b22, b23, b24, b25, b26, b27, b28, b29, b30, b31, b32, b33, rest,
    rfl⟩ := prefix34 buf hlen
  obtain ⟨s0, s1, s2, s3, s4, s5, rfl⟩ := mac6 src hs
  obtain ⟨d0, d1, d2, d3, d4, d5, rfl⟩ := mac6 dst hd
  simp [forward_rewrite, set_eth_addr, poke, peek, get_u8, u16_bytes]

set_option maxRecDepth 20000 in
/-- C27, as stated, fails on the echo-request path: `echo_ttl0` is an echo
request with TTL 0 (valid checksums) addressed to `eth1` of `idle_router`.
`sr_handleIPpacket` makes no TTL test on that path and hands the request to
`sr_sendIP`, which sends it with TTL 255. -/
theorem echo_ttl_zero_wraps :
    (sr_get_interface_from_ip idle_router (get_u32 echo_ttl0 30) = some eth1_if ∧
      cksum (peek (poke echo_ttl0 24 [0, 0]) 14 20) = get_u16 echo_ttl0 24 ∧
      get_u8 echo_ttl0 22 = 0) ∧
    (sr_handleIPpacket 32 (fun _ => some route_hit) idle_router echo_ttl0 42 eth1
        (some eth1_if) 100 100).map
      (fun r => r.1.sent.map (fun f => (f.1, peek f.2 22 1))) = some [(eth1, [255])] := by
  refine ⟨⟨by decide, by decide, by decide⟩, by decide⟩

/-! ## `sr_handleARPpacket`: requests -/

set_option maxRecDepth 20000 in
/-- C12: `arp_request` is an ARP request received on `eth1` whose target IP,
10.0.1.1, is the address of `eth1` (the lookup `sr_handleIPpacket` makes with
the four bytes as they are finds the interface).  `sr_handleARPpacket` looks up
`htonl` of those bytes, finds no interface, and sends no reply: the router and
the frame are as they were. -/
theorem arp_request_not_answered :
    (htons (get_u16 arp_request 20) = 1 ∧
      sr_get_interface_from_ip idle_router (get_u32 arp_request 38) = some eth1_if ∧
      sr_get_interface_from_ip idle_router (htonl (get_u32 arp_request 38)) = none) ∧
    sr_handleARPpacket idle_router arp_request 42 (some eth1_if) eth1 100 =
      some (idle_router, arp_request) := by
  refine ⟨⟨by decide, by decide, by decide⟩, by decide⟩

/-! ## `sr_handleARPpacket`: replies -/

theorem drain_pending_spec (R : sr_if) (sha : List Nat) (packets : List sr_packet)
    (sr : sr_instance) (hpk : ∀ p ∈ packets, 34 ≤ p.buf.length) :
    drain_pending (some R) sha sr packets =
      some { sr with sent := sr.sent ++ (packets.map
        (fun p => (R.name, (forward_rewrite p.buf R.addr sha).take p.len))) } := by
  induction packets generalizing sr with
  | nil => simp [drain_pending]
  | cons p rest ih =>
    have hp : ¬ p.buf.length < 34 := by
      have := hpk p (List.mem_cons_self _ _)
      omega
    rw [drain_pending]
    simp only [if_neg hp]
    rw [ih _ (fun q hq => hpk q (List.mem_cons_of_mem _ hq))]
    simp [sr_send_packet]

set_option maxRecDepth 20000 in
/-- C13: `waiting_router` holds `frame42` for `eth1` behind a request for
address 7, and `arp_reply` is the reply of address 7 to that request: its target
IP, 10.0.1.1, is the address of `eth1` (the lookup `sr_handleIPpacket` makes with
the four bytes as they are finds the interface).  `sr_handleARPpacket` looks up
`htonl` of those bytes and finds no interface; the reply has a request to
drain, so the loop of lines 200-208 reads `req_iface->addr` through the `NULL`
pointer: the call has no defined result, and the pending frame is not sent. -/
theorem arp_reply_null_interface :
    (htons (get_u16 arp_reply 20) = 2 ∧ get_u32 arp_reply 28 = 7 ∧
      waiting_router.cache.requests.map (fun q => (q.ip, q.packets.map (fun p => p.iface)))
        = [(7, [eth1])] ∧
      sr_get_interface_from_ip waiting_router (get_u32 arp_reply 38) = some eth1_if ∧
      sr_get_interface_from_ip waiting_router (htonl (get_u32 arp_reply 38)) = none) ∧
    sr_handleARPpacket waiting_router arp_reply 42 (some eth1_if) eth1 100 = none := by
  refine ⟨⟨by decide, by decide, by decide, by decide, by decide⟩, by decide⟩

/-! ## The TTL on the transit path -/

theorem queuereq_head_packet (NAMELEN : Nat) (cache : sr_arpcache) (ip : Nat)
    (p : List Nat) (len : Nat) (name : List Nat) (hlen : len ≠ 0) :
    ∃ r rest, (sr_arpcache_queuereq NAMELEN cache ip (some p) len (some name)).1.requests[
        (sr_arpcache_queuereq NAMELEN cache ip (some p) len (some name)).2]? = some r ∧
      r.ip = ip ∧
      r.packets = { buf := p.take len, len := len, iface := name.take NAMELEN } :: rest := by
  have hB : ∃ r,
      (match queuereq_find ip cache.requests with
        | some _ => cache.requests
        | none => { ip := ip, sent := 0, times_sent := 0, packets := [] } :: cache.requests)[
        (match queuereq_find ip cache.requests with
          | some k => k
          | none => 0)]? = some r ∧ r.ip = ip := by
    cases hf : queuereq_find ip cache.requests with
    | none => exact ⟨{ ip := ip, sent := 0, times_sent := 0, packets := [] }, by simp, rfl⟩
    | some k => exact queuereq_find_some ip _ k hf
  obtain ⟨r, hr, hip⟩ := hB
  simp only [sr_arpcache_queuereq, ne_eq, hlen, not_false_eq_true, if_true]
  exact ⟨_, r.packets, push_packet_at _ _ _ r hr, hip, rfl⟩

theorem get_u8_take (buf : List Nat) (n i : Nat) (h : i < n) :
    get_u8 (buf.take n) i = get_u8 buf i := by
  simp [get_u8, List.getD_eq_getElem?_getD, List.getElem?_take, h]

theorem get_u8_poke_ge (buf : List Nat) (off : Nat) (src : List Nat) (i : Nat)
    (h : off ≤ buf.length) (hi : off + src.length ≤ i) :
    get_u8 (poke buf off src) i = get_u8 buf i := by
  unfold get_u8
  rw [List.getD_eq_getElem?_getD, List.getD_eq_getElem?_getD, getElem?_poke _ _ _ _ h,
    if_neg (by omega), if_neg (by omega)]

/-- C27, amended: on the transit path of `sr_handleIPpacket` (valid IP checksum,
destination no address of the router) a frame that arrives with TTL 0 is not
handed to `sr_sendIP`: the call is the `sr_sendICMP(sr, packet, interface, 11, 0)`
call alone.  A frame that is handed to `sr_sendIP` (TTL not 0, a route found,
protocol other than TCP) has TTL at least 1.  When the gateway of its route is
in the cache, it is sent once, on the interface of the route, with TTL exactly
one less than received.  When it is not, the copy queued behind the request for
the gateway has the TTL as received, and the loop of lines 200-208 of
`sr_handleARPpacket`, run on that copy, sends it with TTL exactly one less
than received: the 8-bit decrement wraps in neither place. -/
theorem transit_ttl_decrement (NAMELEN : Nat) (route : Nat → Option sr_rt)
    (sr : sr_instance) (packet : List Nat) (len : Nat) (interface : List Nat)
    (iface : Option sr_if) (curtime instime : Int)
    (hlen : 34 ≤ packet.length) (hbytes : ∀ b ∈ packet, b < 256)
    (hok : cksum (peek (poke packet 24 [0, 0]) 14 20) = get_u16 packet 24)
    (hremote : sr_get_interface_from_ip sr (get_u32 packet 30) = none) :
    (get_u8 packet 22 = 0 →
      sr_handleIPpacket NAMELEN route sr packet len interface iface curtime instime =
        (sr_sendICMP sr packet interface 11 0).map (fun s => (s, packet))) ∧
    (get_u8 packet 22 ≠ 0 → ∀ (rt : sr_rt) (ifc : sr_if),
      route (get_u32 packet 30) = some rt → get_u8 packet 23 ≠ 6 →
      sr_get_interface sr rt.interface = some ifc → ifc.addr.length = 6 →
      34 ≤ len → len ≤ packet.length →
      1 ≤ get_u8 packet 22 ∧
      (∀ entry : sr_arpentry, (sr_arpcache_lookup sr.cache rt.gw).2 = some entry →
        entry.mac.length = 6 → ∃ out,
          sr_handleIPpacket NAMELEN route sr packet len interface iface curtime instime =
            some ({ sr with sent := sr.sent ++ [(rt.interface, out.take len)] }, out) ∧
          get_u8 (out.take len) 22 + 1 = get_u8 packet 22) ∧
      ((sr_arpcache_lookup sr.cache rt.gw).2 = none →
        sr_handleIPpacket NAMELEN route sr packet len interface iface curtime instime =
          (handle_arpreq
            { sr with cache := (sr_arpcache_queuereq NAMELEN sr.cache rt.gw
                (some (poke packet 6 (ifc.addr.take 6))) len (some rt.interface)).1 }
            (sr_arpcache_queuereq NAMELEN sr.cache rt.gw
                (some (poke packet 6 (ifc.addr.take 6))) len (some rt.interface)).2
            curtime instime).map (fun h => (h.sr, poke packet 6 (ifc.addr.take 6))) ∧
        ∃ r rest queued,
          (sr_arpcache_queuereq NAMELEN sr.cache rt.gw
              (some (poke packet 6 (ifc.addr.take 6))) len (some rt.interface)).1.requests[
            (sr_arpcache_queuereq NAMELEN sr.cache rt.gw
              (some (poke packet 6 (ifc.addr.take 6))) len (some rt.interface)).2]? = some r ∧
          r.ip = rt.gw ∧ r.packets = queued :: rest ∧ queued.len = len ∧
          get_u8 queued.buf 22 = get_u8 packet 22 ∧
          ∀ (R : sr_if) (sha : List Nat) (s : sr_instance),
            R.addr.length = 6 → sha.length = 6 → ∃ frame,
              drain_pending (some R) sha s [queued] =
                some { s with sent := s.sent ++ [(R.name, frame)] } ∧
              get_u8 frame 22 + 1 = get_u8 packet 22)) := by
  have hT := sr_handleIPpacket_transit NAMELEN route sr packet len interface iface curtime
    instime hlen hbytes hok hremote
  have h22 := get_u8_eq packet 22 (by omega)
  have hb : get_u8 packet 22 < 256 := hbytes _ (List.getElem?_mem h22)
  constructor
  · intro h0
    rw [hT, if_pos h0]
  · intro h0 rt ifc hroute hproto hif hadr h34 hle
    have hcases := sr_sendIP_cases NAMELEN sr packet len rt interface curtime instime ifc hlen hif
    have hres : sr_handleIPpacket NAMELEN route sr packet len interface iface curtime instime =
        sr_sendIP NAMELEN sr packet len (some rt) interface curtime instime := by
      rw [hT, if_neg h0, hroute]
      simp only [if_neg hproto]
    refine ⟨by omega, ?_, ?_⟩
    · intro entry hentry hmac
      refine ⟨forward_rewrite packet ifc.addr entry.mac, ?_, ?_⟩
      · rw [hres, hcases.1 entry hentry]
        rfl
      · rw [get_u8_take _ _ _ (by omega), forward_rewrite_ttl _ _ _ hlen hadr hmac]
        omega
    · intro hmiss
      obtain ⟨r, rest, hr, hip, hpk⟩ := queuereq_head_packet NAMELEN sr.cache rt.gw
        (poke packet 6 (ifc.addr.take 6)) len rt.interface (by omega)
      have hpl : (poke packet 6 (ifc.addr.take 6)).length = packet.length :=
        length_poke _ _ _ (by simp [hadr]; omega)
      have hq22 : get_u8 ((poke packet 6 (ifc.addr.take 6)).take len) 22 = get_u8 packet 22 := by
        rw [get_u8_take _ _ _ (by omega), get_u8_poke_ge _ _ _ _ (by omega) (by simp [hadr])]
      have hql : 34 ≤ ((poke packet 6 (ifc.addr.take 6)).take len).length := by
        rw [List.length_take, hpl]; omega
      refine ⟨by rw [hres]; exact (hcases.2 hmiss).1, r, rest, _, hr, hip, hpk, rfl, hq22, ?_⟩
      intro R sha s hR hsha
      refine ⟨(forward_rewrite ((poke packet 6 (ifc.addr.take 6)).take len) R.addr sha).take len,
        ?_, ?_⟩
      · rw [drain_pending_spec R sha _ s (by
          intro p hp
          rw [List.mem_singleton] at hp
          subst hp
          exact hql)]
        rfl
      · rw [get_u8_take _ _ _ (by omega), forward_rewrite_ttl _ _ _ hql hR hsha, hq22]
        omega

set_option maxRecDepth 20000 in
/-- The amended C27 at a concrete router: `frame_ttl1`, with TTL 1, is sent by
`idle_router` with TTL 0 along `route_hit`, whose gateway is in the cache. -/
theorem transit_ttl_decrement_witness :
    ∃ out,
      sr_handleIPpacket 32 (fun _ => some route_hit) idle_router frame_ttl1 42 eth1
          (some eth1_if) 100 100 =
        some ({ idle_router with sent := idle_router.sent ++ [(eth1, out.take 42)] }, out) ∧
      get_u8 (out.take 42) 22 + 1 = get_u8 frame_ttl1 22 :=
  ((transit_ttl_decrement 32 (fun _ => some route_hit) idle_router frame_ttl1 42 eth1
    (some eth1_if) 100 100 (by decide) (by decide) (by decide) (by decide)).2 (by decide)
    route_hit eth1_if rfl (by decide) (by decide) (by decide) (by decide) (by decide)).2.1
    old_slot (by decide) (by decide)

/-! ## The frame of `sr_sendICMP` -/

theorem cksum_lt (data : List Nat) : cksum data < 65536 := by
  unfold cksum htons
  omega

theorem get_u16_cksum (data : List Nat) :
    cksum data % 256 + 256 * (cksum data / 256 % 256) = cksum data := by
  have := cksum_lt data
  omega

/-- C21: for type 3 and type 11, an offending frame of at least 42 bytes and an
interface `iface` that exists and has a 6-byte MAC, `sr_sendICMP` sends exactly
one frame, on `iface`, of 70 bytes: Ethernet destination the Ethernet source of
the offending frame, Ethernet source the MAC of the interface, EtherType
0x0800; IP protocol 1, IP source the address of the interface, IP destination
the IP source of the offending frame, TTL 64, total length 20 + 36, and a
header checksum equal to the checksum of the 20 header bytes with the field
zeroed; ICMP type and code as given, the 4 bytes after the checksum zero, the
28 data bytes equal to the IP header and the next 8 bytes of the offending
frame, and an ICMP checksum equal to the checksum of the 36 bytes of the ICMP
message with the field zeroed. -/
theorem sr_sendICMP_frame (sr : sr_instance) (packet iface : List Nat) (type code : Nat)
    (ifc : sr_if) (ht : type = 3 ∨ type = 11) (hlen : 42 ≤ packet.length)
    (hif : sr_get_interface sr iface = some ifc) (hadr : ifc.addr.length = 6) :
    ∃ frame,
      sr_sendICMP sr packet iface type code =
        some { sr with sent := sr.sent ++ [(iface, frame)] } ∧
      frame.length = 70 ∧
      peek frame 0 6 = peek packet 6 6 ∧ peek frame 6 6 = ifc.addr ∧ peek frame 12 2 = [8, 0] ∧
      peek frame 23 1 = [1] ∧ peek frame 26 4 = u32_bytes ifc.ip ∧
      peek frame 30 4 = peek packet 26 4 ∧ peek frame 22 1 = [64] ∧
      peek frame 16 2 = [0, 20 + 36] ∧
      get_u16 frame 24 = cksum (peek (poke frame 24 [0, 0]) 14 20) ∧
      peek frame 34 2 = [type % 256, code % 256] ∧ peek frame 38 4 = [0, 0, 0, 0] ∧
      peek frame 42 28 = peek packet 14 28 ∧
      get_u16 frame 36 = cksum (peek (poke frame 36 [0, 0]) 34 36) := by
  refine ⟨icmp_frame packet ifc type code,
    sr_sendICMP_error sr packet iface type code ifc ht hlen hif, ?_⟩
  obtain ⟨b0, b1, b2, b3, b4, b5, b6, b7, b8, b9, b10, b11, b12, b13, b14, b15, b16, b17,
    b18, b19, b20, b21, b22, b23, b24, b25, b26, b27, b28, b29, b30, b31, b32, b33, b34, b35,
    b36, b37, b38, b39, b40, b41, rest, rfl⟩ := prefix42 packet hlen
  obtain ⟨a0, a1, a2, a3, a4, a5, ha⟩ := mac6 ifc.addr hadr
  simp only [icmp_frame, ht, if_true, ha]
  simp [poke, peek, u16_bytes, u32_bytes, htons, List.replicate, get_u16, get_u8,
    get_u16_cksum]

set_option maxRecDepth 20000 in
/-- C21 at a concrete router: `idle_router` answers `frame42` on `eth1` with
type 11 code 0. -/
theorem sr_sendICMP_frame_witness :
    ∃ frame,
      sr_sendICMP idle_router frame42 eth1 11 0 =
        some { idle_router with sent := idle_router.sent ++ [(eth1, frame)] } ∧
      frame.length = 70 ∧
      peek frame 0 6 = peek frame42 6 6 ∧ peek frame 6 6 = eth1_if.addr ∧
      peek frame 12 2 = [8, 0] ∧
      peek frame 23 1 = [1] ∧ peek frame 26 4 = u32_bytes eth1_if.ip ∧
      peek frame 30 4 = peek frame42 26 4 ∧ peek frame 22 1 = [64] ∧
      peek frame 16 2 = [0, 20 + 36] ∧
      get_u16 frame 24 = cksum (peek (poke frame 24 [0, 0]) 14 20) ∧
      peek frame 34 2 = [11 % 256, 0 % 256] ∧ peek frame 38 4 = [0, 0, 0, 0] ∧
      peek frame 42 28 = peek frame42 14 28 ∧
      get_u16 frame 36 = cksum (peek (poke frame 36 [0, 0]) 34 36) :=
  sr_sendICMP_frame idle_router frame42 eth1 11 0 eth1_if (Or.inr rfl) (by decide) (by decide)
    (by decide)

/-! ## `tcp_cksum` -/

theorem get_u8_poke_lt (buf : List Nat) (off : Nat) (src : List Nat) (i : Nat)
    (h : off ≤ buf.length) (hi : i < off) : get_u8 (poke buf off src) i = get_u8 buf i := by
  unfold get_u8
  rw [List.getD_eq_getElem?_getD, List.getD_eq_getElem?_getD, getElem?_poke _ _ _ _ h, if_pos hi]

theorem get_u16_poke (buf : List Nat) (off v : Nat) (h : off + 2 ≤ buf.length)
    (hv : v < 65536) : get_u16 (poke buf off (u16_bytes v)) off = v := by
  have hl2 := length_u16_bytes v
  unfold get_u16 get_u8
  have h1 : ¬ off < off := by omega
  have h2 : off < off + (u16_bytes v).length := by omega
  have h3 : ¬ off + 1 < off := by omega
  have h4 : off + 1 < off + (u16_bytes v).length := by omega
  simp only [List.getD_eq_getElem?_getD, getElem?_poke _ _ _ _ (show off ≤ buf.length by omega),
    h1, h2, h3, h4, if_true, if_false]
  simp [u16_bytes]
  omega

theorem poke_poke (buf : List Nat) (off : Nat) (a b : List Nat) (hab : a.length = b.length)
    (h : off + a.length ≤ buf.length) : poke (poke buf off a) off b = poke buf off b := by
  have hl : (poke buf off a).length = buf.length := length_poke _ _ _ h
  apply List.ext_getElem?
  intro i
  rw [getElem?_poke _ _ _ _ (by omega), getElem?_poke _ _ _ _ (by omega),
    getElem?_poke _ _ _ _ (by omega)]
  by_cases h1 : i < off
  · simp only [if_pos h1]
  · simp only [if_neg h1]
    by_cases h2 : i < off + b.length
    · simp only [if_pos h2]
    · have h3 : ¬ i < off + a.length := by omega
      simp only [if_neg h2, if_neg h3]

theorem htons_bytes (x : Nat) : u16_bytes (htons x) = [x / 256 % 256, x % 256] := by
  have ha : x % 256 < 256 := Nat.mod_lt _ (by decide)
  have hb : x / 256 % 256 < 256 := Nat.mod_lt _ (by decide)
  unfold u16_bytes htons
  generalize x % 256 = a at ha
  generalize x / 256 % 256 = b at hb
  have h1 : (a * 256 + b) % 256 = b := by omega
  have h2 : (a * 256 + b) / 256 = a := by omega
  rw [h1, h2, Nat.mod_eq_of_lt ha]

theorem length4 (x : List Nat) (h : x.length = 4) : ∃ a b c d, x = [a, b, c, d] := by
  match x, h with
  | [a, b, c, d], _ => exact ⟨_, _, _, _, rfl⟩

/-- C22: for a frame that holds `len` bytes, the two headers and the TCP
checksum field (`34 ≤ len ≤` the buffer length, at least 52 bytes, `len − 34`
a 16-bit value), let `e` be the Internet checksum of the pseudo-header (IP
source, IP destination, zero, protocol, `len − 34` in network byte order)
followed by the `len − 34` bytes of the TCP segment with its checksum field
zeroed.  `tcp_cksum` returns 0 when the checksum field equals `e` and 1
otherwise; in both cases the buffer afterwards is the frame with the field set
to `e`, and a second `tcp_cksum` call on that buffer returns 0 and leaves it as
it is. -/
theorem tcp_cksum_spec (packet : List Nat) (len e : Nat)
    (h34 : 34 ≤ len) (hle : len ≤ packet.length) (h52 : 52 ≤ packet.length)
    (hmax : len - 34 < 65536)
    (he : e = cksum (peek packet 26 4 ++ peek packet 30 4 ++ [0, get_u8 packet 23] ++
      [(len - 34) / 256 % 256, (len - 34) % 256] ++ peek (poke packet 50 [0, 0]) 34 (len - 34))) :
    tcp_cksum packet len =
      some (poke packet 50 (u16_bytes e), if get_u16 packet 50 = e then 0 else 1) ∧
    get_u16 (poke packet 50 (u16_bytes e)) 50 = e ∧
    tcp_cksum (poke packet 50 (u16_bytes e)) len = some (poke packet 50 (u16_bytes e), 0) := by
  have hg : ¬ (len < 34 ∨ packet.length < len ∨ packet.length < 52) := by omega
  have hmod : (len - 34) % 65536 = len - 34 := Nat.mod_eq_of_lt hmax
  have hps : ∀ p : List Nat, 52 ≤ p.length →
      poke (poke (poke (poke (List.replicate 12 0) 0 (peek p 26 4)) 4 (peek p 30 4)) 9
        [get_u8 p 23]) 10 (u16_bytes (htons (len - 34))) =
      peek p 26 4 ++ peek p 30 4 ++ [0, get_u8 p 23] ++
        [(len - 34) / 256 % 256, (len - 34) % 256] := by
    intro p hp
    obtain ⟨a0, a1, a2, a3, ha⟩ := length4 (peek p 26 4) (length_peek _ _ _ (by omega))
    obtain ⟨c0, c1, c2, c3, hc⟩ := length4 (peek p 30 4) (length_peek _ _ _ (by omega))
    rw [ha, hc, htons_bytes]
    simp [poke, List.replicate]
  have key : ∀ p : List Nat, 52 ≤ p.length → len ≤ p.length →
      tcp_cksum p len =
        some (poke p 50 (u16_bytes (cksum (peek p 26 4 ++ peek p 30 4 ++ [0, get_u8 p 23] ++
            [(len - 34) / 256 % 256, (len - 34) % 256] ++ peek (poke p 50 [0, 0]) 34 (len - 34)))),
          if get_u16 p 50 = cksum (peek p 26 4 ++ peek p 30 4 ++ [0, get_u8 p 23] ++
            [(len - 34) / 256 % 256, (len - 34) % 256] ++ peek (poke p 50 [0, 0]) 34 (len - 34))
          then 0 else 1) := by
    intro p hp hlp
    have hg : ¬ (len < 34 ∨ p.length < len ∨ p.length < 52) := by omega
    unfold tcp_cksum
    rw [if_neg hg]
    simp only [hmod, hps p hp]
    rw [poke_poke p 50 [0, 0] _ (by simp [u16_bytes]) (by simpa using hp)]
    by_cases hc : get_u16 p 50 = cksum (peek p 26 4 ++ peek p 30 4 ++ [0, get_u8 p 23] ++
        [(len - 34) / 256 % 256, (len - 34) % 256] ++ peek (poke p 50 [0, 0]) 34 (len - 34))
    · rw [if_neg (not_not.mpr hc), if_pos hc]
    · rw [if_pos hc, if_neg hc]
  have hE : e < 65536 := by rw [he]; exact cksum_lt _
  have hl2 : (poke packet 50 (u16_bytes e)).length = packet.length :=
    length_poke _ _ _ (by simpa [u16_bytes] using h52)
  have hgu := get_u16_poke packet 50 e (by omega) hE
  refine ⟨by rw [key packet h52 hle, ← he], hgu, ?_⟩
  have e1 : peek (poke packet 50 (u16_bytes e)) 26 4 = peek packet 26 4 :=
    peek_poke_disjoint _ _ _ _ _ (by omega) (Or.inl (by omega))
  have e2 : peek (poke packet 50 (u16_bytes e)) 30 4 = peek packet 30 4 :=
    peek_poke_disjoint _ _ _ _ _ (by omega) (Or.inl (by omega))
  have e3 : get_u8 (poke packet 50 (u16_bytes e)) 23 = get_u8 packet 23 :=
    get_u8_poke_lt _ _ _ _ (by omega) (by omega)
  have e4 : poke (poke packet 50 (u16_bytes e)) 50 [0, 0] = poke packet 50 [0, 0] :=
    poke_poke _ _ _ _ (by simp [u16_bytes]) (by simpa [u16_bytes] using h52)
  rw [key _ (by omega) (by omega), e1, e2, e3, e4, ← he, hgu, if_pos rfl,
    poke_poke _ _ _ _ rfl (by simpa [u16_bytes] using h52)]

/-- C22 at a concrete frame: `tcp_frame`, whose checksum field is zero. -/
theorem tcp_cksum_spec_witness :
    tcp_cksum tcp_frame 54 =
      some (poke tcp_frame 50 (u16_bytes 62552),
        if get_u16 tcp_frame 50 = 62552 then 0 else 1) ∧
    get_u16 (poke tcp_frame 50 (u16_bytes 62552)) 50 = 62552 ∧
    tcp_cksum (poke tcp_frame 50 (u16_bytes 62552)) 54 =
      some (poke tcp_frame 50 (u16_bytes 62552), 0) :=
  tcp_cksum_spec tcp_frame 54 62552 (by decide) (by decide) (by decide) (by decide) (by decide)

/-! ## `sr_natHandle`: traffic from the internal interface -/

/-- C23: a TCP segment received on `eth1` in NAT mode, with a valid IP checksum,
a destination that is no address of the router and has a route, a TTL that is
not zero, and a mapping (found, or made when none is found).  `sr_natHandle`
rewrites the IP source and the TCP source port from the mapping and runs
`tcp_cksum` and the connection tracker, and then returns: whatever the tracker
answers, the router is as it was, so the rewritten segment is neither sent nor
queued behind an ARP request (no `sr_sendIP` call follows). -/
theorem nat_tcp_not_sent {NAT : Type} (api : sr_nat_api NAT) (NAMELEN ECHO : Nat)
    (route : Nat → Option sr_rt) (sr : sr_instance) (nat : NAT) (packet : List Nat) (len : Nat)
    (rec_if : sr_if) (iface : List Nat) (curtime instime : Int) (rt : sr_rt)
    (m : sr_nat_mapping)
    (h52 : 52 ≤ packet.length) (h34 : 34 ≤ len) (hle : len ≤ packet.length)
    (hbytes : ∀ b ∈ packet, b < 256)
    (hok : cksum (peek (poke packet 24 [0, 0]) 14 20) = get_u16 packet 24)
    (hname : rec_if.name = eth1)
    (hremote : sr_get_interface_from_ip sr (get_u32 packet 30) = none)
    (hroute : route (get_u32 packet 30) = some rt)
    (httl : get_u8 packet 22 ≠ 0) (hproto : get_u8 packet 23 = 6)
    (hmap : (api.sr_nat_lookup_internal nat (get_u32 packet 26) (htons (get_u16 packet 34))
          .nat_mapping_tcp).2 = some m ∨
      ((api.sr_nat_lookup_internal nat (get_u32 packet 26) (htons (get_u16 packet 34))
          .nat_mapping_tcp).2 = none ∧
        (api.sr_nat_insert_mapping
          (api.sr_nat_lookup_internal nat (get_u32 packet 26) (htons (get_u16 packet 34))
            .nat_mapping_tcp).1
          (get_u32 packet 26) (htons (get_u16 packet 34)) .nat_mapping_tcp).2 = some m)) :
    ∃ nat1 out,
      sr_natHandle api NAMELEN ECHO route sr nat packet len (some rec_if) iface curtime instime
        = some (sr, nat1, out) ∧
      peek out 26 4 = u32_bytes m.ip_ext ∧ peek out 34 2 = u16_bytes m.aux_ext := by
  have hr := poke_restore packet 24 (by omega) hbytes
  have hl : ¬ packet.length < 34 := by omega
  have hl52 : ¬ packet.length < 52 := by omega
  have hp2 : (poke packet 26 (u32_bytes m.ip_ext)).length = packet.length :=
    length_poke _ _ _ (by simp [u32_bytes]; omega)
  have hp3 : (poke (poke packet 26 (u32_bytes m.ip_ext)) 34 (u16_bytes m.aux_ext)).length =
      packet.length := by
    rw [length_poke _ _ _ (by simp [u16_bytes]; omega), hp2]
  have hg : ¬ (len < 34 ∨
      (poke (poke packet 26 (u32_bytes m.ip_ext)) 34 (u16_bytes m.aux_ext)).length < len ∨
      (poke (poke packet 26 (u32_bytes m.ip_ext)) 34 (u16_bytes m.aux_ext)).length < 52) := by
    rw [hp3]; omega
  obtain ⟨t, ht, ht1, ht2⟩ : ∃ t,
      tcp_cksum (poke (poke packet 26 (u32_bytes m.ip_ext)) 34 (u16_bytes m.aux_ext)) len =
        some t ∧ peek t.1 26 4 = u32_bytes m.ip_ext ∧ peek t.1 34 2 = u16_bytes m.aux_ext := by
    have hA : ∀ v : Nat, peek (poke (poke (poke (poke packet 26 (u32_bytes m.ip_ext)) 34
          (u16_bytes m.aux_ext)) 50 [0, 0]) 50 (u16_bytes v)) 26 4 = u32_bytes m.ip_ext := by
      intro v
      rw [peek_poke_disjoint _ _ _ _ _ (by rw [length_poke _ _ _ (by simp; omega)]; omega)
          (Or.inl (by omega)),
        peek_poke_disjoint _ _ _ _ _ (by omega) (Or.inl (by omega)),
        peek_poke_disjoint _ _ _ _ _ (by omega) (Or.inl (by omega))]
      exact peek_poke_same _ _ _ _ (by omega) rfl
    have hB : ∀ v : Nat, peek (poke (poke (poke (poke packet 26 (u32_bytes m.ip_ext)) 34
          (u16_bytes m.aux_ext)) 50 [0, 0]) 50 (u16_bytes v)) 34 2 = u16_bytes m.aux_ext := by
      intro v
      rw [peek_poke_disjoint _ _ _ _ _ (by rw [length_poke _ _ _ (by simp; omega)]; omega)
          (Or.inl (by omega)),
        peek_poke_disjoint _ _ _ _ _ (by omega) (Or.inl (by omega))]
      exact peek_poke_same _ _ _ _ (by omega) rfl
    unfold tcp_cksum
    rw [if_neg hg]
    simp only []
    split
    · exact ⟨_, rfl, hA _, hB _⟩
    · exact ⟨_, rfl, hA _, hB _⟩
  rcases hmap with h | ⟨h, h2⟩
  · refine ⟨(api.sr_nat_handle_internal_conn
        (api.sr_nat_lookup_internal nat (get_u32 packet 26) (htons (get_u16 packet 34))
          .nat_mapping_tcp).1 m t.1 len).1, t.1, ?_, ht1, ht2⟩
    simp only [sr_natHandle, if_neg hl, hr, hok, hname, natHandle_internal, hremote, hroute]
    simp only [ne_eq, not_true_eq_false, if_false, if_true, Option.isSome_none,
      Option.isNone_some, Bool.false_eq_true, or_self, if_neg httl, if_pos hproto, if_neg hl52,
      h, ht, ite_self]
  · refine ⟨(api.sr_nat_handle_internal_conn
        (api.sr_nat_insert_mapping
          (api.sr_nat_lookup_internal nat (get_u32 packet 26) (htons (get_u16 packet 34))
            .nat_mapping_tcp).1
          (get_u32 packet 26) (htons (get_u16 packet 34)) .nat_mapping_tcp).1 m t.1 len).1,
      t.1, ?_, ht1, ht2⟩
    simp only [sr_natHandle, if_neg hl, hr, hok, hname, natHandle_internal, hremote, hroute]
    simp only [ne_eq, not_true_eq_false, if_false, if_true, Option.isSome_none,
      Option.isNone_some, Bool.false_eq_true, or_self, if_neg httl, if_pos hproto, if_neg hl52,
      h, h2, ht, ite_self]

set_option maxRecDepth 20000 in
/-- C23 at a concrete router: `tcp_frame`, received by `nat_router` on `eth1`
with an empty NAT table that accepts every connection, is rewritten and not
sent. -/
theorem nat_tcp_not_sent_witness :
    ∃ nat1 out,
      sr_natHandle (nat_table 16781484) 32 8 (fun _ => some route_out) nat_router [] tcp_frame
          54 (some eth1_if) eth1 100 100 = some (nat_router, nat1, out) ∧
      peek out 26 4 = u32_bytes 16781484 ∧ peek out 34 2 = u16_bytes 1024 :=
  nat_tcp_not_sent (nat_table 16781484) 32 8 (fun _ => some route_out) nat_router [] tcp_frame
    54 eth1_if eth1 100 100 route_out
    { ip_int := 83951626, ip_ext := 16781484, aux_int := 8080, aux_ext := 1024 }
    (by decide) (by decide) (by decide) (by decide) (by decide) (by decide) (by decide) rfl
    (by decide) (by decide) (Or.inr ⟨by decide, by decide⟩)

set_option maxRecDepth 20000 in
/-- C24: `nat_echo` is an ICMP echo request with two payload bytes, valid IP and
ICMP checksums (the ICMP checksum over all `len − 34 = 10` bytes of the
message) and TTL 64, received by `nat_router` on `eth1` for a destination that
is no address of the router and has a route.  With an echo header of 8 bytes,
`sr_natHandle` sends one frame, on `eth2`, with the address of `eth2` as IP
source, the identifier 1024 of the mapping, and an IP checksum that verifies;
its ICMP checksum is the checksum of the first 8 bytes of the message only and
does not verify over the 10 bytes of the message. -/
theorem nat_echo_checksum_short :
    (cksum (peek (poke nat_echo 24 [0, 0]) 14 20) = get_u16 nat_echo 24 ∧
      cksum (peek (poke nat_echo 36 [0, 0]) 34 (44 - 34)) = get_u16 nat_echo 36 ∧
      peek nat_echo 34 2 = [8, 0] ∧ get_u8 nat_echo 22 = 64 ∧
      sr_get_interface_from_ip nat_router (get_u32 nat_echo 30) = none) ∧
    (sr_natHandle (nat_table 16781484) 32 8 (fun _ => some route_out) nat_router [] nat_echo 44
        (some eth1_if) eth1 100 100).map
      (fun r => r.1.sent.map (fun f => (f.1, peek f.2 26 4 ++ peek f.2 38 2))) =
      some [(eth2, [172, 16, 0, 1, 4, 0])] ∧
    (sr_natHandle (nat_table 16781484) 32 8 (fun _ => some route_out) nat_router [] nat_echo 44
        (some eth1_if) eth1 100 100).map
      (fun r => r.1.sent.map (fun f =>
        (decide (get_u16 f.2 24 = cksum (peek (poke f.2 24 [0, 0]) 14 20)),
          decide (get_u16 f.2 36 = cksum (peek (poke f.2 36 [0, 0]) 34 8)),
          decide (get_u16 f.2 36 = cksum (peek (poke f.2 36 [0, 0]) 34 (44 - 34)))))) =
      some [(true, true, false)] := by
  refine ⟨⟨by decide, by decide, by decide, by decide, by decide⟩, by decide, by decide⟩

set_option maxRecDepth 20000 in
/-- C25: two echo requests of one internal flow (`nat_echo`, from 10.0.1.5 with
identifier 0x1234) handled one after the other, starting from an empty NAT
table.  For each, `sr_natHandle` looks up the key with the address
`ntohl(ip_src)` = 167772421 and, finding nothing, inserts a mapping with the
address `ip_src` = 83951626: the second packet does not find the mapping the
first one made, and the table ends with two mappings for the same
(internal address, identifier, type).  Two TCP segments of one flow
(`tcp_frame`) are looked up and inserted with the same key, and the second
finds the mapping of the first. -/
theorem nat_icmp_lookup_key_differs :
    ((sr_natHandle (nat_table 16781484) 32 8 (fun _ => some route_out) nat_router [] nat_echo 44
        (some eth1_if) eth1 100 100).bind
      (fun r => sr_natHandle (nat_table 16781484) 32 8 (fun _ => some route_out) r.1 r.2.1
        nat_echo 44 (some eth1_if) eth1 101 101)).map (fun r => r.2.1) =
      some [.lookup_internal 167772421 4660 .nat_mapping_icmp,
        .insert_mapping 83951626 4660 .nat_mapping_icmp,
        .lookup_internal 167772421 4660 .nat_mapping_icmp,
        .insert_mapping 83951626 4660 .nat_mapping_icmp] ∧
    nat_mappings 16781484
        [.lookup_internal 167772421 4660 .nat_mapping_icmp,
          .insert_mapping 83951626 4660 .nat_mapping_icmp,
          .lookup_internal 167772421 4660 .nat_mapping_icmp,
          .insert_mapping 83951626 4660 .nat_mapping_icmp] 0 =
      [(.nat_mapping_icmp,
          { ip_int := 83951626, ip_ext := 16781484, aux_int := 4660, aux_ext := 1024 }),
        (.nat_mapping_icmp,
          { ip_int := 83951626, ip_ext := 16781484, aux_int := 4660, aux_ext := 1025 })] ∧
    ((sr_natHandle (nat_table 16781484) 32 8 (fun _ => some route_out) nat_router [] tcp_frame 54
        (some eth1_if) eth1 100 100).bind
      (fun r => sr_natHandle (nat_table 16781484) 32 8 (fun _ => some route_out) r.1 r.2.1
        tcp_frame 54 (some eth1_if) eth1 101 101)).map (fun r => r.2.1) =
      some [.lookup_internal 83951626 8080 .nat_mapping_tcp,
        .insert_mapping 83951626 8080 .nat_mapping_tcp, .handle_conn,
        .lookup_internal 83951626 8080 .nat_mapping_tcp, .handle_conn] := by
  refine ⟨by decide, by decide, by decide⟩

/-! ## The `sr_arpcache_insert` call of `handle_arpreq` -/

end Router
